import Mathlib

/-!
Server-side peer engine (libfreerdp-core/peer.c).


A shallow embedding of `peer.c`: the four operations of the handle
(`freerdp_peer_initialize`, `freerdp_peer_get_fds`, `freerdp_peer_check_fds`,
`freerdp_peer_disconnect`), `freerdp_peer_context_new` and
`freerdp_peer_context_free`, and the receive path (`peer_recv_callback` and
the functions it calls), followed by theorems about it.

Conventions of the embedding.

* `peer.c` includes `peer.h` only; every enum constant it names
  (`CONNECTION_STATE_*`, `DATA_PDU_TYPE_*`, `PDU_TYPE_DATA`,
  `MCS_GLOBAL_CHANNEL_ID`, `FASTPATH_OUTPUT_ENCRYPTED`) is declared in headers
  that are not part of the source tree at hand.  They are fields of `Consts`,
  a parameter of every function that uses them.
* Every function `peer.c` calls but does not define (handshake acceptors,
  codecs, data-PDU acceptors, the MCS sender, the fast-path input reader) is a
  field of `Env`, again a parameter.  The embedder callbacks are values stored
  in the slots of the handle.
* The C code mutates `*client` and `*s` in place.  Here the pair travels in a
  `Mach` together with `trace`, a ghost log to which the embedding appends one
  `Call` for each external function or callback that the C code calls, in
  call order.  The code never reads the log.  `printf` is not modelled.
* A C `switch` becomes an `if … else if …` chain over the case labels in
  source order, the `default:` label last.
-/

namespace PeerEngine

/-! ## Constants -/

/-- Enum constants and macros that `peer.c` uses and that its headers (absent
from the source tree) declare.  State codes are C `int`s, the others are
compared with `uint8`/`uint16` values. -/
structure Consts where
  CONNECTION_STATE_INITIAL : Int
  CONNECTION_STATE_NEGO : Int
  CONNECTION_STATE_MCS_CONNECT : Int
  CONNECTION_STATE_MCS_ERECT_DOMAIN : Int
  CONNECTION_STATE_MCS_ATTACH_USER : Int
  CONNECTION_STATE_MCS_CHANNEL_JOIN : Int
  CONNECTION_STATE_LICENSE : Int
  CONNECTION_STATE_ACTIVE : Int
  DATA_PDU_TYPE_SYNCHRONIZE : Nat
  DATA_PDU_TYPE_CONTROL : Nat
  DATA_PDU_TYPE_BITMAP_CACHE_PERSISTENT_LIST : Nat
  DATA_PDU_TYPE_FONT_LIST : Nat
  DATA_PDU_TYPE_SHUTDOWN_REQUEST : Nat
  PDU_TYPE_DATA : Nat
  MCS_GLOBAL_CHANNEL_ID : Nat
  FASTPATH_OUTPUT_ENCRYPTED : Nat

/-- The case labels of the switch over the connection state
(`peer_recv_callback`), in source order. -/
def Consts.stateLabels (c : Consts) : List Int :=
  [c.CONNECTION_STATE_INITIAL, c.CONNECTION_STATE_NEGO, c.CONNECTION_STATE_MCS_CONNECT,
   c.CONNECTION_STATE_MCS_ERECT_DOMAIN, c.CONNECTION_STATE_MCS_ATTACH_USER,
   c.CONNECTION_STATE_MCS_CHANNEL_JOIN, c.CONNECTION_STATE_LICENSE,
   c.CONNECTION_STATE_ACTIVE]

/-- The case labels of the switch over the share-data type
(`peer_recv_data_pdu`), in source order. -/
def Consts.dataPduLabels (c : Consts) : List Nat :=
  [c.DATA_PDU_TYPE_SYNCHRONIZE, c.DATA_PDU_TYPE_CONTROL,
   c.DATA_PDU_TYPE_BITMAP_CACHE_PERSISTENT_LIST, c.DATA_PDU_TYPE_FONT_LIST,
   c.DATA_PDU_TYPE_SHUTDOWN_REQUEST]

/-- A C compiler accepts a `switch` only when its case labels are pairwise
distinct; this is the condition on `Consts` under which the `if` chains below
are the two switches of `peer.c`. -/
def Consts.WellFormed (c : Consts) : Prop :=
  c.stateLabels.Nodup ∧ c.dataPduLabels.Nodup

instance (c : Consts) : Decidable c.WellFormed := by
  unfold Consts.WellFormed; infer_instance

/-! ## Data model -/

/-- The two fields of `rdpSettings` that `peer.c` touches. -/
structure rdpSettings where
  server_mode : Bool
  pdu_source : Nat
  deriving DecidableEq, Repr

/-- The RDP core `client->context->rdp`.  `state` and `settings` are the
fields `peer.c` reads or writes itself; `rest` stands for everything else the
core owns (transport, mcs, fastpath, input, update, and the embedder's part of
the context), which `peer.c` only hands to other functions. -/
structure rdpRdp (σ : Type) where
  state : Int
  settings : rdpSettings
  rest : σ

/-- Modelled from the spec: the embedder callbacks `PostConnect(client)` and
`Activate(client)` are not defined in `peer.c`.  The spec gives the embedder
read-only views of the core (§6) and leaves the advancing of `state` to the
acceptors (§4.3), so a callback reads the core, returns its verdict and
the new value of `rest`.  In C the callback is handed the handle itself; a
callback that rewrites the slots of the handle it is called through has no
counterpart here, and the statements about the FONT_LIST case name the slot
values at the lines that read them (peer.c:83 and peer.c:93). -/
abbrev Callback (σ : Type) := rdpRdp σ → Bool × σ

/-- Modelled from the spec: the embedder hooks `ContextNew(client, context)`
and `ContextFree(client, context)`, which return nothing. -/
abbrev Hook (σ : Type) := rdpRdp σ → σ

/-- The four static functions that `freerdp_peer_new` stores in the handle. -/
inductive EngineOp
  | freerdp_peer_initialize
  | freerdp_peer_get_fds
  | freerdp_peer_check_fds
  | freerdp_peer_disconnect
  deriving DecidableEq, Repr

/-- The address of a heap object (`freerdp_peer*`, `rdpContext*`, `rdpRdp*`);
0 is NULL. -/
abbrev Ptr := Nat

/-- The function `rdp->transport->recv_callback` points to. -/
inductive RecvCallback
  | peer_recv_callback
  deriving DecidableEq, Repr

/-- The peer handle `freerdp_peer`.  `rdp` is the core that
`client->context->rdp` points to: the four operations and the receive path
dereference `client->context` without a test, and `freerdp_peer_context_new`
puts the fresh core there.  `client->settings` is the alias of `rdp.settings`
that `freerdp_peer_context_new` installs.  A NULL function pointer is `none`.

The last seven fields are the pointers that `freerdp_peer_context_new` stores
(peer.c:251-263), each under the name of its C path: `client->context`,
`client->context->rdp`, `client->context->peer`, `client->update->context`,
`client->input->context`, `rdp->transport->recv_callback` and
`rdp->transport->recv_extra`.  All are NULL in a handle fresh from `xnew`.
`client->input` and `client->update` are aliases into the core and have no
field of their own. -/
structure freerdp_peer (σ : Type) where
  rdp : rdpRdp σ
  sockfd : Int
  context_size : Nat
  ContextNew : Option (Hook σ)
  ContextFree : Option (Hook σ)
  PostConnect : Option (Callback σ)
  Activate : Option (Callback σ)
  Initialize : Option EngineOp
  GetFileDescriptor : Option EngineOp
  CheckFileDescriptor : Option EngineOp
  Disconnect : Option EngineOp
  context : Ptr := 0
  context_rdp : Ptr := 0
  context_peer : Ptr := 0
  update_context : Ptr := 0
  input_context : Ptr := 0
  recv_callback : Option RecvCallback := none
  recv_extra : Ptr := 0

/-- One entry of the ghost log: the external function or callback that was
called.  The callbacks carry the value they returned, `rdp_decrypt` the length
it was given, `xzalloc`, `transport_attach` and `transport_set_blocking_mode`
their scalar argument. -/
inductive Call
  | rdp_server_accept_nego
  | rdp_server_accept_mcs_connect_initial
  | rdp_server_accept_mcs_erect_domain_request
  | rdp_server_accept_mcs_attach_user_request
  | rdp_server_accept_mcs_channel_join_request
  | rdp_server_accept_client_info
  | rdp_server_accept_confirm_active
  | tpkt_verify_header
  | rdp_read_header
  | rdp_read_share_control_header
  | rdp_read_share_data_header
  | rdp_recv_client_synchronize_pdu
  | rdp_server_accept_client_control_pdu
  | rdp_server_accept_client_font_list_pdu
  | PostConnect (ret : Bool)
  | Activate (ret : Bool)
  | mcs_send_disconnect_provider_ultimatum
  | fastpath_read_header_rdp
  | rdp_decrypt (length : Nat)
  | fastpath_recv_inputs
  | rdp_check_fds
  | transport_disconnect
  | rdp_new
  | xzalloc (size : Nat)
  | update_register_server_callbacks
  | transport_attach (sockfd : Int)
  | transport_set_blocking_mode (blocking : Bool)
  | ContextNew
  | ContextFree
  deriving DecidableEq, Repr

/-- The seven handshake acceptors of `peer_recv_callback`. -/
def Call.isHandshakeAcceptor : Call → Bool
  | .rdp_server_accept_nego => true
  | .rdp_server_accept_mcs_connect_initial => true
  | .rdp_server_accept_mcs_erect_domain_request => true
  | .rdp_server_accept_mcs_attach_user_request => true
  | .rdp_server_accept_mcs_channel_join_request => true
  | .rdp_server_accept_client_info => true
  | .rdp_server_accept_confirm_active => true
  | _ => false

/-- Not a handshake acceptor.  Everything the active-phase demultiplexer
`peer_recv_pdu` can call is of this kind: the codecs, the data-PDU acceptors,
the two callbacks, the MCS sender and the fast-path functions. -/
def Call.isActivePath (e : Call) : Bool := !e.isHandshakeAcceptor

/-! ## External collaborators -/

/-- Result of `rdp_read_header(rdp, s, &length, &channelId)`. -/
structure RdpHeader (σ S : Type) where
  ok : Bool
  length : Nat
  channelId : Nat
  rest : σ
  s : S

/-- Result of `rdp_read_share_control_header(s, &pduLength, &pduType,
&client->settings->pdu_source)`; `pdu_source` is the content of the third
out-parameter when the call returns. -/
structure ShareControlHeader (S : Type) where
  ok : Bool
  pduLength : Nat
  pduType : Nat
  pdu_source : Nat
  s : S

/-- Result of `rdp_read_share_data_header(s, &length, &type, &share_id,
&compressed_type, &compressed_len)`. -/
structure ShareDataHeader (S : Type) where
  ok : Bool
  length : Nat
  type : Nat
  share_id : Nat
  compressed_type : Nat
  compressed_len : Nat
  s : S

/-- The functions `peer.c` calls and does not define.  Each takes what its C
arguments let it reach and returns its C result together with the new value of
what it may write.

Modelled from the spec: the codecs (`tpkt_verify_header`, `rdp_read_header`,
the share-control, share-data and fast-path header readers, `rdp_decrypt`)
"parse bytes; they do not decide state" (§1), so those that receive the core
return a new `rest` only; the same holds for the MCS sender and the fast-path
input reader, which receive `rdp->mcs` and `rdp->fastpath`.  The acceptors that
receive `rdp` may rewrite the whole core, `state` and `settings` included. -/
structure Env (σ S : Type) where
  rdp_server_accept_nego : rdpRdp σ → S → Bool × rdpRdp σ × S
  rdp_server_accept_mcs_connect_initial : rdpRdp σ → S → Bool × rdpRdp σ × S
  rdp_server_accept_mcs_erect_domain_request : rdpRdp σ → S → Bool × rdpRdp σ × S
  rdp_server_accept_mcs_attach_user_request : rdpRdp σ → S → Bool × rdpRdp σ × S
  rdp_server_accept_mcs_channel_join_request : rdpRdp σ → S → Bool × rdpRdp σ × S
  rdp_server_accept_client_info : rdpRdp σ → S → Bool × rdpRdp σ × S
  rdp_server_accept_confirm_active : rdpRdp σ → S → Bool × rdpRdp σ × S
  tpkt_verify_header : S → Bool × S
  rdp_read_header : rdpRdp σ → S → RdpHeader σ S
  rdp_read_share_control_header : S → Nat → ShareControlHeader S
  rdp_read_share_data_header : S → ShareDataHeader S
  rdp_recv_client_synchronize_pdu : S → Bool × S
  rdp_server_accept_client_control_pdu : rdpRdp σ → S → Bool × rdpRdp σ × S
  rdp_server_accept_client_font_list_pdu : rdpRdp σ → S → Bool × rdpRdp σ × S
  mcs_send_disconnect_provider_ultimatum : σ → σ
  fastpath_read_header_rdp : σ → S → Nat × σ × S
  fastpath_encryptionFlags : σ → Nat
  stream_get_left : S → Int
  rdp_decrypt : rdpRdp σ → S → Nat → σ × S
  fastpath_recv_inputs : σ → S → Bool × σ × S

/-! ## Machine state -/

/-- The peer handle, the stream being delivered and the ghost log. -/
structure Mach (σ S : Type) where
  client : freerdp_peer σ
  s : S
  trace : List Call

/-- Appends one entry to the ghost log. -/
def Mach.log {σ S : Type} (m : Mach σ S) (e : Call) : Mach σ S :=
  { m with trace := m.trace ++ [e] }

/-- Stores a new core in the handle (`*client->context->rdp` after a call that
received `rdp`). -/
def Mach.setRdp {σ S : Type} (m : Mach σ S) (r : rdpRdp σ) : Mach σ S :=
  { m with client := { m.client with rdp := r } }

/-- Stores a new `rest` of the core, leaving `state` and `settings`. -/
def Mach.setRest {σ S : Type} (m : Mach σ S) (x : σ) : Mach σ S :=
  m.setRdp { m.client.rdp with rest := x }

/-- Stores the stream as a callee left it. -/
def Mach.setStream {σ S : Type} (m : Mach σ S) (s : S) : Mach σ S :=
  { m with s := s }

/-- One call of a function of shape `f(rdp, s)` that returns a boolean: the
seven handshake acceptors and the control and font-list acceptors. -/
def Mach.callRdp {σ S : Type} (m : Mach σ S)
    (f : rdpRdp σ → S → Bool × rdpRdp σ × S) (e : Call) : Bool × Mach σ S :=
  let r := f m.client.rdp m.s
  (r.1, ((m.setRdp r.2.1).setStream r.2.2).log e)

/-! ## The functions of peer.c -/

/-- Embedding of `freerdp_peer_initialize` (peer.c:22-28). -/
def freerdp_peer_initialize {σ : Type} (c : Consts) (client : freerdp_peer σ) :
    Bool × freerdp_peer σ :=
  let client1 : freerdp_peer σ :=
    { client with rdp := { client.rdp with
        settings := { client.rdp.settings with server_mode := true } } }
  let client2 : freerdp_peer σ :=
    { client1 with rdp := { client1.rdp with state := c.CONNECTION_STATE_INITIAL } }
  (true, client2)

/-- The statement `client->PostConnect = NULL` (peer.c:91). -/
def Mach.clearPostConnect {σ S : Type} (m : Mach σ S) : Mach σ S :=
  { m with client := { m.client with PostConnect := none } }

/-- The block `if (client->PostConnect) { ... }` of the FONT_LIST case
(peer.c:83-92).  The boolean is false when the block executes `return False`,
true when control falls through to the next statement. -/
def font_list_PostConnect {σ S : Type} (m : Mach σ S) : Bool × Mach σ S :=
  match m.client.PostConnect with
  | some f =>
    let v := f m.client.rdp
    let m1 := (m.setRest v.2).log (Call.PostConnect v.1)
    if !v.1 then (false, m1)
    else (true, m1.clearPostConnect)
  | none => (true, m)

/-- The block `if (client->Activate) { ... }` of the FONT_LIST case
(peer.c:93-98), with the same convention. -/
def font_list_Activate {σ S : Type} (m : Mach σ S) : Bool × Mach σ S :=
  match m.client.Activate with
  | some g =>
    let w := g m.client.rdp
    let m1 := (m.setRest w.2).log (Call.Activate w.1)
    if !w.1 then (false, m1) else (true, m1)
  | none => (true, m)

/-- Embedding of `peer_recv_data_pdu` (peer.c:52-111). -/
def peer_recv_data_pdu {σ S : Type} (c : Consts) (env : Env σ S) (m : Mach σ S) :
    Bool × Mach σ S :=
  let h := env.rdp_read_share_data_header m.s
  let m1 := (m.setStream h.s).log Call.rdp_read_share_data_header
  if !h.ok then (false, m1)
  else if h.type = c.DATA_PDU_TYPE_SYNCHRONIZE then
    let r := env.rdp_recv_client_synchronize_pdu m1.s
    let m2 := (m1.setStream r.2).log Call.rdp_recv_client_synchronize_pdu
    if !r.1 then (false, m2) else (true, m2)
  else if h.type = c.DATA_PDU_TYPE_CONTROL then
    let r := m1.callRdp env.rdp_server_accept_client_control_pdu
      Call.rdp_server_accept_client_control_pdu
    if !r.1 then (false, r.2) else (true, r.2)
  else if h.type = c.DATA_PDU_TYPE_BITMAP_CACHE_PERSISTENT_LIST then
    (true, m1)
  else if h.type = c.DATA_PDU_TYPE_FONT_LIST then
    let r := m1.callRdp env.rdp_server_accept_client_font_list_pdu
      Call.rdp_server_accept_client_font_list_pdu
    if !r.1 then (false, r.2)
    else
      let p := font_list_PostConnect r.2
      if !p.1 then (false, p.2)
      else
        let a := font_list_Activate p.2
        if !a.1 then (false, a.2) else (true, a.2)
  else if h.type = c.DATA_PDU_TYPE_SHUTDOWN_REQUEST then
    let m2 := (m1.setRest (env.mcs_send_disconnect_provider_ultimatum m1.client.rdp.rest)).log
      Call.mcs_send_disconnect_provider_ultimatum
    (false, m2)
  else
    (true, m1)

/-- Embedding of `peer_recv_tpkt_pdu` (peer.c:113-149). -/
def peer_recv_tpkt_pdu {σ S : Type} (c : Consts) (env : Env σ S) (m : Mach σ S) :
    Bool × Mach σ S :=
  let h := env.rdp_read_header m.client.rdp m.s
  let m1 := ((m.setRest h.rest).setStream h.s).log Call.rdp_read_header
  if !h.ok then (false, m1)
  else if h.channelId ≠ c.MCS_GLOBAL_CHANNEL_ID then
    (true, m1)
  else
    let sc := env.rdp_read_share_control_header m1.s m1.client.rdp.settings.pdu_source
    let m2 := ((m1.setRdp { m1.client.rdp with
        settings := { m1.client.rdp.settings with pdu_source := sc.pdu_source } }).setStream
        sc.s).log Call.rdp_read_share_control_header
    if !sc.ok then (false, m2)
    else if sc.pduType = c.PDU_TYPE_DATA then
      let r := peer_recv_data_pdu c env m2
      if !r.1 then (false, r.2) else (true, r.2)
    else
      (false, m2)

/-- Embedding of `peer_recv_fastpath_pdu` (peer.c:151-173).  `length` is the
`uint16` that the header reader returned, `stream_get_left(s)` a signed
difference; the comparison is made after integer promotion. -/
def peer_recv_fastpath_pdu {σ S : Type} (c : Consts) (env : Env σ S) (m : Mach σ S) :
    Bool × Mach σ S :=
  let h := env.fastpath_read_header_rdp m.client.rdp.rest m.s
  let length : Nat := h.1
  let m1 := ((m.setRest h.2.1).setStream h.2.2).log Call.fastpath_read_header_rdp
  if length = 0 ∨ (length : Int) > env.stream_get_left m1.s then (false, m1)
  else
    let m2 :=
      if Nat.land (env.fastpath_encryptionFlags m1.client.rdp.rest)
          c.FASTPATH_OUTPUT_ENCRYPTED ≠ 0 then
        let d := env.rdp_decrypt m1.client.rdp m1.s length
        ((m1.setRest d.1).setStream d.2).log (Call.rdp_decrypt length)
      else m1
    let r := env.fastpath_recv_inputs m2.client.rdp.rest m2.s
    (r.1, ((m2.setRest r.2.1).setStream r.2.2).log Call.fastpath_recv_inputs)

/-- Embedding of `peer_recv_pdu` (peer.c:175-181). -/
def peer_recv_pdu {σ S : Type} (c : Consts) (env : Env σ S) (m : Mach σ S) :
    Bool × Mach σ S :=
  let v := env.tpkt_verify_header m.s
  let m1 := (m.setStream v.2).log Call.tpkt_verify_header
  if v.1 then peer_recv_tpkt_pdu c env m1
  else peer_recv_fastpath_pdu c env m1

/-- Embedding of `peer_recv_callback` (peer.c:183-235); `m.client` is `extra`,
`m.s` the delivered stream.  The `transport` argument is not used by the C
body. -/
def peer_recv_callback {σ S : Type} (c : Consts) (env : Env σ S) (m : Mach σ S) :
    Bool × Mach σ S :=
  let state := m.client.rdp.state
  if state = c.CONNECTION_STATE_INITIAL then
    let r := m.callRdp env.rdp_server_accept_nego Call.rdp_server_accept_nego
    if !r.1 then (false, r.2) else (true, r.2)
  else if state = c.CONNECTION_STATE_NEGO then
    let r := m.callRdp env.rdp_server_accept_mcs_connect_initial
      Call.rdp_server_accept_mcs_connect_initial
    if !r.1 then (false, r.2) else (true, r.2)
  else if state = c.CONNECTION_STATE_MCS_CONNECT then
    let r := m.callRdp env.rdp_server_accept_mcs_erect_domain_request
      Call.rdp_server_accept_mcs_erect_domain_request
    if !r.1 then (false, r.2) else (true, r.2)
  else if state = c.CONNECTION_STATE_MCS_ERECT_DOMAIN then
    let r := m.callRdp env.rdp_server_accept_mcs_attach_user_request
      Call.rdp_server_accept_mcs_attach_user_request
    if !r.1 then (false, r.2) else (true, r.2)
  else if state = c.CONNECTION_STATE_MCS_ATTACH_USER then
    let r := m.callRdp env.rdp_server_accept_mcs_channel_join_request
      Call.rdp_server_accept_mcs_channel_join_request
    if !r.1 then (false, r.2) else (true, r.2)
  else if state = c.CONNECTION_STATE_MCS_CHANNEL_JOIN then
    let r := m.callRdp env.rdp_server_accept_client_info Call.rdp_server_accept_client_info
    if !r.1 then (false, r.2) else (true, r.2)
  else if state = c.CONNECTION_STATE_LICENSE then
    let r := m.callRdp env.rdp_server_accept_confirm_active
      Call.rdp_server_accept_confirm_active
    if !r.1 then (false, r.2) else (true, r.2)
  else if state = c.CONNECTION_STATE_ACTIVE then
    let r := peer_recv_pdu c env m
    if !r.1 then (false, r.2) else (true, r.2)
  else
    (false, m)

/-! ## Sequences of deliveries -/

/-- One upcall of the transport: the receive callback is invoked with the
stream `s` and the peer as it stands. -/
def deliver {σ S : Type} (c : Consts) (env : Env σ S) (m : Mach σ S) (s : S) :
    Bool × Mach σ S :=
  peer_recv_callback c env (m.setStream s)

/-- Modelled from the spec: the sequence of upcalls the transport makes over
the life of a peer is not code of `peer.c`.  §4.3 and §4.5: a receive callback
that fails is connection-fatal, "the transport reacts by tearing down the
session; no retry is attempted".  So the streams are delivered in order for as
long as the callback returns true, and nothing is delivered after a false
return. -/
def deliverAll {σ S : Type} (c : Consts) (env : Env σ S) : Mach σ S → List S → Mach σ S
  | m, [] => m
  | m, s :: ss =>
    if (deliver c env m s).1 then deliverAll c env (deliver c env m s).2 ss
    else (deliver c env m s).2

/-- The values the receive callback returned, one for each stream that
`deliverAll` delivered. -/
def returns {σ S : Type} (c : Consts) (env : Env σ S) : Mach σ S → List S → List Bool
  | _, [] => []
  | m, s :: ss =>
    if (deliver c env m s).1 then true :: returns c env (deliver c env m s).2 ss
    else [false]

/-- The values returned by the invocations of `PostConnect` in a log, in
order. -/
def postConnectRets (t : List Call) : List Bool :=
  t.filterMap fun e => match e with
    | Call.PostConnect v => some v
    | _ => none

/-- The values returned by the invocations of `Activate` in a log, in order. -/
def activateRets (t : List Call) : List Bool :=
  t.filterMap fun e => match e with
    | Call.Activate v => some v
    | _ => none

/-! ## Scenarios on the TPKT path

The values the header readers return along the TPKT path of one delivery, and
the machine that reaches `peer_recv_data_pdu`.  They name the objects that the
statements below speak about; `peer_recv_pdu_eq_data_pdu` ties them to the
code. -/

/-- The stream as `tpkt_verify_header` left it. -/
def tpktStream {σ S : Type} (env : Env σ S) (m : Mach σ S) : S :=
  (env.tpkt_verify_header m.s).2

/-- What `rdp_read_header` returns on the TPKT path (peer.c:120). -/
def rdpHeaderRead {σ S : Type} (env : Env σ S) (m : Mach σ S) : RdpHeader σ S :=
  env.rdp_read_header m.client.rdp (tpktStream env m)

/-- What `rdp_read_share_control_header` returns on the global channel
(peer.c:132). -/
def shareControlRead {σ S : Type} (env : Env σ S) (m : Mach σ S) : ShareControlHeader S :=
  env.rdp_read_share_control_header (rdpHeaderRead env m).s m.client.rdp.settings.pdu_source

/-- What `rdp_read_share_data_header` returns for a DATA PDU (peer.c:61). -/
def shareDataRead {σ S : Type} (env : Env σ S) (m : Mach σ S) : ShareDataHeader S :=
  env.rdp_read_share_data_header (shareControlRead env m).s

/-- The delivery to `m` passes the TPKT header check and its RDP header reads
successfully. -/
def IsTpktPdu {σ S : Type} (env : Env σ S) (m : Mach σ S) : Prop :=
  (env.tpkt_verify_header m.s).1 = true ∧ (rdpHeaderRead env m).ok = true

/-- The delivery to `m` is a TPKT-framed PDU on the global channel whose
share-control header reads successfully. -/
def IsGlobalPdu {σ S : Type} (c : Consts) (env : Env σ S) (m : Mach σ S) : Prop :=
  IsTpktPdu env m ∧ (rdpHeaderRead env m).channelId = c.MCS_GLOBAL_CHANNEL_ID ∧
    (shareControlRead env m).ok = true

/-- The delivery to `m` is a TPKT-framed global-channel share-control DATA PDU
whose share-data header reads successfully with the given type. -/
def IsDataPdu {σ S : Type} (c : Consts) (env : Env σ S) (m : Mach σ S) (type : Nat) : Prop :=
  IsGlobalPdu c env m ∧ (shareControlRead env m).pduType = c.PDU_TYPE_DATA ∧
    (shareDataRead env m).ok = true ∧ (shareDataRead env m).type = type

instance {σ S : Type} (env : Env σ S) (m : Mach σ S) : Decidable (IsTpktPdu env m) := by
  unfold IsTpktPdu; infer_instance

instance {σ S : Type} (c : Consts) (env : Env σ S) (m : Mach σ S) :
    Decidable (IsGlobalPdu c env m) := by
  unfold IsGlobalPdu; infer_instance

instance {σ S : Type} (c : Consts) (env : Env σ S) (m : Mach σ S) (type : Nat) :
    Decidable (IsDataPdu c env m type) := by
  unfold IsDataPdu; infer_instance

/-- The core as the header readers of the TPKT path leave it: `rest` from
`rdp_read_header`, `settings.pdu_source` from the share-control header reader,
`state` and `server_mode` untouched. -/
def rdpAfterHeaders {σ S : Type} (env : Env σ S) (m : Mach σ S) : rdpRdp σ :=
  { state := m.client.rdp.state
    settings := { m.client.rdp.settings with pdu_source := (shareControlRead env m).pdu_source }
    rest := (rdpHeaderRead env m).rest }

/-- The machine that `peer_recv_tpkt_pdu` hands to `peer_recv_data_pdu`
(peer.c:138). -/
def dataPduInput {σ S : Type} (env : Env σ S) (m : Mach σ S) : Mach σ S :=
  { client := { m.client with rdp := rdpAfterHeaders env m }
    s := (shareControlRead env m).s
    trace := m.trace ++ [Call.tpkt_verify_header, Call.rdp_read_header,
      Call.rdp_read_share_control_header] }

/-- What the font-list acceptor returns when the delivery to `m` is a
FONT_LIST data PDU (peer.c:81). -/
def fontListAccept {σ S : Type} (env : Env σ S) (m : Mach σ S) : Bool × rdpRdp σ × S :=
  env.rdp_server_accept_client_font_list_pdu (rdpAfterHeaders env m) (shareDataRead env m).s

/-- The machine after the font-list acceptor has returned (peer.c:83) in a
delivery of a FONT_LIST data PDU to `m`. -/
def afterFontList {σ S : Type} (env : Env σ S) (m : Mach σ S) : Mach σ S :=
  { client := { m.client with rdp := (fontListAccept env m).2.1 }
    s := (fontListAccept env m).2.2
    trace := m.trace ++ [Call.tpkt_verify_header, Call.rdp_read_header,
      Call.rdp_read_share_control_header, Call.rdp_read_share_data_header,
      Call.rdp_server_accept_client_font_list_pdu] }

/-- The machine at peer.c:93 in a delivery of a FONT_LIST data PDU to `m`
whose PostConnect block fell through: as the font-list acceptor left it when
the PostConnect slot is null; otherwise with the `rest` that `PostConnect`
returned, the invocation logged and the slot null. -/
def afterPostConnect {σ S : Type} (env : Env σ S) (m : Mach σ S) : Mach σ S :=
  match m.client.PostConnect with
  | some f =>
    (((afterFontList env m).setRest (f (fontListAccept env m).2.1).2).log
      (Call.PostConnect true)).clearPostConnect
  | none => afterFontList env m

/-- What the control acceptor returns when the delivery to `m` is a CONTROL
data PDU (peer.c:72). -/
def controlAccept {σ S : Type} (env : Env σ S) (m : Mach σ S) : Bool × rdpRdp σ × S :=
  env.rdp_server_accept_client_control_pdu (rdpAfterHeaders env m) (shareDataRead env m).s

/-! ## The state table of the spec -/

/-- The eight states of the state table (spec §4.3). -/
inductive Phase
  | INITIAL
  | NEGO
  | MCS_CONNECT
  | MCS_ERECT_DOMAIN
  | MCS_ATTACH_USER
  | MCS_CHANNEL_JOIN
  | LICENSE
  | ACTIVE
  deriving DecidableEq, Repr

/-- The code of a state of the table. -/
def Phase.code (c : Consts) : Phase → Int
  | .INITIAL => c.CONNECTION_STATE_INITIAL
  | .NEGO => c.CONNECTION_STATE_NEGO
  | .MCS_CONNECT => c.CONNECTION_STATE_MCS_CONNECT
  | .MCS_ERECT_DOMAIN => c.CONNECTION_STATE_MCS_ERECT_DOMAIN
  | .MCS_ATTACH_USER => c.CONNECTION_STATE_MCS_ATTACH_USER
  | .MCS_CHANNEL_JOIN => c.CONNECTION_STATE_MCS_CHANNEL_JOIN
  | .LICENSE => c.CONNECTION_STATE_LICENSE
  | .ACTIVE => c.CONNECTION_STATE_ACTIVE

/-- The column "Acceptor on inbound stream" of the state table, written from
the spec: the acceptor of each handshake state, none for ACTIVE. -/
def Phase.acceptor {σ S : Type} (env : Env σ S) :
    Phase → Option ((rdpRdp σ → S → Bool × rdpRdp σ × S) × Call)
  | .INITIAL => some (env.rdp_server_accept_nego, Call.rdp_server_accept_nego)
  | .NEGO => some (env.rdp_server_accept_mcs_connect_initial,
      Call.rdp_server_accept_mcs_connect_initial)
  | .MCS_CONNECT => some (env.rdp_server_accept_mcs_erect_domain_request,
      Call.rdp_server_accept_mcs_erect_domain_request)
  | .MCS_ERECT_DOMAIN => some (env.rdp_server_accept_mcs_attach_user_request,
      Call.rdp_server_accept_mcs_attach_user_request)
  | .MCS_ATTACH_USER => some (env.rdp_server_accept_mcs_channel_join_request,
      Call.rdp_server_accept_mcs_channel_join_request)
  | .MCS_CHANNEL_JOIN => some (env.rdp_server_accept_client_info,
      Call.rdp_server_accept_client_info)
  | .LICENSE => some (env.rdp_server_accept_confirm_active,
      Call.rdp_server_accept_confirm_active)
  | .ACTIVE => none

/-- The handler the state table names for a state, written from the spec: the
acceptor of the state, or the active-phase demultiplexer. -/
def tableHandler {σ S : Type} (c : Consts) (env : Env σ S) (ph : Phase) (m : Mach σ S) :
    Bool × Mach σ S :=
  match ph.acceptor env with
  | some (f, e) => m.callRdp f e
  | none => peer_recv_pdu c env m

/-- The state the table gives as "next state on success". -/
def Phase.next : Phase → Phase
  | .INITIAL => .NEGO
  | .NEGO => .MCS_CONNECT
  | .MCS_CONNECT => .MCS_ERECT_DOMAIN
  | .MCS_ERECT_DOMAIN => .MCS_ATTACH_USER
  | .MCS_ATTACH_USER => .MCS_CHANNEL_JOIN
  | .MCS_CHANNEL_JOIN => .LICENSE
  | .LICENSE => .ACTIVE
  | .ACTIVE => .ACTIVE

/-- The acceptor that the state table gives for the state `ph`, called with
the core of `m` and the stream `s`, returns true and leaves the code of the
table's next state in `state`.  (The table gives no acceptor for ACTIVE.) -/
def AcceptsAt {σ S : Type} (c : Consts) (env : Env σ S) (ph : Phase) (m : Mach σ S) (s : S) :
    Prop :=
  match ph.acceptor env with
  | some (fn, _) =>
    (fn m.client.rdp s).1 = true ∧ (fn m.client.rdp s).2.1.state = ph.next.code c
  | none => True

instance {σ S : Type} (c : Consts) (env : Env σ S) (ph : Phase) (m : Mach σ S) (s : S) :
    Decidable (AcceptsAt c env ph m s) := by
  unfold AcceptsAt; split <;> infer_instance

/-- On the streams `ss`, delivered one after the other to the peer `m` from
the state `ph` of the table on, every acceptor succeeds and advances the state
as the table says: the acceptor of `ph` on the first stream and the core of
`m`, the acceptor of the next state on the second stream and the core that
the first delivery left, and so on. -/
def HandshakeRun {σ S : Type} (c : Consts) (env : Env σ S) : Phase → Mach σ S → List S → Prop
  | _, _, [] => True
  | ph, m, s :: ss =>
    AcceptsAt c env ph m s ∧ HandshakeRun c env ph.next (deliver c env m s).2 ss

instance {σ S : Type} (c : Consts) (env : Env σ S) (ph : Phase) (m : Mach σ S) (ss : List S) :
    Decidable (HandshakeRun c env ph m ss) := by
  induction ss generalizing ph m with
  | nil => unfold HandshakeRun; infer_instance
  | cons s ss ih => unfold HandshakeRun; exact instDecidableAnd

/-! ## A concrete instance

Streams are lists of numbers, the opaque part of the core is a counter of the
PDUs the MCS layer has sent.  The constants have the values of the RDP wire
protocol. -/

/-- A well-formed assignment of the constants. -/
def sampleConsts : Consts where
  CONNECTION_STATE_INITIAL := 0
  CONNECTION_STATE_NEGO := 1
  CONNECTION_STATE_MCS_CONNECT := 2
  CONNECTION_STATE_MCS_ERECT_DOMAIN := 3
  CONNECTION_STATE_MCS_ATTACH_USER := 4
  CONNECTION_STATE_MCS_CHANNEL_JOIN := 5
  CONNECTION_STATE_LICENSE := 6
  CONNECTION_STATE_ACTIVE := 9
  DATA_PDU_TYPE_SYNCHRONIZE := 31
  DATA_PDU_TYPE_CONTROL := 20
  DATA_PDU_TYPE_BITMAP_CACHE_PERSISTENT_LIST := 43
  DATA_PDU_TYPE_FONT_LIST := 39
  DATA_PDU_TYPE_SHUTDOWN_REQUEST := 36
  PDU_TYPE_DATA := 7
  MCS_GLOBAL_CHANNEL_ID := 1003
  FASTPATH_OUTPUT_ENCRYPTED := 2

/-- A handshake acceptor that succeeds, consumes the stream and moves the
state to `next`. -/
def acceptTo (next : Int) (r : rdpRdp Nat) (_ : List Nat) : Bool × rdpRdp Nat × List Nat :=
  (true, { r with state := next }, [])

/-- A data-PDU acceptor that succeeds, consumes the stream and leaves the
core. -/
def acceptKeep (r : rdpRdp Nat) (_ : List Nat) : Bool × rdpRdp Nat × List Nat :=
  (true, r, [])

/-- Mock collaborators.  A TPKT stream is `3 :: channelId :: pduType ::
pduSource :: type :: payload`; any other stream is fast-path,
`flags :: length :: payload`. -/
def sampleEnv : Env Nat (List Nat) where
  rdp_server_accept_nego := acceptTo sampleConsts.CONNECTION_STATE_NEGO
  rdp_server_accept_mcs_connect_initial := acceptTo sampleConsts.CONNECTION_STATE_MCS_CONNECT
  rdp_server_accept_mcs_erect_domain_request :=
    acceptTo sampleConsts.CONNECTION_STATE_MCS_ERECT_DOMAIN
  rdp_server_accept_mcs_attach_user_request :=
    acceptTo sampleConsts.CONNECTION_STATE_MCS_ATTACH_USER
  rdp_server_accept_mcs_channel_join_request :=
    acceptTo sampleConsts.CONNECTION_STATE_MCS_CHANNEL_JOIN
  rdp_server_accept_client_info := acceptTo sampleConsts.CONNECTION_STATE_LICENSE
  rdp_server_accept_confirm_active := acceptTo sampleConsts.CONNECTION_STATE_ACTIVE
  tpkt_verify_header := fun s => (s.head? == some 3, s)
  rdp_read_header := fun r s =>
    match s with
    | _ :: ch :: t => ⟨true, t.length, ch, r.rest, t⟩
    | _ => ⟨false, 0, 0, r.rest, s⟩
  rdp_read_share_control_header := fun s old =>
    match s with
    | ty :: src :: t => ⟨true, t.length, ty, src, t⟩
    | _ => ⟨false, 0, 0, old, s⟩
  rdp_read_share_data_header := fun s =>
    match s with
    | ty :: t => ⟨true, t.length, ty, 0, 0, 0, t⟩
    | _ => ⟨false, 0, 0, 0, 0, 0, s⟩
  rdp_recv_client_synchronize_pdu := fun _ => (true, [])
  rdp_server_accept_client_control_pdu := acceptKeep
  rdp_server_accept_client_font_list_pdu := acceptKeep
  mcs_send_disconnect_provider_ultimatum := fun n => n + 1
  fastpath_read_header_rdp := fun x s =>
    match s with
    | _ :: len :: t => (len, x, t)
    | _ => (0, x, s)
  fastpath_encryptionFlags := fun _ => 0
  stream_get_left := fun s => s.length
  rdp_decrypt := fun r s _ => (r.rest, s)
  fastpath_recv_inputs := fun x _ => (true, x, [])

/-- A callback that accepts. -/
def cbTrue : Callback Nat := fun r => (true, r.rest)

/-- A callback that rejects. -/
def cbFalse : Callback Nat := fun r => (false, r.rest)

/-- A peer in the given state with the given callbacks installed, as
`freerdp_peer_new` and `freerdp_peer_context_new` leave it. -/
def samplePeer (state : Int) (pc act : Option (Callback Nat)) : freerdp_peer Nat where
  rdp := { state := state, settings := { server_mode := true, pdu_source := 0 }, rest := 0 }
  sockfd := 5
  context_size := 64
  ContextNew := none
  ContextFree := none
  PostConnect := pc
  Activate := act
  Initialize := some EngineOp.freerdp_peer_initialize
  GetFileDescriptor := some EngineOp.freerdp_peer_get_fds
  CheckFileDescriptor := some EngineOp.freerdp_peer_check_fds
  Disconnect := some EngineOp.freerdp_peer_disconnect

/-- The machine at the start of a delivery of `s` to `samplePeer`. -/
def sampleMach (state : Int) (pc act : Option (Callback Nat)) (s : List Nat) :
    Mach Nat (List Nat) :=
  { client := samplePeer state pc act, s := s, trace := [] }

/-- A TPKT stream on the global channel carrying a share-control DATA PDU of
the given share-data type. -/
def dataStream (type : Nat) : List Nat := [3, 1003, 7, 1002, type]

/-- The sample peer at a reactivation: a first FONT_LIST PDU was delivered in
state ACTIVE with both callbacks installed and accepting, then a SYNCHRONIZE
PDU, and a second FONT_LIST PDU is about to be delivered. -/
def reactivationMach : Mach Nat (List Nat) :=
  (deliverAll sampleConsts sampleEnv
    (peer_recv_callback sampleConsts sampleEnv
      (sampleMach 9 (some cbTrue) (some cbTrue) (dataStream 39))).2
    [dataStream 31]).setStream (dataStream 39)

/-- `sampleEnv` with a font-list acceptor that succeeds and moves the state
back to LICENSE, the state that awaits a Confirm-Active. -/
def sampleEnvDrift : Env Nat (List Nat) :=
  { sampleEnv with
    rdp_server_accept_client_font_list_pdu := acceptTo sampleConsts.CONNECTION_STATE_LICENSE }

/-- `sampleEnv` with a negotiation acceptor that succeeds, advances the state
to NEGO and clears `server_mode`. -/
def sampleEnvClearing : Env Nat (List Nat) :=
  { sampleEnv with
    rdp_server_accept_nego := fun r _ =>
      (true, { r with state := sampleConsts.CONNECTION_STATE_NEGO
                      settings := { r.settings with server_mode := false } }, []) }

/-- PostConnect bookkeeping of one step from `m` to the result `r`: either
`PostConnect` was not invoked and its slot is as before; or it was invoked
once, returned false, the slot is as before and the step returned false; or it
was invoked once, returned true and the slot is now null. -/
def PCStep {σ S : Type} (m : Mach σ S) (r : Bool × Mach σ S) : Prop :=
  (postConnectRets r.2.trace = postConnectRets m.trace ∧
      r.2.client.PostConnect = m.client.PostConnect)
  ∨ (postConnectRets r.2.trace = postConnectRets m.trace ++ [false] ∧
      r.2.client.PostConnect = m.client.PostConnect ∧ r.1 = false ∧
      m.client.PostConnect ≠ none)
  ∨ (postConnectRets r.2.trace = postConnectRets m.trace ++ [true] ∧
      r.2.client.PostConnect = none ∧ m.client.PostConnect ≠ none)

/-- `Adds P t u`: the log `u` is `t` followed by entries that all satisfy
`P`. -/
def Adds (P : Call → Bool) (t u : List Call) : Prop :=
  ∃ d, u = t ++ d ∧ ∀ e ∈ d, P e = true

/-! ## Scenarios on the fast-path path -/

/-- What `fastpath_read_header_rdp` returns when the delivery to `m` fails the
TPKT header check (peer.c:159): the length, the new `rest` and the stream. -/
def fastpathHeaderRead {σ S : Type} (env : Env σ S) (m : Mach σ S) : Nat × σ × S :=
  env.fastpath_read_header_rdp m.client.rdp.rest (tpktStream env m)

/-- The value of `stream_get_left(s)` in the length test (peer.c:161). -/
def fastpathLeft {σ S : Type} (env : Env σ S) (m : Mach σ S) : Int :=
  env.stream_get_left (fastpathHeaderRead env m).2.2

/-- The test `fastpath->encryptionFlags & FASTPATH_OUTPUT_ENCRYPTED`
(peer.c:167), on the flags as the header reader left them. -/
def fastpathEncrypted {σ S : Type} (c : Consts) (env : Env σ S) (m : Mach σ S) : Bool :=
  decide (Nat.land (env.fastpath_encryptionFlags (fastpathHeaderRead env m).2.1)
    c.FASTPATH_OUTPUT_ENCRYPTED ≠ 0)

/-- The machine that enters `peer_recv_fastpath_pdu` (peer.c:180). -/
def fastpathInput {σ S : Type} (env : Env σ S) (m : Mach σ S) : Mach σ S :=
  (m.setStream (tpktStream env m)).log Call.tpkt_verify_header

/-- The machine after the fast-path header has been read (peer.c:161). -/
def afterFastpathHeader {σ S : Type} (env : Env σ S) (m : Mach σ S) : Mach σ S :=
  (((fastpathInput env m).setRest (fastpathHeaderRead env m).2.1).setStream
    (fastpathHeaderRead env m).2.2).log Call.fastpath_read_header_rdp

/-- The machine handed to `fastpath_recv_inputs` (peer.c:172): decrypted when
the encryption flag is set, as the header reader left it otherwise. -/
def fastpathPayload {σ S : Type} (c : Consts) (env : Env σ S) (m : Mach σ S) : Mach σ S :=
  if fastpathEncrypted c env m then
    (((afterFastpathHeader env m).setRest
      (env.rdp_decrypt (afterFastpathHeader env m).client.rdp (afterFastpathHeader env m).s
        (fastpathHeaderRead env m).1).1).setStream
      (env.rdp_decrypt (afterFastpathHeader env m).client.rdp (afterFastpathHeader env m).s
        (fastpathHeaderRead env m).1).2).log (Call.rdp_decrypt (fastpathHeaderRead env m).1)
  else afterFastpathHeader env m

/-! ## What the external functions may leave alone -/

/-- The nine external functions that receive `rdp` and may therefore rewrite
the whole core: the seven handshake acceptors and the control and font-list
acceptors. -/
def Env.acceptors {σ S : Type} (env : Env σ S) : List (rdpRdp σ → S → Bool × rdpRdp σ × S) :=
  [env.rdp_server_accept_nego, env.rdp_server_accept_mcs_connect_initial,
   env.rdp_server_accept_mcs_erect_domain_request,
   env.rdp_server_accept_mcs_attach_user_request,
   env.rdp_server_accept_mcs_channel_join_request, env.rdp_server_accept_client_info,
   env.rdp_server_accept_confirm_active, env.rdp_server_accept_client_control_pdu,
   env.rdp_server_accept_client_font_list_pdu]

/-- No acceptor destroys the property `P` of the core. -/
def Env.Preserves {σ S : Type} (env : Env σ S) (P : rdpRdp σ → Prop) : Prop :=
  ∀ f ∈ env.acceptors, ∀ (r : rdpRdp σ) (s : S), P r → P (f r s).2.1

/-- The property `P` of the core does not depend on `rest`. -/
def RestFrame {σ : Type} (P : rdpRdp σ → Prop) : Prop :=
  ∀ (r : rdpRdp σ) (x : σ), P r → P { r with rest := x }

/-- The property `P` of the core does not depend on `settings.pdu_source`. -/
def SourceFrame {σ : Type} (P : rdpRdp σ → Prop) : Prop :=
  ∀ (r : rdpRdp σ) (v : Nat), P r →
    P { r with settings := { r.settings with pdu_source := v } }

/-! ## The readiness surface and the lifecycle -/

/-- The functions of the transport, the allocator and the core's constructor
that `peer.c` calls outside the receive path and does not define, and
`rdp->transport->tcp->sockfd`, which lives in the part of the core the
embedding keeps opaque.  `rdp_new` gives the address and the content of the
core that `rdp_new(NULL)` returns, `xzalloc` the address of the zeroed block.

Modelled from the spec: `transport_read` stands for the non-blocking read and
frame reassembly of the transport (§1, §4.2): the complete inbound streams
it has now, the status of the I/O (negative when fatal) and the new `rest`. -/
structure Runtime (σ S : Type) where
  tcp_sockfd : σ → Int
  transport_disconnect : σ → σ
  rdp_new : Ptr × rdpRdp σ
  xzalloc : Nat → Ptr
  update_register_server_callbacks : σ → σ
  transport_attach : σ → Int → σ
  transport_set_blocking_mode : σ → Bool → σ
  transport_read : σ → List S × Int × σ

/-- The value of a C `int` after an arithmetic result `x` has been stored in
it (two's complement, 32 bits). -/
def wrapInt (x : Int) : Int := (x + 2 ^ 31) % 2 ^ 32 - 2 ^ 31

/-- Embedding of `freerdp_peer_get_fds` (peer.c:30-36).  `rfds` is the array
of the caller, its entries the `void*` values read as `long`; `rcount` is
`*rcount`.  The conversion `(void*)(long)` of the `int` descriptor keeps its
value.  A write outside the array has no defined result: `none`.  The result
is the return value, the peer, the array and `*rcount`. -/
def freerdp_peer_get_fds {σ S : Type} (rt : Runtime σ S) (client : freerdp_peer σ)
    (rfds : List Int) (rcount : Int) : Option (Bool × freerdp_peer σ × List Int × Int) :=
  if 0 ≤ rcount ∧ rcount < rfds.length then
    some (true, client, rfds.set rcount.toNat (rt.tcp_sockfd client.rdp.rest),
      wrapInt (rcount + 1))
  else none

/-- Embedding of `freerdp_peer_check_fds` (peer.c:38-50).  `rdp_check_fds` is
not defined in `peer.c`; it reaches the whole peer through the transport and
is a parameter here. -/
def freerdp_peer_check_fds {σ S : Type} (rdp_check_fds : Mach σ S → Int × Mach σ S)
    (m : Mach σ S) : Bool × Mach σ S :=
  let r := rdp_check_fds (m.log Call.rdp_check_fds)
  let status := r.1
  if status < 0 then (false, r.2) else (true, r.2)

/-- Embedding of `freerdp_peer_disconnect` (peer.c:237-240). -/
def freerdp_peer_disconnect {σ S : Type} (rt : Runtime σ S) (m : Mach σ S) : Mach σ S :=
  (m.setRest (rt.transport_disconnect m.client.rdp.rest)).log Call.transport_disconnect

/-- The upcalls of one `rdp_check_fds`: each stream is handed to the receive
callback; a callback that returns false is fatal (status -1) and ends the
round. -/
def driveCallbacks {σ S : Type} (c : Consts) (env : Env σ S) (status : Int) :
    Mach σ S → List S → Int × Mach σ S
  | m, [] => (status, m)
  | m, s :: ss =>
    if (deliver c env m s).1 then driveCallbacks c env status (deliver c env m s).2 ss
    else (-1, (deliver c env m s).2)

/-- Modelled from the spec: `rdp_check_fds` is called by `peer.c` and defined
elsewhere.  §4.2: "The transport internally drives reassembly and invokes the
peer's receive callback for each complete inbound stream"; §4.3: a failing
receive callback is connection-fatal; §6: "negative = fatal". -/
def rdp_check_fds {σ S : Type} (c : Consts) (env : Env σ S) (rt : Runtime σ S)
    (m : Mach σ S) : Int × Mach σ S :=
  let p := rt.transport_read m.client.rdp.rest
  let m1 := m.setRest p.2.2
  if p.2.1 < 0 then (p.2.1, m1) else driveCallbacks c env p.2.1 m1 p.1

/-- The statement `IFCALL(hook, client, client->context)`. -/
def call_hook {σ S : Type} (hook : Option (Hook σ)) (e : Call) (m : Mach σ S) : Mach σ S :=
  match hook with
  | some h => (m.setRest (h m.client.rdp)).log e
  | none => m

/-- Embedding of `freerdp_peer_context_new` (peer.c:242-267) for the handle at
address `self` whose content is `m.client`.  The core the handle reaches from
now on is the one `rdp_new` returned; what the handle held as context before is
overwritten and not read.  Allocation is taken to succeed. -/
def freerdp_peer_context_new {σ S : Type} (rt : Runtime σ S) (self : Ptr) (m : Mach σ S) :
    Mach σ S :=
  let rdp := rt.rdp_new
  let m1 := (m.setRdp rdp.2).log Call.rdp_new
  let m2 : Mach σ S :=
    { m1 with client := { m1.client with context := rt.xzalloc m1.client.context_size }
              trace := m1.trace ++ [Call.xzalloc m1.client.context_size] }
  let m3 : Mach σ S := { m2 with client := { m2.client with context_rdp := rdp.1 } }
  let m4 : Mach σ S := { m3 with client := { m3.client with context_peer := self } }
  let m5 : Mach σ S :=
    { m4 with client := { m4.client with update_context := m4.client.context } }
  let m6 : Mach σ S :=
    { m5 with client := { m5.client with input_context := m5.client.context } }
  let m7 := (m6.setRest (rt.update_register_server_callbacks m6.client.rdp.rest)).log
    Call.update_register_server_callbacks
  let m8 := (m7.setRest (rt.transport_attach m7.client.rdp.rest m7.client.sockfd)).log
    (Call.transport_attach m7.client.sockfd)
  let m9 : Mach σ S :=
    { m8 with client := { m8.client with
        recv_callback := some RecvCallback.peer_recv_callback } }
  let m10 : Mach σ S := { m9 with client := { m9.client with recv_extra := self } }
  let m11 := (m10.setRest (rt.transport_set_blocking_mode m10.client.rdp.rest false)).log
    (Call.transport_set_blocking_mode false)
  call_hook m11.client.ContextNew Call.ContextNew m11

/-- Embedding of `freerdp_peer_context_free` (peer.c:269-272). -/
def freerdp_peer_context_free {σ S : Type} (m : Mach σ S) : Mach σ S :=
  call_hook m.client.ContextFree Call.ContextFree m

/-- One later operation of the engine on a peer with its context: the four
operations of the handle, one invocation of the receive callback with a
stream, or `freerdp_peer_context_free`.  Each takes the machine to the one its
embedding returns. -/
inductive Step {σ S : Type} (c : Consts) (env : Env σ S) (rt : Runtime σ S) :
    Mach σ S → Mach σ S → Prop
  | init (m : Mach σ S) :
      Step c env rt m { m with client := ( freerdp_peer_initialize c m.client).2 }
  | get_fds (m : Mach σ S) (rfds : List Int) (rcount : Int)
      (out : Bool × freerdp_peer σ × List Int × Int)
      (h : freerdp_peer_get_fds rt m.client rfds rcount = some out) :
      Step c env rt m { m with client := out.2.1 }
  | check_fds (m : Mach σ S) :
      Step c env rt m ( freerdp_peer_check_fds (rdp_check_fds c env rt) m).2
  | disconnect (m : Mach σ S) :
      Step c env rt m ( freerdp_peer_disconnect rt m)
  | receive (m : Mach σ S) (s : S) :
      Step c env rt m (deliver c env m s).2
  | context_free (m : Mach σ S) :
      Step c env rt m ( freerdp_peer_context_free m)

/-- Any number of later operations, in any order. -/
inductive Steps {σ S : Type} (c : Consts) (env : Env σ S) (rt : Runtime σ S) :
    Mach σ S → Mach σ S → Prop
  | refl (m : Mach σ S) : Steps c env rt m m
  | tail (m p q : Mach σ S) : Steps c env rt m p → Step c env rt p q → Steps c env rt m q

/-- Mock transport and allocator for `sampleEnv`: descriptor 5, a fresh core
at address 1000 in state 0 with `server_mode` off, context blocks at address
2000, and one inbound SYNCHRONIZE PDU ready at each read. -/
def sampleRuntime : Runtime Nat (List Nat) where
  tcp_sockfd := fun _ => 5
  transport_disconnect := fun x => x
  rdp_new := (1000, ⟨0, ⟨false, 0⟩, 0⟩)
  xzalloc := fun _ => 2000
  update_register_server_callbacks := fun x => x
  transport_attach := fun x _ => x
  transport_set_blocking_mode := fun x _ => x
  transport_read := fun x => ([dataStream 31], 1, x)

/-- The sample peer at address 3000 after `freerdp_peer_context_new`. -/
def sampleObj : Mach Nat (List Nat) :=
  freerdp_peer_context_new sampleRuntime 3000 (sampleMach 7 (some cbTrue) (some cbTrue) [])

/-- `sampleEnv` with the fast-path encryption flag set. -/
def sampleEnvEncrypted : Env Nat (List Nat) :=
  { sampleEnv with fastpath_encryptionFlags := fun _ => 2 }

/-- The property `Q` of the handle depends neither on the core nor on the
PostConnect slot. -/
def HandleFrame {σ : Type} (Q : freerdp_peer σ → Prop) : Prop :=
  (∀ (cl : freerdp_peer σ) (r : rdpRdp σ), Q cl → Q { cl with rdp := r }) ∧
  (∀ (cl : freerdp_peer σ), Q cl → Q { cl with PostConnect := none })

/-- The sample peer after `Initialize`. -/
def sampleReady : Mach Nat (List Nat) :=
  { sampleObj with client := ( freerdp_peer_initialize sampleConsts sampleObj.client).2 }

/-- The sample peer after `Initialize`, one handshake stream, one
`CheckFileDescriptor`, `Disconnect` and `freerdp_peer_context_free`. -/
def sampleLife : Mach Nat (List Nat) :=
  freerdp_peer_context_free
    ( freerdp_peer_disconnect sampleRuntime
      ( freerdp_peer_check_fds (rdp_check_fds sampleConsts sampleEnv sampleRuntime)
        (deliver sampleConsts sampleEnv sampleReady [1]).2).2)

/-- `sampleEnv` with handshake acceptors that succeed without advancing the
state. -/
def sampleEnvIdle : Env Nat (List Nat) :=
  { sampleEnv with
    rdp_server_accept_nego := acceptKeep
    rdp_server_accept_mcs_connect_initial := acceptKeep
    rdp_server_accept_mcs_erect_domain_request := acceptKeep
    rdp_server_accept_mcs_attach_user_request := acceptKeep
    rdp_server_accept_mcs_channel_join_request := acceptKeep
    rdp_server_accept_client_info := acceptKeep
    rdp_server_accept_confirm_active := acceptKeep }

/-! ## Basic facts about the store helpers -/

section helpers
variable {σ S : Type}

@[simp] theorem Mach.log_trace (m : Mach σ S) (e : Call) :
    (m.log e).trace = m.trace ++ [e] := rfl
@[simp] theorem Mach.log_client (m : Mach σ S) (e : Call) : (m.log e).client = m.client := rfl
@[simp] theorem Mach.log_s (m : Mach σ S) (e : Call) : (m.log e).s = m.s := rfl
@[simp] theorem Mach.setStream_trace (m : Mach σ S) (s : S) :
    (m.setStream s).trace = m.trace := rfl
@[simp] theorem Mach.setStream_client (m : Mach σ S) (s : S) :
    (m.setStream s).client = m.client := rfl
@[simp] theorem Mach.setStream_s (m : Mach σ S) (s : S) : (m.setStream s).s = s := rfl
@[simp] theorem Mach.setRdp_trace (m : Mach σ S) (r : rdpRdp σ) :
    (m.setRdp r).trace = m.trace := rfl
@[simp] theorem Mach.setRdp_s (m : Mach σ S) (r : rdpRdp σ) : (m.setRdp r).s = m.s := rfl
@[simp] theorem Mach.setRdp_rdp (m : Mach σ S) (r : rdpRdp σ) :
    (m.setRdp r).client.rdp = r := rfl
@[simp] theorem Mach.setRdp_PostConnect (m : Mach σ S) (r : rdpRdp σ) :
    (m.setRdp r).client.PostConnect = m.client.PostConnect := rfl
@[simp] theorem Mach.setRdp_Activate (m : Mach σ S) (r : rdpRdp σ) :
    (m.setRdp r).client.Activate = m.client.Activate := rfl
@[simp] theorem Mach.setRest_trace (m : Mach σ S) (x : σ) :
    (m.setRest x).trace = m.trace := rfl
@[simp] theorem Mach.setRest_s (m : Mach σ S) (x : σ) : (m.setRest x).s = m.s := rfl
@[simp] theorem Mach.setRest_state (m : Mach σ S) (x : σ) :
    (m.setRest x).client.rdp.state = m.client.rdp.state := rfl
@[simp] theorem Mach.setRest_settings (m : Mach σ S) (x : σ) :
    (m.setRest x).client.rdp.settings = m.client.rdp.settings := rfl
@[simp] theorem Mach.setRest_rest (m : Mach σ S) (x : σ) :
    (m.setRest x).client.rdp.rest = x := rfl
@[simp] theorem Mach.setRest_PostConnect (m : Mach σ S) (x : σ) :
    (m.setRest x).client.PostConnect = m.client.PostConnect := rfl
@[simp] theorem Mach.setRest_Activate (m : Mach σ S) (x : σ) :
    (m.setRest x).client.Activate = m.client.Activate := rfl
@[simp] theorem Mach.clearPostConnect_trace (m : Mach σ S) :
    m.clearPostConnect.trace = m.trace := rfl
@[simp] theorem Mach.clearPostConnect_s (m : Mach σ S) : m.clearPostConnect.s = m.s := rfl
@[simp] theorem Mach.clearPostConnect_rdp (m : Mach σ S) :
    m.clearPostConnect.client.rdp = m.client.rdp := rfl
@[simp] theorem Mach.clearPostConnect_Activate (m : Mach σ S) :
    m.clearPostConnect.client.Activate = m.client.Activate := rfl
@[simp] theorem Mach.clearPostConnect_PostConnect (m : Mach σ S) :
    m.clearPostConnect.client.PostConnect = none := rfl
@[simp] theorem Mach.callRdp_ret (m : Mach σ S) (f : rdpRdp σ → S → Bool × rdpRdp σ × S)
    (e : Call) : (m.callRdp f e).1 = (f m.client.rdp m.s).1 := rfl
@[simp] theorem Mach.callRdp_trace (m : Mach σ S) (f : rdpRdp σ → S → Bool × rdpRdp σ × S)
    (e : Call) : (m.callRdp f e).2.trace = m.trace ++ [e] := rfl
@[simp] theorem Mach.callRdp_rdp (m : Mach σ S) (f : rdpRdp σ → S → Bool × rdpRdp σ × S)
    (e : Call) : (m.callRdp f e).2.client.rdp = (f m.client.rdp m.s).2.1 := rfl
@[simp] theorem Mach.callRdp_s (m : Mach σ S) (f : rdpRdp σ → S → Bool × rdpRdp σ × S)
    (e : Call) : (m.callRdp f e).2.s = (f m.client.rdp m.s).2.2 := rfl
@[simp] theorem Mach.callRdp_PostConnect (m : Mach σ S)
    (f : rdpRdp σ → S → Bool × rdpRdp σ × S) (e : Call) :
    (m.callRdp f e).2.client.PostConnect = m.client.PostConnect := rfl
@[simp] theorem Mach.callRdp_Activate (m : Mach σ S)
    (f : rdpRdp σ → S → Bool × rdpRdp σ × S) (e : Call) :
    (m.callRdp f e).2.client.Activate = m.client.Activate := rfl

/-- The C idiom `if (!f(..)) return False; break; ... return True;` returns
what `f` returned. -/
@[simp] theorem ret_eta {α : Type} (r : Bool × α) :
    (if (!r.1) = true then (false, r.2) else (true, r.2)) = r := by
  rcases r with ⟨b, a⟩
  cases b <;> simp

/-- The same idiom with the boolean and the machine given apart. -/
@[simp] theorem ret_eta_pair {α : Type} (b : Bool) (a : α) :
    (if b = false then (false, a) else (true, a)) = (b, a) := by
  cases b <;> simp

@[simp] theorem postConnectRets_nil : postConnectRets [] = [] := rfl

@[simp] theorem postConnectRets_append (a b : List Call) :
    postConnectRets (a ++ b) = postConnectRets a ++ postConnectRets b := by
  simp [postConnectRets]

@[simp] theorem postConnectRets_cons (e : Call) (t : List Call) :
    postConnectRets (e :: t) =
      (match e with | Call.PostConnect v => [v] | _ => []) ++ postConnectRets t := by
  cases e <;> simp [postConnectRets, List.filterMap_cons]

@[simp] theorem activateRets_nil : activateRets [] = [] := rfl

@[simp] theorem activateRets_append (a b : List Call) :
    activateRets (a ++ b) = activateRets a ++ activateRets b := by
  simp [activateRets]

@[simp] theorem activateRets_cons (e : Call) (t : List Call) :
    activateRets (e :: t) =
      (match e with | Call.Activate v => [v] | _ => []) ++ activateRets t := by
  cases e <;> simp [activateRets, List.filterMap_cons]

end helpers

/-! ## The receive callback dispatches on the state -/

/-- The return idiom once more, with the test written `r.1 = false`. -/
theorem ret_eta_false {α : Type} (r : Bool × α) :
    (if r.1 = false then (false, r.2) else (true, r.2)) = r := by
  rcases r with ⟨b, a⟩
  cases b <;> simp

/-- Both orientations of the inequalities between the share-data labels. -/
theorem Consts.WellFormed.dataPdus_ne {c : Consts} (hc : c.WellFormed) :
    c.dataPduLabels.Pairwise (fun a b => a ≠ b ∧ b ≠ a) := by
  have h := hc.2
  unfold List.Nodup at h
  exact h.imp fun hab => ⟨hab, fun hba => hab hba.symm⟩

/-- Both orientations of the inequalities between the state labels. -/
theorem Consts.WellFormed.states_ne {c : Consts} (hc : c.WellFormed) :
    c.stateLabels.Pairwise (fun a b => a ≠ b ∧ b ≠ a) := by
  have h := hc.1
  unfold List.Nodup at h
  exact h.imp fun hab => ⟨hab, fun hba => hab hba.symm⟩

/-- In a state of the table the receive callback is the handler of that state. -/
theorem peer_recv_callback_eq_tableHandler {σ S : Type} (c : Consts) (env : Env σ S)
    (m : Mach σ S) (ph : Phase) (hc : c.WellFormed) (hst : m.client.rdp.state = ph.code c) :
    peer_recv_callback c env m = tableHandler c env ph m := by
  have hn := hc.states_ne
  simp only [Consts.stateLabels, List.pairwise_cons, List.mem_cons, List.mem_singleton,
    forall_eq_or_imp, forall_eq, List.not_mem_nil, List.Pairwise.nil, and_true,
    IsEmpty.forall_iff, implies_true, ne_eq] at hn
  unfold peer_recv_callback tableHandler
  dsimp only
  rw [hst]
  cases ph <;> simp only [Phase.code, Phase.acceptor, hn, if_true, if_false, ret_eta]

/-- Nothing added. -/
theorem Adds.refl (P : Call → Bool) (t : List Call) : Adds P t t :=
  ⟨[], by simp, by simp⟩

/-- One more entry that satisfies `P`. -/
theorem Adds.snoc {P : Call → Bool} {t u : List Call} {e : Call}
    (h : Adds P t u) (he : P e = true) : Adds P t (u ++ [e]) := by
  obtain ⟨d, rfl, hd⟩ := h
  refine ⟨d ++ [e], by simp, ?_⟩
  intro x hx
  rcases List.mem_append.1 hx with hx | hx
  · exact hd x hx
  · simp at hx; subst hx; exact he

/-- Two extensions in a row. -/
theorem Adds.trans {P : Call → Bool} {t u v : List Call} (h1 : Adds P t u)
    (h2 : Adds P u v) : Adds P t v := by
  obtain ⟨d1, rfl, hd1⟩ := h1
  obtain ⟨d2, rfl, hd2⟩ := h2
  refine ⟨d1 ++ d2, by simp, ?_⟩
  intro x hx
  rcases List.mem_append.1 hx with hx | hx
  · exact hd1 x hx
  · exact hd2 x hx

section active
variable {σ S : Type}

/-- The PostConnect block with a null slot does nothing. -/
theorem font_list_PostConnect_none (m : Mach σ S) (h : m.client.PostConnect = none) :
    font_list_PostConnect m = (true, m) := by
  unfold font_list_PostConnect; rw [h]

/-- The PostConnect block with an installed callback: one invocation; the slot
is nulled only when the callback returned true. -/
theorem font_list_PostConnect_some (m : Mach σ S) (f : Callback σ)
    (h : m.client.PostConnect = some f) :
    font_list_PostConnect m =
      if (f m.client.rdp).1 = false
      then (false, (m.setRest (f m.client.rdp).2).log (Call.PostConnect false))
      else (true, ((m.setRest (f m.client.rdp).2).log (Call.PostConnect true)).clearPostConnect) := by
  unfold font_list_PostConnect; rw [h]
  dsimp only
  cases hv : (f m.client.rdp).1 <;> simp

/-- The Activate block with a null slot does nothing. -/
theorem font_list_Activate_none (m : Mach σ S) (h : m.client.Activate = none) :
    font_list_Activate m = (true, m) := by
  unfold font_list_Activate; rw [h]

/-- The Activate block with an installed callback: one invocation, whose
result is the result of the block. -/
theorem font_list_Activate_some (m : Mach σ S) (g : Callback σ)
    (h : m.client.Activate = some g) :
    font_list_Activate m =
      ((g m.client.rdp).1,
        (m.setRest (g m.client.rdp).2).log (Call.Activate (g m.client.rdp).1)) := by
  unfold font_list_Activate; rw [h]
  dsimp only
  cases hv : (g m.client.rdp).1 <;> simp

/-- The PostConnect block logs no handshake acceptor. -/
theorem font_list_PostConnect_adds (m : Mach σ S) :
    Adds Call.isActivePath m.trace (font_list_PostConnect m).2.trace := by
  cases h : m.client.PostConnect with
  | none => rw [font_list_PostConnect_none m h]; exact Adds.refl _ _
  | some f =>
    rw [font_list_PostConnect_some m f h]
    split <;> exact Adds.snoc (Adds.refl _ _) (by rfl)

/-- The Activate block logs no handshake acceptor. -/
theorem font_list_Activate_adds (m : Mach σ S) :
    Adds Call.isActivePath m.trace (font_list_Activate m).2.trace := by
  cases h : m.client.Activate with
  | none => rw [font_list_Activate_none m h]; exact Adds.refl _ _
  | some g =>
    rw [font_list_Activate_some m g h]
    exact Adds.snoc (Adds.refl _ _) (by rfl)

/-- `peer_recv_data_pdu` logs no handshake acceptor. -/
theorem peer_recv_data_pdu_adds (c : Consts) (env : Env σ S) (m : Mach σ S) :
    Adds Call.isActivePath m.trace (peer_recv_data_pdu c env m).2.trace := by
  unfold peer_recv_data_pdu
  dsimp only
  split_ifs
  all_goals
    simp only [Mach.log_trace, Mach.setStream_trace, Mach.setRest_trace, Mach.setRdp_trace,
      Mach.callRdp_trace, Mach.clearPostConnect_trace]
    repeat
      first
      | exact Adds.refl _ _
      | refine Adds.snoc ?_ (by rfl)
      | refine Adds.trans ?_ (font_list_Activate_adds _)
      | refine Adds.trans ?_ (font_list_PostConnect_adds _)

/-- `peer_recv_tpkt_pdu` logs no handshake acceptor. -/
theorem peer_recv_tpkt_pdu_adds (c : Consts) (env : Env σ S) (m : Mach σ S) :
    Adds Call.isActivePath m.trace (peer_recv_tpkt_pdu c env m).2.trace := by
  unfold peer_recv_tpkt_pdu
  dsimp only
  split_ifs
  all_goals
    simp only [Mach.log_trace, Mach.setStream_trace, Mach.setRest_trace, Mach.setRdp_trace,
      Mach.callRdp_trace, Mach.clearPostConnect_trace]
    repeat
      first
      | exact Adds.refl _ _
      | refine Adds.snoc ?_ (by rfl)
      | refine Adds.trans ?_ (font_list_Activate_adds _)
      | refine Adds.trans ?_ (font_list_PostConnect_adds _)
      | refine Adds.trans ?_ (peer_recv_data_pdu_adds c env _)

/-- `peer_recv_fastpath_pdu` logs no handshake acceptor. -/
theorem peer_recv_fastpath_pdu_adds (c : Consts) (env : Env σ S) (m : Mach σ S) :
    Adds Call.isActivePath m.trace (peer_recv_fastpath_pdu c env m).2.trace := by
  unfold peer_recv_fastpath_pdu
  dsimp only
  split_ifs
  all_goals
    simp only [Mach.log_trace, Mach.setStream_trace, Mach.setRest_trace, Mach.setRdp_trace,
      Mach.callRdp_trace, Mach.clearPostConnect_trace]
    repeat
      first
      | exact Adds.refl _ _
      | refine Adds.snoc ?_ (by rfl)
      | refine Adds.trans ?_ (font_list_Activate_adds _)
      | refine Adds.trans ?_ (font_list_PostConnect_adds _)

/-- `peer_recv_pdu` logs no handshake acceptor. -/
theorem peer_recv_pdu_adds (c : Consts) (env : Env σ S) (m : Mach σ S) :
    Adds Call.isActivePath m.trace (peer_recv_pdu c env m).2.trace := by
  unfold peer_recv_pdu
  dsimp only
  split_ifs
  · exact Adds.trans (Adds.snoc (Adds.refl _ _) (by rfl)) (peer_recv_tpkt_pdu_adds c env _)
  · exact Adds.trans (Adds.snoc (Adds.refl _ _) (by rfl)) (peer_recv_fastpath_pdu_adds c env _)

end active

/-! ## The active phase: TPKT path -/

section tpkt
variable {σ S : Type}

/-- In state ACTIVE the receive callback is the demultiplexer. -/
theorem peer_recv_callback_active (c : Consts) (env : Env σ S) (m : Mach σ S)
    (hc : c.WellFormed) (hst : m.client.rdp.state = c.CONNECTION_STATE_ACTIVE) :
    peer_recv_callback c env m = peer_recv_pdu c env m :=
  peer_recv_callback_eq_tableHandler c env m Phase.ACTIVE hc hst

/-- A TPKT-framed PDU on another channel than the global one is ignored. -/
theorem peer_recv_pdu_other_channel (c : Consts) (env : Env σ S) (m : Mach σ S)
    (ht : IsTpktPdu env m)
    (hch : (rdpHeaderRead env m).channelId ≠ c.MCS_GLOBAL_CHANNEL_ID) :
    peer_recv_pdu c env m =
      (true, (((m.setStream (tpktStream env m)).log Call.tpkt_verify_header).setRest
        (rdpHeaderRead env m).rest |>.setStream (rdpHeaderRead env m).s).log
        Call.rdp_read_header) := by
  obtain ⟨hv, hok⟩ := ht
  unfold rdpHeaderRead tpktStream at *
  unfold peer_recv_pdu peer_recv_tpkt_pdu
  simp [hv, hok, hch]

/-- A TPKT-framed global-channel DATA PDU reaches `peer_recv_data_pdu`, with
the machine `dataPduInput`. -/
theorem peer_recv_pdu_eq_data_pdu (c : Consts) (env : Env σ S) (m : Mach σ S)
    (hg : IsGlobalPdu c env m) (hd : (shareControlRead env m).pduType = c.PDU_TYPE_DATA) :
    peer_recv_pdu c env m = peer_recv_data_pdu c env (dataPduInput env m) := by
  obtain ⟨⟨hv, hok⟩, hch, hsc⟩ := hg
  unfold shareControlRead rdpHeaderRead tpktStream at *
  unfold peer_recv_pdu peer_recv_tpkt_pdu
  simp only [hv, hok, hch, hsc, hd, Mach.log_s, Mach.setStream_s, Mach.log_client,
    Mach.setStream_client, Mach.setRest_settings, Mach.setRest_state, Mach.setRest_rest,
    Bool.not_true, Bool.false_eq_true, if_false, if_true, ne_eq, not_true_eq_false, ret_eta]
  congr 1
  simp [dataPduInput, rdpAfterHeaders, shareControlRead, rdpHeaderRead, tpktStream, Mach.log,
    Mach.setStream, Mach.setRest, Mach.setRdp]

@[simp] theorem dataPduInput_s (env : Env σ S) (m : Mach σ S) :
    (dataPduInput env m).s = (shareControlRead env m).s := rfl
@[simp] theorem dataPduInput_trace (env : Env σ S) (m : Mach σ S) :
    (dataPduInput env m).trace = m.trace ++ [Call.tpkt_verify_header, Call.rdp_read_header,
      Call.rdp_read_share_control_header] := rfl
@[simp] theorem dataPduInput_rdp (env : Env σ S) (m : Mach σ S) :
    (dataPduInput env m).client.rdp = rdpAfterHeaders env m := rfl
@[simp] theorem dataPduInput_PostConnect (env : Env σ S) (m : Mach σ S) :
    (dataPduInput env m).client.PostConnect = m.client.PostConnect := rfl
@[simp] theorem dataPduInput_Activate (env : Env σ S) (m : Mach σ S) :
    (dataPduInput env m).client.Activate = m.client.Activate := rfl
@[simp] theorem rdpAfterHeaders_state (env : Env σ S) (m : Mach σ S) :
    (rdpAfterHeaders env m).state = m.client.rdp.state := rfl
@[simp] theorem rdpAfterHeaders_rest (env : Env σ S) (m : Mach σ S) :
    (rdpAfterHeaders env m).rest = (rdpHeaderRead env m).rest := rfl
@[simp] theorem rdpAfterHeaders_server_mode (env : Env σ S) (m : Mach σ S) :
    (rdpAfterHeaders env m).settings.server_mode = m.client.rdp.settings.server_mode := rfl
@[simp] theorem rdpAfterHeaders_pdu_source (env : Env σ S) (m : Mach σ S) :
    (rdpAfterHeaders env m).settings.pdu_source = (shareControlRead env m).pdu_source := rfl

/-- The SHUTDOWN_REQUEST case of `peer_recv_data_pdu`. -/
theorem peer_recv_data_pdu_shutdown (c : Consts) (env : Env σ S) (m : Mach σ S)
    (hc : c.WellFormed) (hok : (env.rdp_read_share_data_header m.s).ok = true)
    (hty : (env.rdp_read_share_data_header m.s).type = c.DATA_PDU_TYPE_SHUTDOWN_REQUEST) :
    peer_recv_data_pdu c env m =
      (false, (((m.setStream (env.rdp_read_share_data_header m.s).s).log
        Call.rdp_read_share_data_header).setRest
          (env.mcs_send_disconnect_provider_ultimatum m.client.rdp.rest)).log
        Call.mcs_send_disconnect_provider_ultimatum) := by
  have hn := hc.dataPdus_ne
  simp only [Consts.dataPduLabels, List.pairwise_cons, List.mem_cons, List.mem_singleton,
    forall_eq_or_imp, forall_eq, List.not_mem_nil, List.Pairwise.nil, and_true,
    IsEmpty.forall_iff, implies_true, ne_eq] at hn
  unfold peer_recv_data_pdu
  simp [hok, hty, hn]

/-- The BITMAP_CACHE_PERSISTENT_LIST case and the `default:` case of
`peer_recv_data_pdu`. -/
theorem peer_recv_data_pdu_ignored (c : Consts) (env : Env σ S) (m : Mach σ S)
    (hc : c.WellFormed) (hok : (env.rdp_read_share_data_header m.s).ok = true)
    (hty : (env.rdp_read_share_data_header m.s).type ∉ c.dataPduLabels ∨
      (env.rdp_read_share_data_header m.s).type = c.DATA_PDU_TYPE_BITMAP_CACHE_PERSISTENT_LIST) :
    peer_recv_data_pdu c env m =
      (true, (m.setStream (env.rdp_read_share_data_header m.s).s).log
        Call.rdp_read_share_data_header) := by
  have hn := hc.dataPdus_ne
  simp only [Consts.dataPduLabels, List.pairwise_cons, List.mem_cons, List.mem_singleton,
    forall_eq_or_imp, forall_eq, List.not_mem_nil, List.Pairwise.nil, and_true,
    IsEmpty.forall_iff, implies_true, ne_eq] at hn
  unfold peer_recv_data_pdu
  rcases hty with hty | hty
  · simp only [Consts.dataPduLabels, List.mem_cons, List.mem_singleton, List.not_mem_nil,
      or_false, not_or] at hty
    simp [hok, hty]
  · simp [hok, hty, hn]

/-- The FONT_LIST case of `peer_recv_data_pdu`. -/
theorem peer_recv_data_pdu_font_list (c : Consts) (env : Env σ S) (m : Mach σ S)
    (hc : c.WellFormed) (hok : (env.rdp_read_share_data_header m.s).ok = true)
    (hty : (env.rdp_read_share_data_header m.s).type = c.DATA_PDU_TYPE_FONT_LIST) :
    peer_recv_data_pdu c env m =
      if (((m.setStream (env.rdp_read_share_data_header m.s).s).log
          Call.rdp_read_share_data_header).callRdp env.rdp_server_accept_client_font_list_pdu
          Call.rdp_server_accept_client_font_list_pdu).1 = false
      then (false, (((m.setStream (env.rdp_read_share_data_header m.s).s).log
          Call.rdp_read_share_data_header).callRdp env.rdp_server_accept_client_font_list_pdu
          Call.rdp_server_accept_client_font_list_pdu).2)
      else if (font_list_PostConnect (((m.setStream (env.rdp_read_share_data_header m.s).s).log
          Call.rdp_read_share_data_header).callRdp env.rdp_server_accept_client_font_list_pdu
          Call.rdp_server_accept_client_font_list_pdu).2).1 = false
      then (false, (font_list_PostConnect
          (((m.setStream (env.rdp_read_share_data_header m.s).s).log
          Call.rdp_read_share_data_header).callRdp env.rdp_server_accept_client_font_list_pdu
          Call.rdp_server_accept_client_font_list_pdu).2).2)
      else font_list_Activate (font_list_PostConnect
          (((m.setStream (env.rdp_read_share_data_header m.s).s).log
          Call.rdp_read_share_data_header).callRdp env.rdp_server_accept_client_font_list_pdu
          Call.rdp_server_accept_client_font_list_pdu).2).2 := by
  have hn := hc.dataPdus_ne
  simp only [Consts.dataPduLabels, List.pairwise_cons, List.mem_cons, List.mem_singleton,
    forall_eq_or_imp, forall_eq, List.not_mem_nil, List.Pairwise.nil, and_true,
    IsEmpty.forall_iff, implies_true, ne_eq] at hn
  unfold peer_recv_data_pdu
  dsimp only
  simp only [hok, hty, hn, Bool.not_true, Bool.false_eq_true, if_false, if_true, ret_eta,
    Bool.not_eq_true', ret_eta_false]

end tpkt

/-! ## Bookkeeping of the callback slots over any delivery -/

section slots
variable {σ S : Type}

/-- A step from `u` is a step from any `m` with the same PostConnect history
and slot. -/
theorem PCStep.of_same {m u : Mach σ S} {r : Bool × Mach σ S}
    (ht : postConnectRets u.trace = postConnectRets m.trace)
    (hs : u.client.PostConnect = m.client.PostConnect) (h : PCStep u r) : PCStep m r := by
  unfold PCStep at h ⊢
  rw [ht, hs] at h
  exact h

/-- Bookkeeping survives replacing the returned value by false. -/
theorem PCStep.ret {m : Mach σ S} {r : Bool × Mach σ S} (h : PCStep m r) :
    PCStep m (false, r.2) := by
  unfold PCStep at h ⊢
  rcases h with h | ⟨h1, h2, _, h4⟩ | h
  · exact Or.inl h
  · exact Or.inr (Or.inl ⟨h1, h2, rfl, h4⟩)
  · exact Or.inr (Or.inr h)

/-- Bookkeeping of the PostConnect block. -/
theorem font_list_PostConnect_PCStep (m : Mach σ S) :
    PCStep m (font_list_PostConnect m) := by
  unfold PCStep
  cases h : m.client.PostConnect with
  | none => rw [font_list_PostConnect_none m h]; simp [h]
  | some f =>
    rw [font_list_PostConnect_some m f h]
    cases hv : (f m.client.rdp).1 <;> simp [h]

@[simp] theorem font_list_Activate_PostConnect (m : Mach σ S) :
    (font_list_Activate m).2.client.PostConnect = m.client.PostConnect := by
  cases h : m.client.Activate with
  | none => rw [font_list_Activate_none m h]
  | some g => rw [font_list_Activate_some m g h]; simp

@[simp] theorem font_list_Activate_Activate (m : Mach σ S) :
    (font_list_Activate m).2.client.Activate = m.client.Activate := by
  cases h : m.client.Activate with
  | none => rw [font_list_Activate_none m h]; exact h
  | some g => rw [font_list_Activate_some m g h]; exact h

@[simp] theorem font_list_PostConnect_Activate (m : Mach σ S) :
    (font_list_PostConnect m).2.client.Activate = m.client.Activate := by
  cases h : m.client.PostConnect with
  | none => rw [font_list_PostConnect_none m h]
  | some f => rw [font_list_PostConnect_some m f h]; split <;> simp

@[simp] theorem font_list_Activate_postConnectRets (m : Mach σ S) :
    postConnectRets (font_list_Activate m).2.trace = postConnectRets m.trace := by
  cases h : m.client.Activate with
  | none => rw [font_list_Activate_none m h]
  | some g => rw [font_list_Activate_some m g h]; simp

/-- Bookkeeping of `peer_recv_data_pdu`. -/
theorem peer_recv_data_pdu_PCStep (c : Consts) (env : Env σ S) (m : Mach σ S) :
    PCStep m (peer_recv_data_pdu c env m) := by
  unfold peer_recv_data_pdu
  dsimp only
  simp only [ret_eta]
  split_ifs
  any_goals (simp [PCStep]; done)
  · exact PCStep.of_same (by simp) (by simp) (font_list_PostConnect_PCStep _).ret
  · refine PCStep.of_same (by simp) (by simp) (r := font_list_Activate _)
      (u := (((m.setStream (env.rdp_read_share_data_header m.s).s).log
        Call.rdp_read_share_data_header).callRdp env.rdp_server_accept_client_font_list_pdu
        Call.rdp_server_accept_client_font_list_pdu).2) ?_
    have key := font_list_PostConnect_PCStep
      (((m.setStream (env.rdp_read_share_data_header m.s).s).log
        Call.rdp_read_share_data_header).callRdp env.rdp_server_accept_client_font_list_pdu
        Call.rdp_server_accept_client_font_list_pdu).2
    rename_i hp
    simp only [PCStep, font_list_Activate_postConnectRets, font_list_Activate_PostConnect]
      at key ⊢
    rcases key with h | ⟨_, _, h3, _⟩ | h
    · exact Or.inl h
    · simp [h3] at hp
    · exact Or.inr (Or.inr h)

/-- Bookkeeping of `peer_recv_tpkt_pdu`. -/
theorem peer_recv_tpkt_pdu_PCStep (c : Consts) (env : Env σ S) (m : Mach σ S) :
    PCStep m (peer_recv_tpkt_pdu c env m) := by
  unfold peer_recv_tpkt_pdu
  dsimp only
  simp only [ret_eta]
  split_ifs
  any_goals (simp [PCStep]; done)
  exact PCStep.of_same (by simp) (by simp) (peer_recv_data_pdu_PCStep c env _)

/-- Bookkeeping of `peer_recv_fastpath_pdu`: no callback at all. -/
theorem peer_recv_fastpath_pdu_PCStep (c : Consts) (env : Env σ S) (m : Mach σ S) :
    PCStep m (peer_recv_fastpath_pdu c env m) := by
  unfold peer_recv_fastpath_pdu
  dsimp only
  split_ifs <;> simp [PCStep]

/-- Bookkeeping of `peer_recv_pdu`. -/
theorem peer_recv_pdu_PCStep (c : Consts) (env : Env σ S) (m : Mach σ S) :
    PCStep m (peer_recv_pdu c env m) := by
  unfold peer_recv_pdu
  dsimp only
  split_ifs
  · exact PCStep.of_same (by simp) (by simp) (peer_recv_tpkt_pdu_PCStep c env _)
  · exact PCStep.of_same (by simp) (by simp) (peer_recv_fastpath_pdu_PCStep c env _)

/-- Bookkeeping of `peer_recv_callback`, in any state. -/
theorem peer_recv_callback_PCStep (c : Consts) (env : Env σ S) (m : Mach σ S) :
    PCStep m (peer_recv_callback c env m) := by
  unfold peer_recv_callback
  dsimp only
  simp only [ret_eta]
  split_ifs
  any_goals (simp [PCStep]; done)
  exact peer_recv_pdu_PCStep c env m

/-- `peer_recv_data_pdu` never writes the Activate slot. -/
theorem peer_recv_data_pdu_Activate (c : Consts) (env : Env σ S) (m : Mach σ S) :
    (peer_recv_data_pdu c env m).2.client.Activate = m.client.Activate := by
  unfold peer_recv_data_pdu
  dsimp only
  simp only [ret_eta]
  split_ifs <;> simp

/-- `peer_recv_tpkt_pdu` never writes the Activate slot. -/
theorem peer_recv_tpkt_pdu_Activate (c : Consts) (env : Env σ S) (m : Mach σ S) :
    (peer_recv_tpkt_pdu c env m).2.client.Activate = m.client.Activate := by
  unfold peer_recv_tpkt_pdu
  dsimp only
  simp only [ret_eta]
  split_ifs <;> simp [peer_recv_data_pdu_Activate]

/-- `peer_recv_fastpath_pdu` never writes the Activate slot. -/
theorem peer_recv_fastpath_pdu_Activate (c : Consts) (env : Env σ S) (m : Mach σ S) :
    (peer_recv_fastpath_pdu c env m).2.client.Activate = m.client.Activate := by
  unfold peer_recv_fastpath_pdu
  dsimp only
  split_ifs <;> simp

/-- `peer_recv_pdu` never writes the Activate slot. -/
theorem peer_recv_pdu_Activate (c : Consts) (env : Env σ S) (m : Mach σ S) :
    (peer_recv_pdu c env m).2.client.Activate = m.client.Activate := by
  unfold peer_recv_pdu
  dsimp only
  split_ifs <;> simp [peer_recv_tpkt_pdu_Activate, peer_recv_fastpath_pdu_Activate]

/-- `peer_recv_callback` never writes the Activate slot. -/
theorem peer_recv_callback_Activate (c : Consts) (env : Env σ S) (m : Mach σ S) :
    (peer_recv_callback c env m).2.client.Activate = m.client.Activate := by
  unfold peer_recv_callback
  dsimp only
  simp only [ret_eta]
  split_ifs <;> simp [peer_recv_pdu_Activate]

end slots

/-! ## Sequences of deliveries -/

section sequences
variable {σ S : Type}

/-- Bookkeeping of one delivery. -/
theorem deliver_PCStep (c : Consts) (env : Env σ S) (m : Mach σ S) (s : S) :
    PCStep m (deliver c env m s) :=
  PCStep.of_same (u := m.setStream s) rfl rfl (peer_recv_callback_PCStep c env _)

/-- One delivery leaves the Activate slot. -/
theorem deliver_Activate (c : Consts) (env : Env σ S) (m : Mach σ S) (s : S) :
    (deliver c env m s).2.client.Activate = m.client.Activate :=
  peer_recv_callback_Activate c env (m.setStream s)

/-- Any number of deliveries leave the Activate slot. -/
theorem deliverAll_Activate (c : Consts) (env : Env σ S) (m : Mach σ S) (ss : List S) :
    (deliverAll c env m ss).client.Activate = m.client.Activate := by
  induction ss generalizing m with
  | nil => rfl
  | cons s ss ih =>
    rw [deliverAll]
    split
    · rw [ih, deliver_Activate]
    · exact deliver_Activate c env m s

/-- Once the PostConnect slot is null it stays null and `PostConnect` is not
invoked any more. -/
theorem deliverAll_PostConnect_none (c : Consts) (env : Env σ S) (m : Mach σ S)
    (ss : List S) (h : m.client.PostConnect = none) :
    (deliverAll c env m ss).client.PostConnect = none ∧
    postConnectRets (deliverAll c env m ss).trace = postConnectRets m.trace := by
  induction ss generalizing m with
  | nil => exact ⟨h, rfl⟩
  | cons s ss ih =>
    rw [deliverAll]
    rcases deliver_PCStep c env m s with ⟨h1, h2⟩ | ⟨_, _, _, h4⟩ | ⟨_, _, h4⟩
    · split
      · obtain ⟨i1, i2⟩ := ih (deliver c env m s).2 (h2.trans h)
        exact ⟨i1, i2.trans h1⟩
      · exact ⟨h2.trans h, h1⟩
    · exact absurd h h4
    · exact absurd h h4

/-- Over a whole sequence of deliveries `PostConnect` is invoked at most
once. -/
theorem deliverAll_postConnect_le_one (c : Consts) (env : Env σ S) (m : Mach σ S)
    (ss : List S) :
    (postConnectRets (deliverAll c env m ss).trace).length ≤
      (postConnectRets m.trace).length + 1 := by
  induction ss generalizing m with
  | nil => simp [deliverAll]
  | cons s ss ih =>
    rw [deliverAll]
    rcases deliver_PCStep c env m s with ⟨h1, _⟩ | ⟨h1, _, h3, _⟩ | ⟨h1, h2, _⟩
    · split
      · rw [← h1]
        exact ih _
      · rw [h1]
        exact Nat.le_succ _
    · rw [h3]
      simp [h1]
    · split
      · rw [(deliverAll_PostConnect_none c env _ ss h2).2, h1]
        simp
      · rw [h1]
        simp

/-- The deliveries of `ss1 ++ ss2` are those of `ss1`, followed by those of
`ss2` unless a delivery of `ss1` was fatal. -/
theorem deliverAll_append (c : Consts) (env : Env σ S) (m : Mach σ S) (ss1 ss2 : List S) :
    deliverAll c env m (ss1 ++ ss2) = deliverAll c env m ss1 ∨
    deliverAll c env m (ss1 ++ ss2) = deliverAll c env (deliverAll c env m ss1) ss2 := by
  induction ss1 generalizing m with
  | nil => exact Or.inr rfl
  | cons s ss ih =>
    rw [List.cons_append, deliverAll, deliverAll]
    split
    · exact ih _
    · exact Or.inl rfl

/-- A PostConnect slot that is null after a part of the sequence stays null,
and `PostConnect` is not invoked in what follows. -/
theorem deliverAll_append_PostConnect_none (c : Consts) (env : Env σ S) (m : Mach σ S)
    (ss1 ss2 : List S) (h : (deliverAll c env m ss1).client.PostConnect = none) :
    (deliverAll c env m (ss1 ++ ss2)).client.PostConnect = none ∧
    postConnectRets (deliverAll c env m (ss1 ++ ss2)).trace =
      postConnectRets (deliverAll c env m ss1).trace := by
  rcases deliverAll_append c env m ss1 ss2 with h1 | h1
  · rw [h1]
    exact ⟨h, rfl⟩
  · rw [h1]
    exact deliverAll_PostConnect_none c env _ ss2 h

end sequences

/-! ## FONT_LIST deliveries -/

section fontlist
variable {σ S : Type}

@[simp] theorem afterFontList_trace (env : Env σ S) (m : Mach σ S) :
    (afterFontList env m).trace = m.trace ++ [Call.tpkt_verify_header, Call.rdp_read_header,
      Call.rdp_read_share_control_header, Call.rdp_read_share_data_header,
      Call.rdp_server_accept_client_font_list_pdu] := rfl
@[simp] theorem afterFontList_rdp (env : Env σ S) (m : Mach σ S) :
    (afterFontList env m).client.rdp = (fontListAccept env m).2.1 := rfl
@[simp] theorem afterFontList_PostConnect (env : Env σ S) (m : Mach σ S) :
    (afterFontList env m).client.PostConnect = m.client.PostConnect := rfl
@[simp] theorem afterFontList_Activate (env : Env σ S) (m : Mach σ S) :
    (afterFontList env m).client.Activate = m.client.Activate := rfl

/-- A FONT_LIST delivery in state ACTIVE whose acceptor fails. -/
theorem font_list_delivery_rejected (c : Consts) (env : Env σ S) (m : Mach σ S)
    (hc : c.WellFormed) (hst : m.client.rdp.state = c.CONNECTION_STATE_ACTIVE)
    (hp : IsDataPdu c env m c.DATA_PDU_TYPE_FONT_LIST)
    (hacc : (fontListAccept env m).1 = false) :
    peer_recv_callback c env m = (false, afterFontList env m) := by
  obtain ⟨hg, hd, hok, hty⟩ := hp
  rw [peer_recv_callback_active c env m hc hst, peer_recv_pdu_eq_data_pdu c env m hg hd,
    peer_recv_data_pdu_font_list c env (dataPduInput env m) hc hok hty]
  have h1 : (((dataPduInput env m).setStream
      (env.rdp_read_share_data_header (dataPduInput env m).s).s).log
      Call.rdp_read_share_data_header).callRdp env.rdp_server_accept_client_font_list_pdu
      Call.rdp_server_accept_client_font_list_pdu = ((fontListAccept env m).1, afterFontList env m) := by
    simp [Mach.callRdp, afterFontList, fontListAccept, shareDataRead, Mach.log, Mach.setStream,
      Mach.setRdp, dataPduInput]
  rw [h1]
  simp [hacc]

/-- A FONT_LIST delivery in state ACTIVE whose acceptor succeeds runs the two
callback blocks on `afterFontList`. -/
theorem font_list_delivery (c : Consts) (env : Env σ S) (m : Mach σ S)
    (hc : c.WellFormed) (hst : m.client.rdp.state = c.CONNECTION_STATE_ACTIVE)
    (hp : IsDataPdu c env m c.DATA_PDU_TYPE_FONT_LIST)
    (hacc : (fontListAccept env m).1 = true) :
    peer_recv_callback c env m =
      if (font_list_PostConnect (afterFontList env m)).1 = false
      then (false, (font_list_PostConnect (afterFontList env m)).2)
      else font_list_Activate (font_list_PostConnect (afterFontList env m)).2 := by
  obtain ⟨hg, hd, hok, hty⟩ := hp
  rw [peer_recv_callback_active c env m hc hst, peer_recv_pdu_eq_data_pdu c env m hg hd,
    peer_recv_data_pdu_font_list c env (dataPduInput env m) hc hok hty]
  have h1 : (((dataPduInput env m).setStream
      (env.rdp_read_share_data_header (dataPduInput env m).s).s).log
      Call.rdp_read_share_data_header).callRdp env.rdp_server_accept_client_font_list_pdu
      Call.rdp_server_accept_client_font_list_pdu = ((fontListAccept env m).1, afterFontList env m) := by
    simp [Mach.callRdp, afterFontList, fontListAccept, shareDataRead, Mach.log, Mach.setStream,
      Mach.setRdp, dataPduInput]
  rw [h1]
  simp [hacc]

end fontlist

section fontlist2
variable {σ S : Type}

/-- When the PostConnect block falls through, the slot is null afterwards. -/
theorem font_list_PostConnect_clears (m : Mach σ S) (h : (font_list_PostConnect m).1 = true)
    (hs : m.client.PostConnect ≠ none) :
    (font_list_PostConnect m).2.client.PostConnect = none := by
  cases hP : m.client.PostConnect with
  | none => exact absurd hP hs
  | some f =>
    rw [font_list_PostConnect_some m f hP] at h ⊢
    cases hv : (f m.client.rdp).1 <;> simp [hv] at h ⊢

/-- A FONT_LIST delivery in state ACTIVE that returns true leaves the
PostConnect slot null. -/
theorem font_list_success_clears (c : Consts) (env : Env σ S) (m : Mach σ S)
    (hc : c.WellFormed) (hst : m.client.rdp.state = c.CONNECTION_STATE_ACTIVE)
    (hp : IsDataPdu c env m c.DATA_PDU_TYPE_FONT_LIST)
    (hret : (peer_recv_callback c env m).1 = true) :
    (peer_recv_callback c env m).2.client.PostConnect = none := by
  cases hacc : (fontListAccept env m).1 with
  | false =>
    rw [font_list_delivery_rejected c env m hc hst hp hacc] at hret
    simp at hret
  | true =>
    rw [font_list_delivery c env m hc hst hp hacc] at hret ⊢
    cases hP : (font_list_PostConnect (afterFontList env m)).1 with
    | false => simp [hP] at hret
    | true =>
      simp only [hP, Bool.true_eq_false, if_false, font_list_Activate_PostConnect]
      cases hs : m.client.PostConnect with
      | none => rw [font_list_PostConnect_none (afterFontList env m) hs]; exact hs
      | some f =>
        exact font_list_PostConnect_clears (afterFontList env m) hP (by simp [hs])

/-- A FONT_LIST delivery in state ACTIVE whose acceptor succeeds, with
`Activate` installed and `PostConnect` absent or accepting. -/
theorem font_list_delivery_activates (c : Consts) (env : Env σ S) (m : Mach σ S)
    (g : Callback σ) (hc : c.WellFormed)
    (hst : m.client.rdp.state = c.CONNECTION_STATE_ACTIVE)
    (hp : IsDataPdu c env m c.DATA_PDU_TYPE_FONT_LIST)
    (hacc : (fontListAccept env m).1 = true) (hA : m.client.Activate = some g)
    (hpc : ∀ f, m.client.PostConnect = some f → (f (fontListAccept env m).2.1).1 = true) :
    (peer_recv_callback c env m).2.trace =
      m.trace ++ [Call.tpkt_verify_header, Call.rdp_read_header,
        Call.rdp_read_share_control_header, Call.rdp_read_share_data_header,
        Call.rdp_server_accept_client_font_list_pdu] ++
        (match m.client.PostConnect with
          | some _ => [Call.PostConnect true]
          | none => []) ++
        [Call.Activate (peer_recv_callback c env m).1] := by
  rw [font_list_delivery c env m hc hst hp hacc]
  cases hP : m.client.PostConnect with
  | none =>
    rw [font_list_PostConnect_none (afterFontList env m) hP]
    rw [font_list_Activate_some (afterFontList env m) g hA]
    simp
  | some f =>
    have hv := hpc f hP
    rw [font_list_PostConnect_some (afterFontList env m) f hP]
    simp only [afterFontList_rdp, hv, Bool.true_eq_false, if_false]
    rw [font_list_Activate_some (((afterFontList env m).setRest
      (f (fontListAccept env m).2.1).2).log (Call.PostConnect true)).clearPostConnect g hA]
    simp

end fontlist2

/-! ## The handshake -/

section handshake
variable {σ S : Type}

/-- One delivery in a handshake state whose acceptor succeeds on it and
advances the state. -/
theorem deliver_handshake (c : Consts) (env : Env σ S) (m : Mach σ S) (s : S) (ph : Phase)
    (fn : rdpRdp σ → S → Bool × rdpRdp σ × S) (e : Call) (hc : c.WellFormed)
    (hh : AcceptsAt c env ph m s) (hph : ph.acceptor env = some (fn, e))
    (hst : m.client.rdp.state = ph.code c) :
    (deliver c env m s).1 = true ∧
    (deliver c env m s).2.client.rdp.state = ph.next.code c ∧
    (deliver c env m s).2.trace = m.trace ++ [e] ∧
    (deliver c env m s).2.client.PostConnect = m.client.PostConnect ∧
    (deliver c env m s).2.client.Activate = m.client.Activate := by
  unfold AcceptsAt at hh
  rw [hph] at hh
  unfold deliver
  rw [peer_recv_callback_eq_tableHandler c env (m.setStream s) ph hc hst]
  unfold tableHandler
  rw [hph]
  exact ⟨hh.1, hh.2, rfl, rfl, rfl⟩

/-- A delivery that returned true is followed by the remaining ones. -/
theorem deliverAll_cons_true (c : Consts) (env : Env σ S) (m : Mach σ S) (s : S)
    (ss : List S) (h : (deliver c env m s).1 = true) :
    deliverAll c env m (s :: ss) = deliverAll c env (deliver c env m s).2 ss ∧
    returns c env m (s :: ss) = true :: returns c env (deliver c env m s).2 ss := by
  rw [deliverAll, returns]
  simp [h]

/-- The last delivery of a sequence. -/
theorem deliverAll_singleton (c : Consts) (env : Env σ S) (m : Mach σ S) (s : S) :
    deliverAll c env m [s] = (deliver c env m s).2 ∧
    returns c env m [s] = [(deliver c env m s).1] := by
  rw [deliverAll, returns]
  cases h : (deliver c env m s).1 <;> simp [deliverAll, returns]

end handshake

/-! ## The active phase: fast-path path -/

section fastpath
variable {σ S : Type}

/-- A stream that fails the TPKT header check goes to
`peer_recv_fastpath_pdu`. -/
theorem peer_recv_pdu_eq_fastpath (c : Consts) (env : Env σ S) (m : Mach σ S)
    (hv : (env.tpkt_verify_header m.s).1 = false) :
    peer_recv_pdu c env m = peer_recv_fastpath_pdu c env (fastpathInput env m) := by
  unfold peer_recv_pdu
  simp [hv, fastpathInput, tpktStream]

/-- The length test of `peer_recv_fastpath_pdu` fails. -/
theorem peer_recv_fastpath_pdu_bad_length (c : Consts) (env : Env σ S) (m : Mach σ S)
    (hl : (fastpathHeaderRead env m).1 = 0 ∨
      ((fastpathHeaderRead env m).1 : Int) > fastpathLeft env m) :
    peer_recv_fastpath_pdu c env (fastpathInput env m) = (false, afterFastpathHeader env m) := by
  unfold peer_recv_fastpath_pdu
  have hl2 : (env.fastpath_read_header_rdp (fastpathInput env m).client.rdp.rest
        (fastpathInput env m).s).1 = 0 ∨
      ((env.fastpath_read_header_rdp (fastpathInput env m).client.rdp.rest
        (fastpathInput env m).s).1 : Int) >
      env.stream_get_left (env.fastpath_read_header_rdp (fastpathInput env m).client.rdp.rest
        (fastpathInput env m).s).2.2 := hl
  simp only [Mach.log_s, Mach.setStream_s, hl2, if_true]
  rfl

/-- The length test of `peer_recv_fastpath_pdu` passes. -/
theorem peer_recv_fastpath_pdu_good_length (c : Consts) (env : Env σ S) (m : Mach σ S)
    (h1 : 1 ≤ (fastpathHeaderRead env m).1)
    (h2 : ((fastpathHeaderRead env m).1 : Int) ≤ fastpathLeft env m) :
    peer_recv_fastpath_pdu c env (fastpathInput env m) =
      ((env.fastpath_recv_inputs (fastpathPayload c env m).client.rdp.rest
          (fastpathPayload c env m).s).1,
        (((fastpathPayload c env m).setRest
          (env.fastpath_recv_inputs (fastpathPayload c env m).client.rdp.rest
            (fastpathPayload c env m).s).2.1).setStream
          (env.fastpath_recv_inputs (fastpathPayload c env m).client.rdp.rest
            (fastpathPayload c env m).s).2.2).log Call.fastpath_recv_inputs) := by
  unfold peer_recv_fastpath_pdu
  have hl2 : ¬ ((env.fastpath_read_header_rdp (fastpathInput env m).client.rdp.rest
        (fastpathInput env m).s).1 = 0 ∨
      ((env.fastpath_read_header_rdp (fastpathInput env m).client.rdp.rest
        (fastpathInput env m).s).1 : Int) >
      env.stream_get_left (env.fastpath_read_header_rdp (fastpathInput env m).client.rdp.rest
        (fastpathInput env m).s).2.2) := by
    intro h
    rcases h with h | h
    · have h1' : 1 ≤ (env.fastpath_read_header_rdp (fastpathInput env m).client.rdp.rest
        (fastpathInput env m).s).1 := h1
      omega
    · have h2' : ((env.fastpath_read_header_rdp (fastpathInput env m).client.rdp.rest
        (fastpathInput env m).s).1 : Int) ≤
        env.stream_get_left (env.fastpath_read_header_rdp
          (fastpathInput env m).client.rdp.rest (fastpathInput env m).s).2.2 := h2
      omega
  simp only [Mach.log_s, Mach.setStream_s, hl2, if_false]
  unfold fastpathPayload fastpathEncrypted
  by_cases he : Nat.land (env.fastpath_encryptionFlags (fastpathHeaderRead env m).2.1)
      c.FASTPATH_OUTPUT_ENCRYPTED ≠ 0
  · have he2 : Nat.land (env.fastpath_encryptionFlags
        (((fastpathInput env m).setRest (env.fastpath_read_header_rdp
          (fastpathInput env m).client.rdp.rest (fastpathInput env m).s).2.1).setStream
          (env.fastpath_read_header_rdp (fastpathInput env m).client.rdp.rest
            (fastpathInput env m).s).2.2 |>.log
          Call.fastpath_read_header_rdp).client.rdp.rest) c.FASTPATH_OUTPUT_ENCRYPTED ≠ 0 := he
    simp only [he2, he, ne_eq, not_false_eq_true, if_true, decide_True]
    rfl
  · have he2 : ¬ Nat.land (env.fastpath_encryptionFlags
        (((fastpathInput env m).setRest (env.fastpath_read_header_rdp
          (fastpathInput env m).client.rdp.rest (fastpathInput env m).s).2.1).setStream
          (env.fastpath_read_header_rdp (fastpathInput env m).client.rdp.rest
            (fastpathInput env m).s).2.2 |>.log
          Call.fastpath_read_header_rdp).client.rdp.rest) c.FASTPATH_OUTPUT_ENCRYPTED ≠ 0 := he
    simp only [he2, he, if_false, decide_False, Bool.false_eq_true]
    rfl

@[simp] theorem afterFastpathHeader_trace (env : Env σ S) (m : Mach σ S) :
    (afterFastpathHeader env m).trace =
      m.trace ++ [Call.tpkt_verify_header, Call.fastpath_read_header_rdp] := by
  simp [afterFastpathHeader, fastpathInput]

/-- The log when `fastpath_recv_inputs` is reached. -/
theorem fastpathPayload_trace (c : Consts) (env : Env σ S) (m : Mach σ S) :
    (fastpathPayload c env m).trace =
      m.trace ++ [Call.tpkt_verify_header, Call.fastpath_read_header_rdp] ++
        (if fastpathEncrypted c env m then [Call.rdp_decrypt (fastpathHeaderRead env m).1]
          else []) := by
  unfold fastpathPayload
  split <;> simp

end fastpath

/-- A global-channel PDU whose share-control type is not DATA is refused once
the share-control header has been read. -/
theorem peer_recv_pdu_other_pduType {σ S : Type} (c : Consts) (env : Env σ S) (m : Mach σ S)
    (hg : IsGlobalPdu c env m) (hd : (shareControlRead env m).pduType ≠ c.PDU_TYPE_DATA) :
    peer_recv_pdu c env m = (false, dataPduInput env m) := by
  obtain ⟨⟨hv, hok⟩, hch, hsc⟩ := hg
  unfold shareControlRead rdpHeaderRead tpktStream at *
  unfold peer_recv_pdu peer_recv_tpkt_pdu
  simp only [hv, hok, hch, hsc, hd, Mach.log_s, Mach.setStream_s, Mach.log_client,
    Mach.setStream_client, Mach.setRest_settings, Mach.setRest_state, Mach.setRest_rest,
    Bool.not_true, Bool.false_eq_true, if_false, if_true, ne_eq, not_true_eq_false, ret_eta]
  congr 1
  simp [dataPduInput, rdpAfterHeaders, shareControlRead, rdpHeaderRead, tpktStream, Mach.log,
    Mach.setStream, Mach.setRest, Mach.setRdp]

/-! ## Properties of the core that only the acceptors can change -/

section preserves
variable {σ S : Type}

theorem P_log (P : rdpRdp σ → Prop) (m : Mach σ S) (e : Call) (h : P m.client.rdp) :
    P (m.log e).client.rdp := h

theorem P_setStream (P : rdpRdp σ → Prop) (m : Mach σ S) (s : S) (h : P m.client.rdp) :
    P (m.setStream s).client.rdp := h

theorem P_clearPostConnect (P : rdpRdp σ → Prop) (m : Mach σ S) (h : P m.client.rdp) :
    P m.clearPostConnect.client.rdp := h

theorem P_setRest (P : rdpRdp σ → Prop) (hr : RestFrame P) (m : Mach σ S) (x : σ)
    (h : P m.client.rdp) : P (m.setRest x).client.rdp := hr _ _ h

theorem P_setSource (P : rdpRdp σ → Prop) (hs : SourceFrame P) (m : Mach σ S) (v : Nat)
    (h : P m.client.rdp) :
    P (m.setRdp { m.client.rdp with
      settings := { m.client.rdp.settings with pdu_source := v } }).client.rdp := hs _ _ h

theorem P_callRdp (P : rdpRdp σ → Prop) (env : Env σ S) (hk : env.Preserves P)
    (f : rdpRdp σ → S → Bool × rdpRdp σ × S) (hf : f ∈ env.acceptors) (m : Mach σ S) (e : Call)
    (h : P m.client.rdp) : P (m.callRdp f e).2.client.rdp := hk f hf _ _ h

/-- The PostConnect block changes `rest` only. -/
theorem font_list_PostConnect_preserves (P : rdpRdp σ → Prop) (hr : RestFrame P)
    (m : Mach σ S) (h : P m.client.rdp) : P (font_list_PostConnect m).2.client.rdp := by
  cases hP : m.client.PostConnect with
  | none => rw [font_list_PostConnect_none m hP]; exact h
  | some f =>
    rw [font_list_PostConnect_some m f hP]
    split
    · exact P_log P _ _ (P_setRest P hr _ _ h)
    · exact P_clearPostConnect P _ (P_log P _ _ (P_setRest P hr _ _ h))

/-- The Activate block changes `rest` only. -/
theorem font_list_Activate_preserves (P : rdpRdp σ → Prop) (hr : RestFrame P)
    (m : Mach σ S) (h : P m.client.rdp) : P (font_list_Activate m).2.client.rdp := by
  cases hA : m.client.Activate with
  | none => rw [font_list_Activate_none m hA]; exact h
  | some g =>
    rw [font_list_Activate_some m g hA]
    exact P_log P _ _ (P_setRest P hr _ _ h)

/-- `peer_recv_data_pdu` changes the core through the control and font-list
acceptors and through writes to `rest` only. -/
theorem peer_recv_data_pdu_preserves (c : Consts) (env : Env σ S) (P : rdpRdp σ → Prop)
    (hr : RestFrame P) (hk : env.Preserves P) (m : Mach σ S) (h : P m.client.rdp) :
    P (peer_recv_data_pdu c env m).2.client.rdp := by
  unfold peer_recv_data_pdu
  dsimp only
  simp only [ret_eta]
  split_ifs
  all_goals
    repeat
      first
      | exact h
      | rw [Mach.log_client]
      | rw [Mach.setStream_client]
      | (apply P_callRdp P env hk <;> first | (simp [Env.acceptors]; done) | skip)
      | apply font_list_Activate_preserves P hr
      | apply font_list_PostConnect_preserves P hr
      | apply P_setRest P hr

/-- `peer_recv_fastpath_pdu` changes `rest` only. -/
theorem peer_recv_fastpath_pdu_preserves (c : Consts) (env : Env σ S) (P : rdpRdp σ → Prop)
    (hr : RestFrame P) (m : Mach σ S) (h : P m.client.rdp) :
    P (peer_recv_fastpath_pdu c env m).2.client.rdp := by
  unfold peer_recv_fastpath_pdu
  dsimp only
  split_ifs
  all_goals
    repeat
      first
      | exact h
      | rw [Mach.log_client]
      | rw [Mach.setStream_client]
      | apply P_setRest P hr

/-- `peer_recv_tpkt_pdu` writes `settings.pdu_source` and `rest`; the rest is
done by the acceptors. -/
theorem peer_recv_tpkt_pdu_preserves (c : Consts) (env : Env σ S) (P : rdpRdp σ → Prop)
    (hr : RestFrame P) (hs : SourceFrame P) (hk : env.Preserves P) (m : Mach σ S)
    (h : P m.client.rdp) : P (peer_recv_tpkt_pdu c env m).2.client.rdp := by
  unfold peer_recv_tpkt_pdu
  dsimp only
  simp only [ret_eta]
  split_ifs
  all_goals
    repeat
      first
      | exact h
      | rw [Mach.log_client]
      | rw [Mach.setStream_client]
      | apply peer_recv_data_pdu_preserves c env P hr hk
      | apply P_setSource P hs
      | apply P_setRest P hr

/-- The same for `peer_recv_pdu`. -/
theorem peer_recv_pdu_preserves (c : Consts) (env : Env σ S) (P : rdpRdp σ → Prop)
    (hr : RestFrame P) (hs : SourceFrame P) (hk : env.Preserves P) (m : Mach σ S)
    (h : P m.client.rdp) : P (peer_recv_pdu c env m).2.client.rdp := by
  unfold peer_recv_pdu
  dsimp only
  split_ifs
  · exact peer_recv_tpkt_pdu_preserves c env P hr hs hk _ h
  · exact peer_recv_fastpath_pdu_preserves c env P hr _ h

/-- The same for `peer_recv_callback`, in any state. -/
theorem peer_recv_callback_preserves (c : Consts) (env : Env σ S) (P : rdpRdp σ → Prop)
    (hr : RestFrame P) (hs : SourceFrame P) (hk : env.Preserves P) (m : Mach σ S)
    (h : P m.client.rdp) : P (peer_recv_callback c env m).2.client.rdp := by
  unfold peer_recv_callback
  dsimp only
  simp only [ret_eta]
  split_ifs
  all_goals
    first
      | exact h
      | exact peer_recv_pdu_preserves c env P hr hs hk m h
      | exact P_callRdp P env hk _ (by simp [Env.acceptors]) m _ h

end preserves

/-! ## Properties of the handle that the receive path cannot change -/

section handle
variable {σ S : Type}

theorem Q_setRdp (Q : freerdp_peer σ → Prop) (hq : HandleFrame Q) (m : Mach σ S)
    (r : rdpRdp σ) (h : Q m.client) : Q (m.setRdp r).client := hq.1 _ _ h

theorem Q_setRest (Q : freerdp_peer σ → Prop) (hq : HandleFrame Q) (m : Mach σ S) (x : σ)
    (h : Q m.client) : Q (m.setRest x).client := hq.1 _ _ h

theorem Q_clearPostConnect (Q : freerdp_peer σ → Prop) (hq : HandleFrame Q) (m : Mach σ S)
    (h : Q m.client) : Q m.clearPostConnect.client := hq.2 _ h

theorem Q_callRdp (Q : freerdp_peer σ → Prop) (hq : HandleFrame Q) (m : Mach σ S)
    (f : rdpRdp σ → S → Bool × rdpRdp σ × S) (e : Call) (h : Q m.client) :
    Q (m.callRdp f e).2.client := hq.1 _ _ h

/-- The PostConnect block writes the core and the PostConnect slot only. -/
theorem font_list_PostConnect_handle (Q : freerdp_peer σ → Prop) (hq : HandleFrame Q)
    (m : Mach σ S) (h : Q m.client) : Q (font_list_PostConnect m).2.client := by
  cases hP : m.client.PostConnect with
  | none => rw [font_list_PostConnect_none m hP]; exact h
  | some f =>
    rw [font_list_PostConnect_some m f hP]
    split
    · exact Q_setRest Q hq _ _ h
    · exact Q_clearPostConnect Q hq _ (Q_setRest Q hq _ _ h)

/-- The Activate block writes the core only. -/
theorem font_list_Activate_handle (Q : freerdp_peer σ → Prop) (hq : HandleFrame Q)
    (m : Mach σ S) (h : Q m.client) : Q (font_list_Activate m).2.client := by
  cases hA : m.client.Activate with
  | none => rw [font_list_Activate_none m hA]; exact h
  | some g =>
    rw [font_list_Activate_some m g hA]
    exact Q_setRest Q hq _ _ h

/-- `peer_recv_data_pdu` writes the core and the PostConnect slot only. -/
theorem peer_recv_data_pdu_handle (c : Consts) (env : Env σ S) (Q : freerdp_peer σ → Prop)
    (hq : HandleFrame Q) (m : Mach σ S) (h : Q m.client) :
    Q (peer_recv_data_pdu c env m).2.client := by
  unfold peer_recv_data_pdu
  dsimp only
  simp only [ret_eta]
  split_ifs
  all_goals
    repeat
      first
      | exact h
      | rw [Mach.log_client]
      | rw [Mach.setStream_client]
      | apply Q_callRdp Q hq
      | apply font_list_Activate_handle Q hq
      | apply font_list_PostConnect_handle Q hq
      | apply Q_setRest Q hq

/-- `peer_recv_fastpath_pdu` writes the core only. -/
theorem peer_recv_fastpath_pdu_handle (c : Consts) (env : Env σ S)
    (Q : freerdp_peer σ → Prop) (hq : HandleFrame Q) (m : Mach σ S) (h : Q m.client) :
    Q (peer_recv_fastpath_pdu c env m).2.client := by
  unfold peer_recv_fastpath_pdu
  dsimp only
  split_ifs
  all_goals
    repeat
      first
      | exact h
      | rw [Mach.log_client]
      | rw [Mach.setStream_client]
      | apply Q_setRest Q hq

/-- `peer_recv_tpkt_pdu` writes the core and the PostConnect slot only. -/
theorem peer_recv_tpkt_pdu_handle (c : Consts) (env : Env σ S) (Q : freerdp_peer σ → Prop)
    (hq : HandleFrame Q) (m : Mach σ S) (h : Q m.client) :
    Q (peer_recv_tpkt_pdu c env m).2.client := by
  unfold peer_recv_tpkt_pdu
  dsimp only
  simp only [ret_eta]
  split_ifs
  all_goals
    repeat
      first
      | exact h
      | rw [Mach.log_client]
      | rw [Mach.setStream_client]
      | apply peer_recv_data_pdu_handle c env Q hq
      | apply Q_setRest Q hq
      | apply Q_setRdp Q hq

/-- The same for `peer_recv_pdu`. -/
theorem peer_recv_pdu_handle (c : Consts) (env : Env σ S) (Q : freerdp_peer σ → Prop)
    (hq : HandleFrame Q) (m : Mach σ S) (h : Q m.client) :
    Q (peer_recv_pdu c env m).2.client := by
  unfold peer_recv_pdu
  dsimp only
  split_ifs
  · exact peer_recv_tpkt_pdu_handle c env Q hq _ h
  · exact peer_recv_fastpath_pdu_handle c env Q hq _ h

/-- The same for `peer_recv_callback`, in any state. -/
theorem peer_recv_callback_handle (c : Consts) (env : Env σ S) (Q : freerdp_peer σ → Prop)
    (hq : HandleFrame Q) (m : Mach σ S) (h : Q m.client) :
    Q (peer_recv_callback c env m).2.client := by
  unfold peer_recv_callback
  dsimp only
  simp only [ret_eta]
  split_ifs
  all_goals
    first
      | exact h
      | exact peer_recv_pdu_handle c env Q hq m h
      | exact Q_callRdp Q hq m _ _ h

end handle

/-! ## The operations of the handle -/

section operations
variable {σ S : Type}

/-- One delivery keeps what the receive callback keeps. -/
theorem deliver_preserves (c : Consts) (env : Env σ S) (P : rdpRdp σ → Prop)
    (hr : RestFrame P) (hs : SourceFrame P) (hk : env.Preserves P) (m : Mach σ S) (s : S)
    (h : P m.client.rdp) : P (deliver c env m s).2.client.rdp :=
  peer_recv_callback_preserves c env P hr hs hk (m.setStream s) h

/-- The upcalls of one round keep what the receive callback keeps. -/
theorem driveCallbacks_preserves (c : Consts) (env : Env σ S) (P : rdpRdp σ → Prop)
    (hr : RestFrame P) (hs : SourceFrame P) (hk : env.Preserves P) (status : Int)
    (m : Mach σ S) (ss : List S) (h : P m.client.rdp) :
    P (driveCallbacks c env status m ss).2.client.rdp := by
  induction ss generalizing m with
  | nil => exact h
  | cons s ss ih =>
    rw [driveCallbacks]
    split
    · exact ih _ (deliver_preserves c env P hr hs hk m s h)
    · exact deliver_preserves c env P hr hs hk m s h

/-- `rdp_check_fds` keeps what the receive callback keeps. -/
theorem rdp_check_fds_preserves (c : Consts) (env : Env σ S) (rt : Runtime σ S)
    (P : rdpRdp σ → Prop) (hr : RestFrame P) (hs : SourceFrame P) (hk : env.Preserves P)
    (m : Mach σ S) (h : P m.client.rdp) : P (rdp_check_fds c env rt m).2.client.rdp := by
  unfold rdp_check_fds
  dsimp only
  split
  · exact P_setRest P hr _ _ h
  · exact driveCallbacks_preserves c env P hr hs hk _ _ _ (P_setRest P hr _ _ h)

/-- The machine after `freerdp_peer_check_fds` is the machine that the one
call of `rdp_check_fds` left. -/
theorem freerdp_peer_check_fds_snd (check : Mach σ S → Int × Mach σ S) (m : Mach σ S) :
    ( freerdp_peer_check_fds check m).2 = (check (m.log Call.rdp_check_fds)).2 := by
  unfold freerdp_peer_check_fds
  dsimp only
  split <;> rfl

/-- What `freerdp_peer_get_fds` returns when it returns. -/
theorem freerdp_peer_get_fds_some (rt : Runtime σ S) (client : freerdp_peer σ)
    (rfds : List Int) (rcount : Int) (out : Bool × freerdp_peer σ × List Int × Int)
    (h : freerdp_peer_get_fds rt client rfds rcount = some out) :
    out = (true, client, rfds.set rcount.toNat (rt.tcp_sockfd client.rdp.rest),
      wrapInt (rcount + 1)) := by
  unfold freerdp_peer_get_fds at h
  split at h
  · exact (Option.some.inj h).symm
  · exact absurd h (by simp)

/-- The hook call changes `rest` only. -/
theorem call_hook_preserves (P : rdpRdp σ → Prop) (hr : RestFrame P)
    (hook : Option (Hook σ)) (e : Call) (m : Mach σ S) (h : P m.client.rdp) :
    P (call_hook hook e m).client.rdp := by
  unfold call_hook
  split
  · exact P_setRest P hr _ _ h
  · exact h

/-- A property of the core that `freerdp_peer_initialize` establishes and that
neither the acceptors nor a write to `rest` or `pdu_source` destroys survives
every later operation. -/
theorem Step_preserves (c : Consts) (env : Env σ S) (rt : Runtime σ S)
    (P : rdpRdp σ → Prop) (hr : RestFrame P) (hs : SourceFrame P) (hk : env.Preserves P)
    (hi : ∀ cl : freerdp_peer σ, P ( freerdp_peer_initialize c cl).2.rdp)
    (m p : Mach σ S) (hstep : Step c env rt m p) (h : P m.client.rdp) :
    P p.client.rdp := by
  cases hstep with
  | init => exact hi _
  | get_fds rfds rcount out hout =>
    rw [freerdp_peer_get_fds_some rt _ rfds rcount out hout]
    exact h
  | check_fds =>
    rw [freerdp_peer_check_fds_snd]
    exact rdp_check_fds_preserves c env rt P hr hs hk _ h
  | disconnect => exact P_setRest P hr _ _ h
  | receive s => exact deliver_preserves c env P hr hs hk _ s h
  | context_free => exact call_hook_preserves P hr _ _ _ h

/-- The same over any number of operations. -/
theorem Steps_preserves (c : Consts) (env : Env σ S) (rt : Runtime σ S)
    (P : rdpRdp σ → Prop) (hr : RestFrame P) (hs : SourceFrame P) (hk : env.Preserves P)
    (hi : ∀ cl : freerdp_peer σ, P ( freerdp_peer_initialize c cl).2.rdp)
    (m p : Mach σ S) (hsteps : Steps c env rt m p) (h : P m.client.rdp) :
    P p.client.rdp := by
  induction hsteps with
  | refl => exact h
  | tail p q _ hstep ih => exact Step_preserves c env rt P hr hs hk hi p q hstep ih

/-- One delivery keeps of the handle what the receive callback keeps. -/
theorem deliver_handle (c : Consts) (env : Env σ S) (Q : freerdp_peer σ → Prop)
    (hq : HandleFrame Q) (m : Mach σ S) (s : S) (h : Q m.client) :
    Q (deliver c env m s).2.client :=
  peer_recv_callback_handle c env Q hq (m.setStream s) h

/-- The upcalls of one round keep of the handle what the receive callback
keeps. -/
theorem driveCallbacks_handle (c : Consts) (env : Env σ S) (Q : freerdp_peer σ → Prop)
    (hq : HandleFrame Q) (status : Int) (m : Mach σ S) (ss : List S) (h : Q m.client) :
    Q (driveCallbacks c env status m ss).2.client := by
  induction ss generalizing m with
  | nil => exact h
  | cons s ss ih =>
    rw [driveCallbacks]
    split
    · exact ih _ (deliver_handle c env Q hq m s h)
    · exact deliver_handle c env Q hq m s h

/-- `rdp_check_fds` keeps of the handle what the receive callback keeps. -/
theorem rdp_check_fds_handle (c : Consts) (env : Env σ S) (rt : Runtime σ S)
    (Q : freerdp_peer σ → Prop) (hq : HandleFrame Q) (m : Mach σ S) (h : Q m.client) :
    Q (rdp_check_fds c env rt m).2.client := by
  unfold rdp_check_fds
  dsimp only
  split
  · exact Q_setRest Q hq _ _ h
  · exact driveCallbacks_handle c env Q hq _ _ _ (Q_setRest Q hq _ _ h)

/-- The hook call writes the core only. -/
theorem call_hook_handle (Q : freerdp_peer σ → Prop) (hq : HandleFrame Q)
    (hook : Option (Hook σ)) (e : Call) (m : Mach σ S) (h : Q m.client) :
    Q (call_hook hook e m).client := by
  unfold call_hook
  split
  · exact Q_setRest Q hq _ _ h
  · exact h

/-- `freerdp_peer_initialize` writes the core only. -/
theorem freerdp_peer_initialize_handle (c : Consts) (Q : freerdp_peer σ → Prop)
    (hq : HandleFrame Q) (cl : freerdp_peer σ) (h : Q cl) :
    Q ( freerdp_peer_initialize c cl).2 := by
  unfold freerdp_peer_initialize
  exact hq.1 _ _ (hq.1 _ _ h)

/-- `freerdp_peer_disconnect` writes the core only. -/
theorem freerdp_peer_disconnect_handle (rt : Runtime σ S) (Q : freerdp_peer σ → Prop)
    (hq : HandleFrame Q) (m : Mach σ S) (h : Q m.client) :
    Q ( freerdp_peer_disconnect rt m).client := by
  unfold freerdp_peer_disconnect
  exact Q_setRest Q hq _ _ h

/-- A property of the handle that depends neither on the core nor on the
PostConnect slot survives every later operation: each of them writes, in the
handle, nothing but the core and that slot. -/
theorem Step_handle (c : Consts) (env : Env σ S) (rt : Runtime σ S)
    (Q : freerdp_peer σ → Prop) (hq : HandleFrame Q)
    (m p : Mach σ S) (hstep : Step c env rt m p) (h : Q m.client) : Q p.client := by
  cases hstep with
  | init => exact freerdp_peer_initialize_handle c Q hq _ h
  | get_fds rfds rcount out hout =>
    rw [freerdp_peer_get_fds_some rt _ rfds rcount out hout]
    exact h
  | check_fds =>
    rw [freerdp_peer_check_fds_snd]
    exact rdp_check_fds_handle c env rt Q hq _ h
  | disconnect => exact freerdp_peer_disconnect_handle rt Q hq m h
  | receive s => exact deliver_handle c env Q hq m s h
  | context_free => exact call_hook_handle Q hq _ _ _ h

/-- The same over any number of operations. -/
theorem Steps_handle (c : Consts) (env : Env σ S) (rt : Runtime σ S)
    (Q : freerdp_peer σ → Prop) (hq : HandleFrame Q)
    (m p : Mach σ S) (hsteps : Steps c env rt m p) (h : Q m.client) : Q p.client := by
  induction hsteps with
  | refl => exact h
  | tail p q _ hstep ih => exact Step_handle c env rt Q hq p q hstep ih

/-- The pointers `freerdp_peer_context_new` has stored when it returns. -/
theorem freerdp_peer_context_new_links (rt : Runtime σ S) (self : Ptr) (m : Mach σ S) :
    ( freerdp_peer_context_new rt self m).client.context = rt.xzalloc m.client.context_size ∧
    ( freerdp_peer_context_new rt self m).client.context_rdp = rt.rdp_new.1 ∧
    ( freerdp_peer_context_new rt self m).client.context_peer = self ∧
    ( freerdp_peer_context_new rt self m).client.update_context =
      rt.xzalloc m.client.context_size ∧
    ( freerdp_peer_context_new rt self m).client.input_context =
      rt.xzalloc m.client.context_size ∧
    ( freerdp_peer_context_new rt self m).client.recv_callback =
      some RecvCallback.peer_recv_callback ∧
    ( freerdp_peer_context_new rt self m).client.recv_extra = self ∧
    ( freerdp_peer_context_new rt self m).client.rdp.state = rt.rdp_new.2.state ∧
    ( freerdp_peer_context_new rt self m).client.rdp.settings = rt.rdp_new.2.settings := by
  unfold freerdp_peer_context_new call_hook
  dsimp only
  split <;> exact ⟨rfl, rfl, rfl, rfl, rfl, rfl, rfl, rfl, rfl⟩

end operations

/-- The operations that lead from `sampleReady` to `sampleLife`. -/
theorem sampleLife_steps : Steps sampleConsts sampleEnv sampleRuntime sampleReady sampleLife :=
  Steps.tail _ _ _
    (Steps.tail _ _ _
      (Steps.tail _ _ _
        (Steps.tail _ _ _ (Steps.refl _) (Step.receive sampleReady [1]))
        (Step.check_fds _))
      (Step.disconnect _))
    (Step.context_free _)

/-- The same from `sampleObj`, with `Initialize` first. -/
theorem sampleLife_steps_from_new :
    Steps sampleConsts sampleEnv sampleRuntime sampleObj sampleLife :=
  Steps.tail _ _ _
    (Steps.tail _ _ _
      (Steps.tail _ _ _
        (Steps.tail _ _ _
          (Steps.tail _ _ _ (Steps.refl _) (Step.init sampleObj))
          (Step.receive sampleReady [1]))
        (Step.check_fds _))
      (Step.disconnect _))
    (Step.context_free _)

/-- The mock acceptors of `sampleEnv` leave the settings alone. -/
theorem sampleEnv_keeps_settings :
    ∀ f ∈ sampleEnv.acceptors, ∀ (r : rdpRdp Nat) (s : List Nat),
      (f r s).2.1.settings = r.settings := by
  intro f hf r s
  simp only [Env.acceptors, List.mem_cons, List.mem_singleton, List.not_mem_nil, or_false] at hf
  rcases hf with h | h | h | h | h | h | h | h | h <;> subst h <;> rfl

/-- The mock acceptors of `sampleEnv` do not turn `server_mode` off. -/
theorem sampleEnv_keeps_server_mode :
    sampleEnv.Preserves (fun r => r.settings.server_mode = true) := by
  intro f hf r s h
  show (f r s).2.1.settings.server_mode = true
  rw [sampleEnv_keeps_settings f hf r s]
  exact h

/-! ## The settings after a delivery -/

section settings
variable {σ S : Type}

/-- A TPKT stream whose RDP header does not read is refused. -/
theorem peer_recv_pdu_bad_header (c : Consts) (env : Env σ S) (m : Mach σ S)
    (hv : (env.tpkt_verify_header m.s).1 = true) (hok : (rdpHeaderRead env m).ok = false) :
    peer_recv_pdu c env m =
      (false, (((m.setStream (tpktStream env m)).log Call.tpkt_verify_header).setRest
        (rdpHeaderRead env m).rest |>.setStream (rdpHeaderRead env m).s).log
        Call.rdp_read_header) := by
  unfold rdpHeaderRead tpktStream at *
  unfold peer_recv_pdu peer_recv_tpkt_pdu
  simp [hv, hok]

/-- A global-channel PDU whose share-control header does not read is refused;
`pdu_source` holds what the reader left in it. -/
theorem peer_recv_pdu_bad_share_control (c : Consts) (env : Env σ S) (m : Mach σ S)
    (ht : IsTpktPdu env m)
    (hch : (rdpHeaderRead env m).channelId = c.MCS_GLOBAL_CHANNEL_ID)
    (hsc : (shareControlRead env m).ok = false) :
    peer_recv_pdu c env m = (false, dataPduInput env m) := by
  obtain ⟨hv, hok⟩ := ht
  unfold shareControlRead rdpHeaderRead tpktStream at *
  unfold peer_recv_pdu peer_recv_tpkt_pdu
  simp only [hv, hok, hch, hsc, Mach.log_s, Mach.setStream_s, Mach.log_client,
    Mach.setStream_client, Mach.setRest_settings, Mach.setRest_state, Mach.setRest_rest,
    Bool.not_true, Bool.not_false, Bool.false_eq_true, if_false, if_true, ne_eq,
    not_true_eq_false, ret_eta]
  congr 1
  simp [dataPduInput, rdpAfterHeaders, shareControlRead, rdpHeaderRead, tpktStream, Mach.log,
    Mach.setStream, Mach.setRest, Mach.setRdp]

/-- With acceptors that leave the settings alone, `peer_recv_pdu` leaves them
as they were, or the stream was TPKT on the global channel and `pdu_source`
holds what the share-control header reader gave. -/
theorem peer_recv_pdu_settings (c : Consts) (env : Env σ S) (m : Mach σ S)
    (hk : ∀ f ∈ env.acceptors, ∀ (r : rdpRdp σ) (s : S), (f r s).2.1.settings = r.settings) :
    (peer_recv_pdu c env m).2.client.rdp.settings = m.client.rdp.settings ∨
    (IsTpktPdu env m ∧ (rdpHeaderRead env m).channelId = c.MCS_GLOBAL_CHANNEL_ID ∧
      (peer_recv_pdu c env m).2.client.rdp.settings =
        { m.client.rdp.settings with pdu_source := (shareControlRead env m).pdu_source }) := by
  cases hv : (env.tpkt_verify_header m.s).1 with
  | false =>
    left
    rw [peer_recv_pdu_eq_fastpath c env m hv]
    exact peer_recv_fastpath_pdu_preserves c env (fun r => r.settings = m.client.rdp.settings)
      (fun _ _ h => h) (fastpathInput env m) rfl
  | true =>
    cases hok : (rdpHeaderRead env m).ok with
    | false =>
      left
      rw [peer_recv_pdu_bad_header c env m hv hok]
      rfl
    | true =>
      by_cases hch : (rdpHeaderRead env m).channelId = c.MCS_GLOBAL_CHANNEL_ID
      · right
        refine ⟨⟨hv, hok⟩, hch, ?_⟩
        cases hsc : (shareControlRead env m).ok with
        | false =>
          rw [peer_recv_pdu_bad_share_control c env m ⟨hv, hok⟩ hch hsc]
          rfl
        | true =>
          by_cases hd : (shareControlRead env m).pduType = c.PDU_TYPE_DATA
          · rw [peer_recv_pdu_eq_data_pdu c env m ⟨⟨hv, hok⟩, hch, hsc⟩ hd]
            exact peer_recv_data_pdu_preserves c env
              (fun r => r.settings = { m.client.rdp.settings with
                pdu_source := (shareControlRead env m).pdu_source })
              (fun _ _ h => h) (fun f hf r s h => (hk f hf r s).trans h)
              (dataPduInput env m) rfl
          · rw [peer_recv_pdu_other_pduType c env m ⟨⟨hv, hok⟩, hch, hsc⟩ hd]
            rfl
      · left
        rw [peer_recv_pdu_other_channel c env m ⟨hv, hok⟩ hch]
        rfl

/-- The same for `peer_recv_callback`: the settings change only in state
ACTIVE on the TPKT global-channel path, and only in `pdu_source`. -/
theorem peer_recv_callback_settings (c : Consts) (env : Env σ S) (m : Mach σ S)
    (hk : ∀ f ∈ env.acceptors, ∀ (r : rdpRdp σ) (s : S), (f r s).2.1.settings = r.settings) :
    (peer_recv_callback c env m).2.client.rdp.settings = m.client.rdp.settings ∨
    (m.client.rdp.state = c.CONNECTION_STATE_ACTIVE ∧ IsTpktPdu env m ∧
      (rdpHeaderRead env m).channelId = c.MCS_GLOBAL_CHANNEL_ID ∧
      (peer_recv_callback c env m).2.client.rdp.settings =
        { m.client.rdp.settings with pdu_source := (shareControlRead env m).pdu_source }) := by
  unfold peer_recv_callback
  dsimp only
  simp only [ret_eta]
  split_ifs with h1 h2 h3 h4 h5 h6 h7 h8
  · exact Or.inl (hk _ (by simp [Env.acceptors]) _ _)
  · exact Or.inl (hk _ (by simp [Env.acceptors]) _ _)
  · exact Or.inl (hk _ (by simp [Env.acceptors]) _ _)
  · exact Or.inl (hk _ (by simp [Env.acceptors]) _ _)
  · exact Or.inl (hk _ (by simp [Env.acceptors]) _ _)
  · exact Or.inl (hk _ (by simp [Env.acceptors]) _ _)
  · exact Or.inl (hk _ (by simp [Env.acceptors]) _ _)
  · rcases peer_recv_pdu_settings c env m hk with h | ⟨a, b, d⟩
    · exact Or.inl h
    · exact Or.inr ⟨h8, a, b, d⟩
  · exact Or.inl rfl

end settings

/-- The acceptors of `sampleEnvIdle` leave the state as it was. -/
theorem sampleEnvIdle_keeps_state :
    ∀ f ∈ sampleEnvIdle.acceptors, ∀ (r : rdpRdp Nat) (s : List Nat),
      (f r s).2.1.state = r.state := by
  intro f hf r s
  simp only [Env.acceptors, List.mem_cons, List.mem_singleton, List.not_mem_nil, or_false] at hf
  rcases hf with h | h | h | h | h | h | h | h | h <;> subst h <;> rfl

/-- The machine one round of upcalls leaves is the one `deliverAll` gives for
the same streams. -/
theorem driveCallbacks_snd {σ S : Type} (c : Consts) (env : Env σ S) (status : Int)
    (m : Mach σ S) (ss : List S) :
    (driveCallbacks c env status m ss).2 = deliverAll c env m ss := by
  induction ss generalizing m with
  | nil => rfl
  | cons s ss ih =>
    rw [driveCallbacks, deliverAll]
    split
    · exact ih _
    · rfl

/-! ## The two callback blocks of a FONT_LIST delivery -/

section fontlist3
variable {σ S : Type}

/-- The Activate slot at peer.c:93 is the one of the handle at entry. -/
theorem afterPostConnect_Activate (env : Env σ S) (m : Mach σ S) :
    (afterPostConnect env m).client.Activate = m.client.Activate := by
  unfold afterPostConnect
  split <;> rfl

/-- The PostConnect slot at peer.c:93 is null. -/
theorem afterPostConnect_PostConnect (env : Env σ S) (m : Mach σ S) :
    (afterPostConnect env m).client.PostConnect = none := by
  unfold afterPostConnect
  split
  · rfl
  · next h => exact h

/-- The state and the settings at peer.c:93 are those the font-list acceptor
left. -/
theorem afterPostConnect_state (env : Env σ S) (m : Mach σ S) :
    (afterPostConnect env m).client.rdp.state = (fontListAccept env m).2.1.state ∧
    (afterPostConnect env m).client.rdp.settings = (fontListAccept env m).2.1.settings := by
  unfold afterPostConnect
  split <;> exact ⟨rfl, rfl⟩

/-- The log at peer.c:93. -/
theorem afterPostConnect_trace (env : Env σ S) (m : Mach σ S) :
    (afterPostConnect env m).trace =
      m.trace ++ [Call.tpkt_verify_header, Call.rdp_read_header,
        Call.rdp_read_share_control_header, Call.rdp_read_share_data_header,
        Call.rdp_server_accept_client_font_list_pdu] ++
        (match m.client.PostConnect with
          | some _ => [Call.PostConnect true]
          | none => []) := by
  unfold afterPostConnect
  split <;> simp [*]

/-- With a null PostConnect slot the machine at peer.c:93 is the one the
font-list acceptor left. -/
theorem afterPostConnect_none (env : Env σ S) (m : Mach σ S)
    (h : m.client.PostConnect = none) : afterPostConnect env m = afterFontList env m := by
  unfold afterPostConnect
  rw [h]

/-- With `PostConnect` installed, the core at peer.c:93 has the `rest` that
`PostConnect` returned. -/
theorem afterPostConnect_some (env : Env σ S) (m : Mach σ S) (f : Callback σ)
    (h : m.client.PostConnect = some f) :
    (afterPostConnect env m).client.rdp =
      { (fontListAccept env m).2.1 with rest := (f (fontListAccept env m).2.1).2 } := by
  unfold afterPostConnect
  rw [h]
  rfl

/-- When `PostConnect` is absent or returns true, the PostConnect block falls
through and leaves `afterPostConnect`. -/
theorem font_list_PostConnect_through (env : Env σ S) (m : Mach σ S)
    (hpc : ∀ f, m.client.PostConnect = some f → (f (fontListAccept env m).2.1).1 = true) :
    font_list_PostConnect (afterFontList env m) = (true, afterPostConnect env m) := by
  cases hP : m.client.PostConnect with
  | none =>
    rw [font_list_PostConnect_none (afterFontList env m) hP, afterPostConnect_none env m hP]
  | some f =>
    have hv := hpc f hP
    rw [font_list_PostConnect_some (afterFontList env m) f hP]
    simp only [afterFontList_rdp, hv, Bool.true_eq_false, if_false]
    unfold afterPostConnect
    rw [hP]

/-- A FONT_LIST delivery in state ACTIVE whose acceptor succeeds and whose
PostConnect block falls through is the Activate block on `afterPostConnect`. -/
theorem font_list_delivery_through (c : Consts) (env : Env σ S) (m : Mach σ S)
    (hc : c.WellFormed) (hst : m.client.rdp.state = c.CONNECTION_STATE_ACTIVE)
    (hp : IsDataPdu c env m c.DATA_PDU_TYPE_FONT_LIST)
    (hacc : (fontListAccept env m).1 = true)
    (hpc : ∀ f, m.client.PostConnect = some f → (f (fontListAccept env m).2.1).1 = true) :
    peer_recv_callback c env m = font_list_Activate (afterPostConnect env m) := by
  rw [font_list_delivery c env m hc hst hp hacc, font_list_PostConnect_through env m hpc]
  simp

/-- The same with `Activate` installed at peer.c:93: the result is the result
of the one invocation of `Activate`. -/
theorem font_list_delivery_callback (c : Consts) (env : Env σ S) (m : Mach σ S)
    (g : Callback σ) (hc : c.WellFormed)
    (hst : m.client.rdp.state = c.CONNECTION_STATE_ACTIVE)
    (hp : IsDataPdu c env m c.DATA_PDU_TYPE_FONT_LIST)
    (hacc : (fontListAccept env m).1 = true)
    (hpc : ∀ f, m.client.PostConnect = some f → (f (fontListAccept env m).2.1).1 = true)
    (hA : (afterPostConnect env m).client.Activate = some g) :
    peer_recv_callback c env m =
      ((g (afterPostConnect env m).client.rdp).1,
        ((afterPostConnect env m).setRest (g (afterPostConnect env m).client.rdp).2).log
          (Call.Activate (g (afterPostConnect env m).client.rdp).1)) := by
  rw [font_list_delivery_through c env m hc hst hp hacc hpc,
    font_list_Activate_some (afterPostConnect env m) g hA]

/-- A FONT_LIST delivery in state ACTIVE whose acceptor succeeds and whose
`PostConnect` returns false ends after that invocation. -/
theorem font_list_delivery_postConnect_false (c : Consts) (env : Env σ S) (m : Mach σ S)
    (f : Callback σ) (hc : c.WellFormed)
    (hst : m.client.rdp.state = c.CONNECTION_STATE_ACTIVE)
    (hp : IsDataPdu c env m c.DATA_PDU_TYPE_FONT_LIST)
    (hacc : (fontListAccept env m).1 = true) (hf : m.client.PostConnect = some f)
    (hv : (f (fontListAccept env m).2.1).1 = false) :
    peer_recv_callback c env m =
      (false, ((afterFontList env m).setRest (f (fontListAccept env m).2.1).2).log
        (Call.PostConnect false)) := by
  rw [font_list_delivery c env m hc hst hp hacc,
    font_list_PostConnect_some (afterFontList env m) f hf]
  simp [hv]

end fontlist3

/-! ## The state after a delivery in ACTIVE -/

section activestate
variable {σ S : Type}

/-- The CONTROL case of `peer_recv_data_pdu`. -/
theorem peer_recv_data_pdu_control (c : Consts) (env : Env σ S) (m : Mach σ S)
    (hc : c.WellFormed) (hok : (env.rdp_read_share_data_header m.s).ok = true)
    (hty : (env.rdp_read_share_data_header m.s).type = c.DATA_PDU_TYPE_CONTROL) :
    peer_recv_data_pdu c env m =
      ((m.setStream (env.rdp_read_share_data_header m.s).s).log
        Call.rdp_read_share_data_header).callRdp env.rdp_server_accept_client_control_pdu
        Call.rdp_server_accept_client_control_pdu := by
  have hn := hc.dataPdus_ne
  simp only [Consts.dataPduLabels, List.pairwise_cons, List.mem_cons, List.mem_singleton,
    forall_eq_or_imp, forall_eq, List.not_mem_nil, List.Pairwise.nil, and_true,
    IsEmpty.forall_iff, implies_true, ne_eq] at hn
  unfold peer_recv_data_pdu
  dsimp only
  simp only [hok, hty, hn, Bool.not_true, Bool.false_eq_true, if_false, if_true, ret_eta]

/-- Outside the CONTROL and FONT_LIST cases `peer_recv_data_pdu` leaves the
state as it was. -/
theorem peer_recv_data_pdu_state_other (c : Consts) (env : Env σ S) (m : Mach σ S)
    (h1 : ¬ ((env.rdp_read_share_data_header m.s).ok = true ∧
      (env.rdp_read_share_data_header m.s).type = c.DATA_PDU_TYPE_CONTROL))
    (h2 : ¬ ((env.rdp_read_share_data_header m.s).ok = true ∧
      (env.rdp_read_share_data_header m.s).type = c.DATA_PDU_TYPE_FONT_LIST)) :
    (peer_recv_data_pdu c env m).2.client.rdp.state = m.client.rdp.state := by
  cases hok : (env.rdp_read_share_data_header m.s).ok with
  | false =>
    unfold peer_recv_data_pdu
    simp [hok]
  | true =>
    have k1 : (env.rdp_read_share_data_header m.s).type ≠ c.DATA_PDU_TYPE_CONTROL :=
      fun h => h1 ⟨hok, h⟩
    have k2 : (env.rdp_read_share_data_header m.s).type ≠ c.DATA_PDU_TYPE_FONT_LIST :=
      fun h => h2 ⟨hok, h⟩
    unfold peer_recv_data_pdu
    dsimp only
    simp only [hok, k1, k2, Bool.not_true, Bool.false_eq_true, if_false, ret_eta]
    split_ifs <;> rfl

/-- In state ACTIVE, a CONTROL data PDU: the core and the return value are
those the control acceptor returned. -/
theorem control_delivery (c : Consts) (env : Env σ S) (m : Mach σ S) (hc : c.WellFormed)
    (hst : m.client.rdp.state = c.CONNECTION_STATE_ACTIVE)
    (hp : IsDataPdu c env m c.DATA_PDU_TYPE_CONTROL) :
    (peer_recv_callback c env m).1 = (controlAccept env m).1 ∧
    (peer_recv_callback c env m).2.client.rdp = (controlAccept env m).2.1 := by
  obtain ⟨hg, hd, hok, hty⟩ := hp
  rw [peer_recv_callback_active c env m hc hst, peer_recv_pdu_eq_data_pdu c env m hg hd,
    peer_recv_data_pdu_control c env (dataPduInput env m) hc hok hty]
  exact ⟨rfl, rfl⟩

/-- In state ACTIVE, a FONT_LIST data PDU: the state is the one the font-list
acceptor left; the callbacks do not reach it. -/
theorem font_list_delivery_state (c : Consts) (env : Env σ S) (m : Mach σ S)
    (hc : c.WellFormed) (hst : m.client.rdp.state = c.CONNECTION_STATE_ACTIVE)
    (hp : IsDataPdu c env m c.DATA_PDU_TYPE_FONT_LIST) :
    (peer_recv_callback c env m).2.client.rdp.state = (fontListAccept env m).2.1.state ∧
    (peer_recv_callback c env m).2.client.rdp.settings =
      (fontListAccept env m).2.1.settings := by
  cases hacc : (fontListAccept env m).1 with
  | false =>
    rw [font_list_delivery_rejected c env m hc hst hp hacc]
    exact ⟨rfl, rfl⟩
  | true =>
    rw [font_list_delivery c env m hc hst hp hacc]
    have hP := font_list_PostConnect_preserves
      (fun r => r.state = (fontListAccept env m).2.1.state ∧
        r.settings = (fontListAccept env m).2.1.settings)
      (fun _ _ h => h) (afterFontList env m) ⟨rfl, rfl⟩
    split
    · exact hP
    · exact font_list_Activate_preserves
        (fun r => r.state = (fontListAccept env m).2.1.state ∧
          r.settings = (fontListAccept env m).2.1.settings)
        (fun _ _ h => h) _ hP

/-- In state ACTIVE, every delivery that is neither a CONTROL nor a FONT_LIST
data PDU leaves the state as it was: no function that can write it is
called. -/
theorem other_delivery_state (c : Consts) (env : Env σ S) (m : Mach σ S) (hc : c.WellFormed)
    (hst : m.client.rdp.state = c.CONNECTION_STATE_ACTIVE)
    (h1 : ¬ IsDataPdu c env m c.DATA_PDU_TYPE_CONTROL)
    (h2 : ¬ IsDataPdu c env m c.DATA_PDU_TYPE_FONT_LIST) :
    (peer_recv_callback c env m).2.client.rdp.state = m.client.rdp.state := by
  rw [peer_recv_callback_active c env m hc hst]
  cases hv : (env.tpkt_verify_header m.s).1 with
  | false =>
    rw [peer_recv_pdu_eq_fastpath c env m hv]
    exact peer_recv_fastpath_pdu_preserves c env (fun r => r.state = m.client.rdp.state)
      (fun _ _ h => h) (fastpathInput env m) rfl
  | true =>
    cases hok : (rdpHeaderRead env m).ok with
    | false =>
      rw [peer_recv_pdu_bad_header c env m hv hok]
      rfl
    | true =>
      by_cases hch : (rdpHeaderRead env m).channelId = c.MCS_GLOBAL_CHANNEL_ID
      · cases hsc : (shareControlRead env m).ok with
        | false =>
          rw [peer_recv_pdu_bad_share_control c env m ⟨hv, hok⟩ hch hsc]
          rfl
        | true =>
          by_cases hd : (shareControlRead env m).pduType = c.PDU_TYPE_DATA
          · rw [peer_recv_pdu_eq_data_pdu c env m ⟨⟨hv, hok⟩, hch, hsc⟩ hd]
            exact peer_recv_data_pdu_state_other c env (dataPduInput env m)
              (fun h => h1 ⟨⟨⟨hv, hok⟩, hch, hsc⟩, hd, h.1, h.2⟩)
              (fun h => h2 ⟨⟨⟨hv, hok⟩, hch, hsc⟩, hd, h.1, h.2⟩)
          · rw [peer_recv_pdu_other_pduType c env m ⟨⟨hv, hok⟩, hch, hsc⟩ hd]
            rfl
      · rw [peer_recv_pdu_other_channel c env m ⟨hv, hok⟩ hch]
        rfl

end activestate

/-! ## What a `PostConnect` entry of the log records -/

section tie
variable {σ S : Type}

/-- The PostConnect block with `f` in the slot logs what `f` returned on the
core of the machine. -/
theorem font_list_PostConnect_tie (m : Mach σ S) (f : Callback σ)
    (hf : m.client.PostConnect = some f) :
    postConnectRets (font_list_PostConnect m).2.trace =
      postConnectRets m.trace ++ [(f m.client.rdp).1] := by
  rw [font_list_PostConnect_some m f hf]
  cases h : (f m.client.rdp).1 <;> simp

/-- `peer_recv_fastpath_pdu` logs no `PostConnect`. -/
theorem peer_recv_fastpath_pdu_postConnectRets (c : Consts) (env : Env σ S) (m : Mach σ S) :
    postConnectRets (peer_recv_fastpath_pdu c env m).2.trace = postConnectRets m.trace := by
  unfold peer_recv_fastpath_pdu
  dsimp only
  split_ifs <;> simp

/-- `peer_recv_data_pdu` with `f` in the slot logs no `PostConnect`, or one,
with the value `f` returned on the core the font-list acceptor left. -/
theorem peer_recv_data_pdu_tie (c : Consts) (env : Env σ S) (m : Mach σ S) (f : Callback σ)
    (hf : m.client.PostConnect = some f) :
    postConnectRets (peer_recv_data_pdu c env m).2.trace = postConnectRets m.trace ∨
    postConnectRets (peer_recv_data_pdu c env m).2.trace =
      postConnectRets m.trace ++
        [(f (env.rdp_server_accept_client_font_list_pdu m.client.rdp
          (env.rdp_read_share_data_header m.s).s).2.1).1] := by
  have key := font_list_PostConnect_tie
    (((m.setStream (env.rdp_read_share_data_header m.s).s).log
      Call.rdp_read_share_data_header).callRdp env.rdp_server_accept_client_font_list_pdu
      Call.rdp_server_accept_client_font_list_pdu).2 f hf
  simp only [Mach.callRdp_trace, Mach.log_trace, Mach.setStream_trace, Mach.callRdp_rdp,
    Mach.log_client, Mach.setStream_client, Mach.log_s, Mach.setStream_s,
    postConnectRets_append, postConnectRets_cons, postConnectRets_nil, List.append_nil,
    List.nil_append] at key
  unfold peer_recv_data_pdu
  dsimp only
  simp only [ret_eta]
  split_ifs
  any_goals (left; solve | simp)
  · right
    exact key
  · right
    rw [font_list_Activate_postConnectRets]
    exact key

/-- `peer_recv_pdu` with `f` in the slot logs no `PostConnect`, or one, with
the value `f` returned on the core the font-list acceptor left. -/
theorem peer_recv_pdu_tie (c : Consts) (env : Env σ S) (m : Mach σ S) (f : Callback σ)
    (hf : m.client.PostConnect = some f) :
    postConnectRets (peer_recv_pdu c env m).2.trace = postConnectRets m.trace ∨
    postConnectRets (peer_recv_pdu c env m).2.trace =
      postConnectRets m.trace ++ [(f (fontListAccept env m).2.1).1] := by
  cases hv : (env.tpkt_verify_header m.s).1 with
  | false =>
    left
    rw [peer_recv_pdu_eq_fastpath c env m hv, peer_recv_fastpath_pdu_postConnectRets]
    simp [fastpathInput]
  | true =>
    cases hok : (rdpHeaderRead env m).ok with
    | false =>
      left
      rw [peer_recv_pdu_bad_header c env m hv hok]
      simp
    | true =>
      by_cases hch : (rdpHeaderRead env m).channelId = c.MCS_GLOBAL_CHANNEL_ID
      · cases hsc : (shareControlRead env m).ok with
        | false =>
          left
          rw [peer_recv_pdu_bad_share_control c env m ⟨hv, hok⟩ hch hsc]
          simp
        | true =>
          by_cases hd : (shareControlRead env m).pduType = c.PDU_TYPE_DATA
          · rw [peer_recv_pdu_eq_data_pdu c env m ⟨⟨hv, hok⟩, hch, hsc⟩ hd]
            have key := peer_recv_data_pdu_tie c env (dataPduInput env m) f hf
            simp only [dataPduInput_trace, postConnectRets_append, postConnectRets_cons,
              postConnectRets_nil, List.append_nil] at key
            exact key
          · left
            rw [peer_recv_pdu_other_pduType c env m ⟨⟨hv, hok⟩, hch, hsc⟩ hd]
            simp
      · left
        rw [peer_recv_pdu_other_channel c env m ⟨hv, hok⟩ hch]
        simp

/-- One delivery with `f` in the PostConnect slot logs no `PostConnect`, or
one, with the value `f` returned on the core the font-list acceptor left. -/
theorem deliver_tie (c : Consts) (env : Env σ S) (m : Mach σ S) (s : S) (f : Callback σ)
    (hf : m.client.PostConnect = some f) :
    postConnectRets (deliver c env m s).2.trace = postConnectRets m.trace ∨
    postConnectRets (deliver c env m s).2.trace =
      postConnectRets m.trace ++ [(f (fontListAccept env (m.setStream s)).2.1).1] := by
  unfold deliver peer_recv_callback
  dsimp only
  simp only [ret_eta]
  split_ifs
  any_goals (left; solve | simp)
  exact peer_recv_pdu_tie c env (m.setStream s) f hf

end tie

/-! ## The claims -/

/-- **C1.** In each of the eight states of the state table, one invocation of
the receive callback is one run of the handler that the table names for the
state read at entry: the result (return value, peer, stream, log) is that of
the handler, so the callback returns true exactly when the handler does.  In a
handshake state the only call made is the acceptor of that state, hence no
codec, data-PDU acceptor or callback runs; in ACTIVE the callback is
`peer_recv_pdu` and none of the calls it makes is a handshake acceptor. -/
theorem peer_recv_callback_runs_state_handler {σ S : Type} (c : Consts) (env : Env σ S)
    (m : Mach σ S) (ph : Phase) (hc : c.WellFormed) (hst : m.client.rdp.state = ph.code c) :
    peer_recv_callback c env m = tableHandler c env ph m ∧
    (ph ≠ Phase.ACTIVE → ∃ f e, ph.acceptor env = some (f, e) ∧
        e.isHandshakeAcceptor = true ∧
        (peer_recv_callback c env m).2.trace = m.trace ++ [e] ∧
        ((peer_recv_callback c env m).1 = true ↔ (f m.client.rdp m.s).1 = true)) ∧
    (ph = Phase.ACTIVE → peer_recv_callback c env m = peer_recv_pdu c env m ∧
        ∃ d, (peer_recv_callback c env m).2.trace = m.trace ++ d ∧
          ∀ e ∈ d, e.isHandshakeAcceptor = false) := by
  have key := peer_recv_callback_eq_tableHandler c env m ph hc hst
  refine ⟨key, ?_, ?_⟩
  · intro hph
    rw [key]
    cases ph <;> first
      | exact absurd rfl hph
      | exact ⟨_, _, rfl, rfl, rfl, Iff.rfl⟩
  · intro hph
    subst hph
    rw [key]
    refine ⟨rfl, ?_⟩
    obtain ⟨d, hd, hP⟩ := peer_recv_pdu_adds c env m
    refine ⟨d, hd, fun e he => ?_⟩
    have := hP e he
    simpa [Call.isActivePath] using this

/-- Witness of C1: the sample peer in state NEGO. -/
theorem peer_recv_callback_runs_state_handler_witness :
    sampleConsts.WellFormed ∧
    (sampleMach 1 none none [7]).client.rdp.state = Phase.NEGO.code sampleConsts ∧
    peer_recv_callback sampleConsts sampleEnv (sampleMach 1 none none [7]) =
      tableHandler sampleConsts sampleEnv Phase.NEGO (sampleMach 1 none none [7]) :=
  ⟨by decide, rfl,
    (peer_recv_callback_runs_state_handler sampleConsts sampleEnv (sampleMach 1 none none [7])
      Phase.NEGO (by decide) rfl).1⟩

/-- **C2.** When the connection state is none of the eight case labels, the
receive callback returns false and the machine is exactly as before: nothing
was called (the log is unchanged), and the state, the settings, the stream and
every slot of the handle keep their values. -/
theorem peer_recv_callback_unknown_state {σ S : Type} (c : Consts) (env : Env σ S)
    (m : Mach σ S) (h : m.client.rdp.state ∉ c.stateLabels) :
    peer_recv_callback c env m = (false, m) := by
  simp only [Consts.stateLabels, List.mem_cons, List.mem_singleton, List.not_mem_nil,
    or_false, not_or] at h
  unfold peer_recv_callback
  simp [h]

/-- Witness of C2: the sample peer with state code 42. -/
theorem peer_recv_callback_unknown_state_witness :
    (sampleMach 42 (some cbTrue) (some cbTrue) [3, 1003]).client.rdp.state ∉
      sampleConsts.stateLabels ∧
    peer_recv_callback sampleConsts sampleEnv (sampleMach 42 (some cbTrue) (some cbTrue) [3, 1003])
      = (false, sampleMach 42 (some cbTrue) (some cbTrue) [3, 1003]) :=
  ⟨by decide,
    peer_recv_callback_unknown_state sampleConsts sampleEnv
      (sampleMach 42 (some cbTrue) (some cbTrue) [3, 1003]) (by decide)⟩

/-- **C3.** Over every finite sequence of streams the transport delivers to a
peer, whatever the acceptors and the callbacks return, `PostConnect` is invoked
at most once: the log of the whole run holds at most one `PostConnect` entry
more than the log it started from, so at most one in the life of a peer.  Once
the PostConnect slot is null, after any part `ss1` of the sequence, it stays
null and `PostConnect` is not invoked in what follows.  An entry of the log is
an invocation of the callback in the slot: a delivery to a peer with `f`
installed adds no entry, or one, and its value is the one `f` returned on the
core the font-list acceptor left. -/
theorem postConnect_at_most_once {σ S : Type} (c : Consts) (env : Env σ S)
    (m : Mach σ S) (ss : List S) :
    (postConnectRets (deliverAll c env m ss).trace).length ≤
      (postConnectRets m.trace).length + 1 ∧
    (postConnectRets m.trace = [] →
      (postConnectRets (deliverAll c env m ss).trace).length ≤ 1) ∧
    (∀ ss1 ss2 : List S, ss = ss1 ++ ss2 →
      (deliverAll c env m ss1).client.PostConnect = none →
      (deliverAll c env m ss).client.PostConnect = none ∧
      postConnectRets (deliverAll c env m ss).trace =
        postConnectRets (deliverAll c env m ss1).trace) ∧
    (∀ (s : S) (f : Callback σ), m.client.PostConnect = some f →
      postConnectRets (deliver c env m s).2.trace = postConnectRets m.trace ∨
      postConnectRets (deliver c env m s).2.trace =
        postConnectRets m.trace ++ [(f (fontListAccept env (m.setStream s)).2.1).1]) := by
  refine ⟨deliverAll_postConnect_le_one c env m ss, ?_, ?_,
    fun s f hf => deliver_tie c env m s f hf⟩
  · intro h
    have := deliverAll_postConnect_le_one c env m ss
    rw [h] at this
    simpa using this
  · intro ss1 ss2 hss h
    subst hss
    exact deliverAll_append_PostConnect_none c env m ss1 ss2 h

/-- Witness of C3: the sample peer from state INITIAL through the handshake,
a first FONT_LIST PDU, a SYNCHRONIZE PDU and a second FONT_LIST PDU.
`PostConnect` is invoked by the first FONT_LIST delivery, which leaves the
slot null, and not again. -/
theorem postConnect_at_most_once_witness :
    postConnectRets (sampleMach 0 (some cbTrue) (some cbTrue) []).trace = [] ∧
    (deliverAll sampleConsts sampleEnv (sampleMach 0 (some cbTrue) (some cbTrue) [])
      [[1], [2], [3], [4], [5], [6], [7], dataStream 39]).client.PostConnect = none ∧
    postConnectRets (deliverAll sampleConsts sampleEnv
      (sampleMach 0 (some cbTrue) (some cbTrue) [])
      [[1], [2], [3], [4], [5], [6], [7], dataStream 39]).trace = [true] ∧
    postConnectRets (deliverAll sampleConsts sampleEnv
      (sampleMach 0 (some cbTrue) (some cbTrue) [])
      [[1], [2], [3], [4], [5], [6], [7], dataStream 39, dataStream 31, dataStream 39]).trace =
      postConnectRets (deliverAll sampleConsts sampleEnv
        (sampleMach 0 (some cbTrue) (some cbTrue) [])
        [[1], [2], [3], [4], [5], [6], [7], dataStream 39]).trace ∧
    (postConnectRets (deliverAll sampleConsts sampleEnv
      (sampleMach 0 (some cbTrue) (some cbTrue) [])
      [[1], [2], [3], [4], [5], [6], [7], dataStream 39, dataStream 31, dataStream 39]).trace).length
      ≤ 1 :=
  ⟨rfl, rfl, by decide,
    ((postConnect_at_most_once sampleConsts sampleEnv
      (sampleMach 0 (some cbTrue) (some cbTrue) [])
      [[1], [2], [3], [4], [5], [6], [7], dataStream 39, dataStream 31, dataStream 39]).2.2.1
      [[1], [2], [3], [4], [5], [6], [7], dataStream 39] [dataStream 31, dataStream 39] rfl
      rfl).2,
    (postConnect_at_most_once sampleConsts sampleEnv
      (sampleMach 0 (some cbTrue) (some cbTrue) [])
      [[1], [2], [3], [4], [5], [6], [7], dataStream 39, dataStream 31, dataStream 39]).2.1 rfl⟩

/-- **C6.** In state ACTIVE, for a TPKT global-channel DATA PDU of type
FONT_LIST whose font-list acceptor succeeds.  If the installed `PostConnect`
`f` returns false on the core the acceptor left, the receive callback returns
false and the delivery ends there: the machine afterwards is the one the
acceptor left with the `rest` that `f` returned and one `PostConnect false`
entry in the log, so `PostConnect` was invoked once, `Activate` was not
invoked and the PostConnect slot still holds `f`.  If `PostConnect` is absent
or returns true and the `Activate` `g` that peer.c:93 finds installed returns
false on the core it is given, the receive callback returns false as well,
after that one invocation of `g`.  So either callback returning false fails
the delivery. -/
theorem callback_rejection_fails_delivery {σ S : Type} (c : Consts) (env : Env σ S)
    (m : Mach σ S) (hc : c.WellFormed)
    (hst : m.client.rdp.state = c.CONNECTION_STATE_ACTIVE)
    (hp : IsDataPdu c env m c.DATA_PDU_TYPE_FONT_LIST)
    (hacc : (fontListAccept env m).1 = true) :
    (∀ f, m.client.PostConnect = some f → (f (fontListAccept env m).2.1).1 = false →
      peer_recv_callback c env m =
        (false, ((afterFontList env m).setRest (f (fontListAccept env m).2.1).2).log
          (Call.PostConnect false)) ∧
      (peer_recv_callback c env m).1 = false ∧
      (peer_recv_callback c env m).2.trace =
        m.trace ++ [Call.tpkt_verify_header, Call.rdp_read_header,
          Call.rdp_read_share_control_header, Call.rdp_read_share_data_header,
          Call.rdp_server_accept_client_font_list_pdu, Call.PostConnect false] ∧
      postConnectRets (peer_recv_callback c env m).2.trace =
        postConnectRets m.trace ++ [false] ∧
      activateRets (peer_recv_callback c env m).2.trace = activateRets m.trace ∧
      (peer_recv_callback c env m).2.client.PostConnect = some f ∧
      (peer_recv_callback c env m).2.client.rdp.rest = (f (fontListAccept env m).2.1).2) ∧
    (∀ g, (∀ f, m.client.PostConnect = some f → (f (fontListAccept env m).2.1).1 = true) →
      (afterPostConnect env m).client.Activate = some g →
      (g (afterPostConnect env m).client.rdp).1 = false →
      peer_recv_callback c env m =
        (false, ((afterPostConnect env m).setRest (g (afterPostConnect env m).client.rdp).2).log
          (Call.Activate false)) ∧
      (peer_recv_callback c env m).1 = false ∧
      activateRets (peer_recv_callback c env m).2.trace = activateRets m.trace ++ [false] ∧
      (peer_recv_callback c env m).2.client.rdp.rest =
        (g (afterPostConnect env m).client.rdp).2) := by
  constructor
  · intro f hf hv
    have key := font_list_delivery_postConnect_false c env m f hc hst hp hacc hf hv
    rw [key]
    refine ⟨rfl, rfl, ?_, ?_, ?_, hf, rfl⟩
    · simp
    · simp
    · simp
  · intro g hpc hA hv
    have key := font_list_delivery_callback c env m g hc hst hp hacc hpc hA
    rw [hv] at key
    rw [key]
    refine ⟨rfl, rfl, ?_, rfl⟩
    simp only [Mach.log_trace, Mach.setRest_trace, afterPostConnect_trace]
    cases m.client.PostConnect <;> simp

/-- Witness of C6: the sample peer with a rejecting `PostConnect`, and with an
accepting `PostConnect` and a rejecting `Activate`. -/
theorem callback_rejection_fails_delivery_witness :
    (sampleConsts.WellFormed ∧
      IsDataPdu sampleConsts sampleEnv (sampleMach 9 (some cbFalse) (some cbTrue) (dataStream 39))
        sampleConsts.DATA_PDU_TYPE_FONT_LIST ∧
      (peer_recv_callback sampleConsts sampleEnv
          (sampleMach 9 (some cbFalse) (some cbTrue) (dataStream 39))).1 = false ∧
      (peer_recv_callback sampleConsts sampleEnv
          (sampleMach 9 (some cbFalse) (some cbTrue) (dataStream 39))).2.trace =
        [Call.tpkt_verify_header, Call.rdp_read_header,
          Call.rdp_read_share_control_header, Call.rdp_read_share_data_header,
          Call.rdp_server_accept_client_font_list_pdu, Call.PostConnect false]) ∧
    (IsDataPdu sampleConsts sampleEnv (sampleMach 9 (some cbTrue) (some cbFalse) (dataStream 39))
        sampleConsts.DATA_PDU_TYPE_FONT_LIST ∧
      (peer_recv_callback sampleConsts sampleEnv
          (sampleMach 9 (some cbTrue) (some cbFalse) (dataStream 39))).1 = false ∧
      activateRets (peer_recv_callback sampleConsts sampleEnv
          (sampleMach 9 (some cbTrue) (some cbFalse) (dataStream 39))).2.trace = [false]) :=
  ⟨⟨by decide, by decide,
    ((callback_rejection_fails_delivery sampleConsts sampleEnv
      (sampleMach 9 (some cbFalse) (some cbTrue) (dataStream 39)) (by decide) rfl
      (by decide) rfl).1 cbFalse rfl rfl).2.1,
    ((callback_rejection_fails_delivery sampleConsts sampleEnv
      (sampleMach 9 (some cbFalse) (some cbTrue) (dataStream 39)) (by decide) rfl
      (by decide) rfl).1 cbFalse rfl rfl).2.2.1⟩,
   ⟨by decide,
    ((callback_rejection_fails_delivery sampleConsts sampleEnv
      (sampleMach 9 (some cbTrue) (some cbFalse) (dataStream 39)) (by decide) rfl
      (by decide) rfl).2 cbFalse (fun f hf => by injection hf with h; subst h; rfl)
      rfl rfl).2.1,
    ((callback_rejection_fails_delivery sampleConsts sampleEnv
      (sampleMach 9 (some cbTrue) (some cbFalse) (dataStream 39)) (by decide) rfl
      (by decide) rfl).2 cbFalse (fun f hf => by injection hf with h; subst h; rfl)
      rfl rfl).2.2.1⟩⟩

/-- **C7.** In state ACTIVE, a TPKT global-channel DATA PDU whose share-data
header reads successfully with type SHUTDOWN_REQUEST makes the receive
callback return false after calling, in this order and nothing else: the TPKT
check, the three header readers and `mcs_send_disconnect_provider_ultimatum`
(once).  So no data-PDU acceptor runs and neither callback is invoked.  The
MCS sender received the core as the header readers left it. -/
theorem shutdown_request_sends_ultimatum {σ S : Type} (c : Consts) (env : Env σ S)
    (m : Mach σ S) (hc : c.WellFormed)
    (hst : m.client.rdp.state = c.CONNECTION_STATE_ACTIVE)
    (hp : IsDataPdu c env m c.DATA_PDU_TYPE_SHUTDOWN_REQUEST) :
    (peer_recv_callback c env m).1 = false ∧
    (peer_recv_callback c env m).2.trace =
      m.trace ++ [Call.tpkt_verify_header, Call.rdp_read_header,
        Call.rdp_read_share_control_header, Call.rdp_read_share_data_header,
        Call.mcs_send_disconnect_provider_ultimatum] ∧
    (peer_recv_callback c env m).2.client.rdp.rest =
      env.mcs_send_disconnect_provider_ultimatum (rdpHeaderRead env m).rest := by
  obtain ⟨hg, hd, hok, hty⟩ := hp
  rw [peer_recv_callback_active c env m hc hst, peer_recv_pdu_eq_data_pdu c env m hg hd,
    peer_recv_data_pdu_shutdown c env (dataPduInput env m) hc hok hty]
  simp

/-- Witness of C7: the sample peer in ACTIVE receives a SHUTDOWN_REQUEST. -/
theorem shutdown_request_sends_ultimatum_witness :
    sampleConsts.WellFormed ∧
    IsDataPdu sampleConsts sampleEnv (sampleMach 9 (some cbTrue) (some cbTrue) (dataStream 36))
      sampleConsts.DATA_PDU_TYPE_SHUTDOWN_REQUEST ∧
    (peer_recv_callback sampleConsts sampleEnv
      (sampleMach 9 (some cbTrue) (some cbTrue) (dataStream 36))).1 = false :=
  ⟨by decide, ⟨⟨⟨rfl, rfl⟩, rfl, rfl⟩, rfl, rfl, rfl⟩,
    (shutdown_request_sends_ultimatum sampleConsts sampleEnv
      (sampleMach 9 (some cbTrue) (some cbTrue) (dataStream 36)) (by decide) rfl
      ⟨⟨⟨rfl, rfl⟩, rfl, rfl⟩, rfl, rfl, rfl⟩).1⟩

/-- **C8.** In state ACTIVE, a TPKT global-channel DATA PDU whose share-data
header reads successfully with a type that is none of the five case labels
(0xEE with the protocol's values), or with type BITMAP_CACHE_PERSISTENT_LIST,
makes the receive callback return true with the state still ACTIVE.  The calls
made are the TPKT check and the three header readers and nothing else: no
data-PDU acceptor, no disconnect ultimatum, no callback.  The handle is as
before but for what the header readers wrote into the core. -/
theorem unknown_data_pdu_is_ignored {σ S : Type} (c : Consts) (env : Env σ S)
    (m : Mach σ S) (type : Nat) (hc : c.WellFormed)
    (hst : m.client.rdp.state = c.CONNECTION_STATE_ACTIVE)
    (hp : IsDataPdu c env m type)
    (hty : type ∉ c.dataPduLabels ∨ type = c.DATA_PDU_TYPE_BITMAP_CACHE_PERSISTENT_LIST) :
    (peer_recv_callback c env m).1 = true ∧
    (peer_recv_callback c env m).2.client.rdp.state = c.CONNECTION_STATE_ACTIVE ∧
    (peer_recv_callback c env m).2.trace =
      m.trace ++ [Call.tpkt_verify_header, Call.rdp_read_header,
        Call.rdp_read_share_control_header, Call.rdp_read_share_data_header] ∧
    (peer_recv_callback c env m).2.client = { m.client with rdp := rdpAfterHeaders env m } := by
  obtain ⟨hg, hd, hok, hty2⟩ := hp
  subst hty2
  rw [peer_recv_callback_active c env m hc hst, peer_recv_pdu_eq_data_pdu c env m hg hd,
    peer_recv_data_pdu_ignored c env (dataPduInput env m) hc hok hty]
  simp [hst]
  rfl

/-- Witness of C8: share-data types 0xEE and BITMAP_CACHE_PERSISTENT_LIST on
the sample peer. -/
theorem unknown_data_pdu_is_ignored_witness :
    (sampleConsts.WellFormed ∧
      IsDataPdu sampleConsts sampleEnv (sampleMach 9 (some cbTrue) (some cbTrue)
        (dataStream 0xEE)) 0xEE ∧
      0xEE ∉ sampleConsts.dataPduLabels ∧
      (peer_recv_callback sampleConsts sampleEnv
        (sampleMach 9 (some cbTrue) (some cbTrue) (dataStream 0xEE))).1 = true) ∧
    (peer_recv_callback sampleConsts sampleEnv
        (sampleMach 9 (some cbTrue) (some cbTrue) (dataStream 43))).1 = true :=
  ⟨⟨by decide, ⟨⟨⟨rfl, rfl⟩, rfl, rfl⟩, rfl, rfl, rfl⟩, by decide,
    (unknown_data_pdu_is_ignored sampleConsts sampleEnv
      (sampleMach 9 (some cbTrue) (some cbTrue) (dataStream 0xEE)) 0xEE (by decide) rfl
      ⟨⟨⟨rfl, rfl⟩, rfl, rfl⟩, rfl, rfl, rfl⟩ (Or.inl (by decide))).1⟩,
    (unknown_data_pdu_is_ignored sampleConsts sampleEnv
      (sampleMach 9 (some cbTrue) (some cbTrue) (dataStream 43)) 43 (by decide) rfl
      ⟨⟨⟨rfl, rfl⟩, rfl, rfl⟩, rfl, rfl, rfl⟩ (Or.inr rfl)).1⟩

/-- **C9.** In state ACTIVE, a stream that passes the TPKT header check and
whose RDP header reads successfully with a channel other than the global one
makes the receive callback return true with the state still ACTIVE.  The only
calls are `tpkt_verify_header` and `rdp_read_header`: the share-control and
share-data headers are not read and no callback is invoked.  The settings,
`pdu_source` included, are unchanged. -/
theorem non_global_channel_is_ignored {σ S : Type} (c : Consts) (env : Env σ S)
    (m : Mach σ S) (hc : c.WellFormed)
    (hst : m.client.rdp.state = c.CONNECTION_STATE_ACTIVE)
    (ht : IsTpktPdu env m)
    (hch : (rdpHeaderRead env m).channelId ≠ c.MCS_GLOBAL_CHANNEL_ID) :
    (peer_recv_callback c env m).1 = true ∧
    (peer_recv_callback c env m).2.client.rdp.state = c.CONNECTION_STATE_ACTIVE ∧
    (peer_recv_callback c env m).2.trace =
      m.trace ++ [Call.tpkt_verify_header, Call.rdp_read_header] ∧
    (peer_recv_callback c env m).2.client.rdp.settings = m.client.rdp.settings := by
  rw [peer_recv_callback_active c env m hc hst, peer_recv_pdu_other_channel c env m ht hch]
  simp [hst]

/-- Witness of C9: channel 1004 on the sample peer. -/
theorem non_global_channel_is_ignored_witness :
    sampleConsts.WellFormed ∧
    IsTpktPdu sampleEnv (sampleMach 9 (some cbTrue) (some cbTrue) [3, 1004, 7, 1002, 39]) ∧
    (rdpHeaderRead sampleEnv
      (sampleMach 9 (some cbTrue) (some cbTrue) [3, 1004, 7, 1002, 39])).channelId ≠
        sampleConsts.MCS_GLOBAL_CHANNEL_ID ∧
    (peer_recv_callback sampleConsts sampleEnv
      (sampleMach 9 (some cbTrue) (some cbTrue) [3, 1004, 7, 1002, 39])).2.trace =
      [Call.tpkt_verify_header, Call.rdp_read_header] :=
  ⟨by decide, ⟨rfl, rfl⟩, by decide,
    (non_global_channel_is_ignored sampleConsts sampleEnv
      (sampleMach 9 (some cbTrue) (some cbTrue) [3, 1004, 7, 1002, 39]) (by decide) rfl
      ⟨rfl, rfl⟩ (by decide)).2.2.1⟩

/-- **C10.** `freerdp_peer_initialize` returns true and leaves the peer as it
was except that `settings.server_mode` is true and the state is INITIAL,
whatever they were before: every other field of the core and every slot of
the handle keeps its value.  Running it a second time changes nothing more. -/
theorem freerdp_peer_initialize_spec {σ : Type} (c : Consts) (client : freerdp_peer σ) :
    ( freerdp_peer_initialize c client).1 = true ∧
    ( freerdp_peer_initialize c client).2.rdp.settings.server_mode = true ∧
    ( freerdp_peer_initialize c client).2.rdp.state = c.CONNECTION_STATE_INITIAL ∧
    ( freerdp_peer_initialize c client).2 =
      { client with rdp :=
          { state := c.CONNECTION_STATE_INITIAL
            settings := { server_mode := true
                          pdu_source := client.rdp.settings.pdu_source }
            rest := client.rdp.rest } } ∧
    freerdp_peer_initialize c ( freerdp_peer_initialize c client).2 =
      freerdp_peer_initialize c client :=
  ⟨rfl, rfl, rfl, rfl, rfl⟩

/-- Counterexample to C11 as stated: the sample peer after `Initialize` has
`server_mode` true; one delivery with the negotiation acceptor of
`sampleEnvClearing`, which succeeds, advances the state and clears the flag in
the core it is handed, returns true and leaves `server_mode` false. -/
theorem server_mode_cleared_by_acceptor :
    sampleReady.client.rdp.settings.server_mode = true ∧
    Step sampleConsts sampleEnvClearing sampleRuntime sampleReady
      (deliver sampleConsts sampleEnvClearing sampleReady [1]).2 ∧
    (deliver sampleConsts sampleEnvClearing sampleReady [1]).1 = true ∧
    (deliver sampleConsts sampleEnvClearing sampleReady [1]).2.client.rdp.state =
      sampleConsts.CONNECTION_STATE_NEGO ∧
    (deliver sampleConsts sampleEnvClearing sampleReady [1]).2.client.rdp.settings.server_mode =
      false :=
  ⟨by decide, Step.receive _ _, by decide, by decide, by decide⟩

/-- **C11, amended.** `Initialize` sets `settings.server_mode` to true, and as
long as no external acceptor clears it in the core it is handed, it stays true
through any number of later operations on the peer, in any order: `Initialize`
again, `GetFileDescriptor`, `CheckFileDescriptor` (with the receive-callback
invocations that `rdp_check_fds` makes), `Disconnect`, a receive-callback
invocation in any state and on any path, and `freerdp_peer_context_free`.  The
engine's own code writes `server_mode` in `Initialize` only. -/
theorem server_mode_stays_true {σ S : Type} (c : Consts) (env : Env σ S) (rt : Runtime σ S)
    (hk : env.Preserves (fun r => r.settings.server_mode = true)) (m p : Mach σ S)
    (hsteps : Steps c env rt
      { m with client := ( freerdp_peer_initialize c m.client).2 } p) :
    ( freerdp_peer_initialize c m.client).2.rdp.settings.server_mode = true ∧
    p.client.rdp.settings.server_mode = true :=
  ⟨rfl, Steps_preserves c env rt (fun r => r.settings.server_mode = true)
    (fun _ _ h => h) (fun _ _ h => h) hk (fun _ => rfl) _ p hsteps rfl⟩

/-- Witness of C11 amended: the sample peer, whose fresh core has
`server_mode` off, after `Initialize` and four later operations. -/
theorem server_mode_stays_true_witness :
    sampleEnv.Preserves (fun r => r.settings.server_mode = true) ∧
    sampleObj.client.rdp.settings.server_mode = false ∧
    Steps sampleConsts sampleEnv sampleRuntime sampleReady sampleLife ∧
    sampleLife.client.rdp.settings.server_mode = true :=
  ⟨sampleEnv_keeps_server_mode, by decide, sampleLife_steps,
    (server_mode_stays_true sampleConsts sampleEnv sampleRuntime sampleEnv_keeps_server_mode
      sampleObj sampleLife sampleLife_steps).2⟩

/-- Counterexample to C12 as stated: with an array of 2^31 entries and
`*rcount = 2^31 - 1`, a valid index, the increment of the `int` gives
`-2^31`, not `2^31`. -/
theorem get_fds_count_overflows :
    (0 : Int) ≤ 2 ^ 31 - 1 ∧
    (2 ^ 31 - 1 : Int) < ((List.replicate (2 ^ 31) (0 : Int)).length : Int) ∧
    ( freerdp_peer_get_fds sampleRuntime (samplePeer 9 none none) (List.replicate (2 ^ 31) 0)
      (2 ^ 31 - 1)).map (fun out => out.2.2.2) = some (-(2 ^ 31)) := by
  have hlen : (2 ^ 31 - 1 : Int) < ((List.replicate (2 ^ 31) (0 : Int)).length : Int) := by
    rw [List.length_replicate]
    norm_num
  refine ⟨by norm_num, hlen, ?_⟩
  unfold freerdp_peer_get_fds
  rw [if_pos ⟨by norm_num, hlen⟩]
  simp only [Option.map_some', wrapInt]
  norm_num

/-- **C12, amended.** For every peer, every array `rfds` and every count
`n = *rcount` that is a valid index of `rfds` and smaller than `INT_MAX`:
`freerdp_peer_get_fds` returns true, leaves the peer as it was, stores the
transport's socket descriptor in `rfds[n]`, leaves every other entry and the
length of the array, and sets `*rcount` to `n + 1`. -/
theorem get_fds_appends_sockfd {σ S : Type} (rt : Runtime σ S) (client : freerdp_peer σ)
    (rfds : List Int) (n : Nat) (hn : n < rfds.length) (hmax : (n : Int) + 1 < 2 ^ 31) :
    freerdp_peer_get_fds rt client rfds n =
      some (true, client, rfds.set n (rt.tcp_sockfd client.rdp.rest), (n : Int) + 1) ∧
    (rfds.set n (rt.tcp_sockfd client.rdp.rest))[n]? = some (rt.tcp_sockfd client.rdp.rest) ∧
    (∀ i, i ≠ n → (rfds.set n (rt.tcp_sockfd client.rdp.rest))[i]? = rfds[i]?) ∧
    (rfds.set n (rt.tcp_sockfd client.rdp.rest)).length = rfds.length := by
  refine ⟨?_, ?_, ?_, ?_⟩
  · unfold freerdp_peer_get_fds
    have h1 : (0 : Int) ≤ (n : Int) ∧ (n : Int) < (rfds.length : Int) :=
      ⟨Int.ofNat_nonneg n, by exact_mod_cast hn⟩
    rw [if_pos h1]
    have h2 : wrapInt ((n : Int) + 1) = (n : Int) + 1 := by
      unfold wrapInt
      have h0 : (0 : Int) ≤ (n : Int) := Int.ofNat_nonneg n
      omega
    rw [h2, Int.toNat_ofNat]
  · simp [List.getElem?_set, hn]
  · intro i hi
    simp [List.getElem?_set, Ne.symm hi]
  · simp

/-- Witness of C12 amended: the sample peer, an array of three entries,
`*rcount = 1`. -/
theorem get_fds_appends_sockfd_witness :
    1 < [(0 : Int), 0, 0].length ∧ ((1 : Nat) : Int) + 1 < 2 ^ 31 ∧
    freerdp_peer_get_fds sampleRuntime (samplePeer 9 none none) [0, 0, 0] (1 : Nat) =
      some (true, samplePeer 9 none none,
        [(0 : Int), 0, 0].set 1 (sampleRuntime.tcp_sockfd (samplePeer 9 none none).rdp.rest),
        ((1 : Nat) : Int) + 1) :=
  ⟨by decide, by decide,
    (get_fds_appends_sockfd sampleRuntime (samplePeer 9 none none) [0, 0, 0] 1 (by decide)
      (by decide)).1⟩

/-- **C13.** `freerdp_peer_check_fds` returns false exactly when the status
that `rdp_check_fds` returned is negative, and true exactly when it is zero or
positive.  It calls `rdp_check_fds` once: the machine afterwards is the one
that this call left, and the log is the log at entry, one entry for the call,
and whatever `rdp_check_fds` itself appended. -/
theorem check_fds_follows_status {σ S : Type} (check : Mach σ S → Int × Mach σ S)
    (m : Mach σ S) :
    (( freerdp_peer_check_fds check m).1 = false ↔
      (check (m.log Call.rdp_check_fds)).1 < 0) ∧
    (( freerdp_peer_check_fds check m).1 = true ↔
      0 ≤ (check (m.log Call.rdp_check_fds)).1) ∧
    ( freerdp_peer_check_fds check m).2 = (check (m.log Call.rdp_check_fds)).2 ∧
    (∀ d, (check (m.log Call.rdp_check_fds)).2.trace = (m.log Call.rdp_check_fds).trace ++ d →
      ( freerdp_peer_check_fds check m).2.trace = m.trace ++ [Call.rdp_check_fds] ++ d) := by
  refine ⟨?_, ?_, freerdp_peer_check_fds_snd check m, ?_⟩
  · unfold freerdp_peer_check_fds
    dsimp only
    split <;> simp [*]
  · unfold freerdp_peer_check_fds
    dsimp only
    split <;> simp <;> omega
  · intro d hd
    rw [freerdp_peer_check_fds_snd, hd]
    simp

/-- Witness of C13: one round on the sample peer in state ACTIVE, in which the
transport delivers one SYNCHRONIZE PDU and reports status 1. -/
theorem check_fds_follows_status_witness :
    (rdp_check_fds sampleConsts sampleEnv sampleRuntime
        ((sampleMach 9 none none []).log Call.rdp_check_fds)).2.trace =
      ((sampleMach 9 none none []).log Call.rdp_check_fds).trace ++
        [Call.tpkt_verify_header, Call.rdp_read_header, Call.rdp_read_share_control_header,
          Call.rdp_read_share_data_header, Call.rdp_recv_client_synchronize_pdu] ∧
    ( freerdp_peer_check_fds (rdp_check_fds sampleConsts sampleEnv sampleRuntime)
        (sampleMach 9 none none [])).2.trace =
      (sampleMach 9 none none []).trace ++ [Call.rdp_check_fds] ++
        [Call.tpkt_verify_header, Call.rdp_read_header, Call.rdp_read_share_control_header,
          Call.rdp_read_share_data_header, Call.rdp_recv_client_synchronize_pdu] :=
  ⟨rfl, (check_fds_follows_status (rdp_check_fds sampleConsts sampleEnv sampleRuntime)
    (sampleMach 9 none none [])).2.2.2 _ rfl⟩

/-- **C14.** For the handle at address `self`, whatever its content,
`freerdp_peer_context_new` leaves `context->peer` equal to `self`,
`context->rdp` equal to the address of the core that `rdp_new` returned (a
core with the state and the settings of that fresh core), `update->context`
and `input->context` equal to `client->context`, the block `xzalloc`
returned, and the transport's `recv_extra` equal to `self` with
`peer_recv_callback` as its callback.  After any number of later operations
(`Initialize`, `GetFileDescriptor`, `CheckFileDescriptor`, `Disconnect`,
receive-callback invocations, `freerdp_peer_context_free`), `context->peer` is
still the address of the handle: none of them writes it. -/
theorem context_peer_is_handle {σ S : Type} (c : Consts) (env : Env σ S) (rt : Runtime σ S)
    (self : Ptr) (m p : Mach σ S)
    (hsteps : Steps c env rt ( freerdp_peer_context_new rt self m) p) :
    ( freerdp_peer_context_new rt self m).client.context_peer = self ∧
    ( freerdp_peer_context_new rt self m).client.context = rt.xzalloc m.client.context_size ∧
    ( freerdp_peer_context_new rt self m).client.context_rdp = rt.rdp_new.1 ∧
    ( freerdp_peer_context_new rt self m).client.rdp.state = rt.rdp_new.2.state ∧
    ( freerdp_peer_context_new rt self m).client.rdp.settings = rt.rdp_new.2.settings ∧
    ( freerdp_peer_context_new rt self m).client.update_context =
      ( freerdp_peer_context_new rt self m).client.context ∧
    ( freerdp_peer_context_new rt self m).client.input_context =
      ( freerdp_peer_context_new rt self m).client.context ∧
    ( freerdp_peer_context_new rt self m).client.recv_extra = self ∧
    ( freerdp_peer_context_new rt self m).client.recv_callback =
      some RecvCallback.peer_recv_callback ∧
    p.client.context_peer = self := by
  obtain ⟨a1, a2, a3, a4, a5, a6, a7, a8, a9⟩ := freerdp_peer_context_new_links rt self m
  refine ⟨a3, a1, a2, a8, a9, a4.trans a1.symm, a5.trans a1.symm, a7, a6, ?_⟩
  exact Steps_handle c env rt (fun cl => cl.context_peer = self) ⟨fun _ _ h => h, fun _ h => h⟩
    _ p hsteps a3

/-- Witness of C14: the sample peer at address 3000 and its later life. -/
theorem context_peer_is_handle_witness :
    Steps sampleConsts sampleEnv sampleRuntime
      ( freerdp_peer_context_new sampleRuntime 3000 (sampleMach 7 (some cbTrue) (some cbTrue) []))
      sampleLife ∧
    (sampleMach 7 (some cbTrue) (some cbTrue) []).client.context_peer = 0 ∧
    sampleLife.client.context_peer = 3000 :=
  ⟨sampleLife_steps_from_new, rfl,
    (context_peer_is_handle sampleConsts sampleEnv sampleRuntime 3000
      (sampleMach 7 (some cbTrue) (some cbTrue) []) sampleLife
      sampleLife_steps_from_new).2.2.2.2.2.2.2.2.2⟩

/-- **C15.** In state ACTIVE a stream that fails the TPKT header check is
handled by `peer_recv_fastpath_pdu`: after the TPKT check the next call is the
fast-path header reader, and whatever follows is `rdp_decrypt` or
`fastpath_recv_inputs`, never a function of the TPKT path.  If the length the
header reader returned is 0 or greater than `stream_get_left`, the receive
callback returns false and these two calls are the only ones: neither
`rdp_decrypt` nor `fastpath_recv_inputs` is invoked. -/
theorem bad_fastpath_length_fails {σ S : Type} (c : Consts) (env : Env σ S) (m : Mach σ S)
    (hc : c.WellFormed) (hst : m.client.rdp.state = c.CONNECTION_STATE_ACTIVE)
    (hv : (env.tpkt_verify_header m.s).1 = false) :
    peer_recv_callback c env m = peer_recv_fastpath_pdu c env (fastpathInput env m) ∧
    (∃ d, (peer_recv_callback c env m).2.trace =
        m.trace ++ [Call.tpkt_verify_header, Call.fastpath_read_header_rdp] ++ d ∧
      ∀ e ∈ d, e = Call.rdp_decrypt (fastpathHeaderRead env m).1 ∨
        e = Call.fastpath_recv_inputs) ∧
    (((fastpathHeaderRead env m).1 = 0 ∨
        ((fastpathHeaderRead env m).1 : Int) > fastpathLeft env m) →
      (peer_recv_callback c env m).1 = false ∧
      (peer_recv_callback c env m).2.trace =
        m.trace ++ [Call.tpkt_verify_header, Call.fastpath_read_header_rdp]) := by
  have key : peer_recv_callback c env m = peer_recv_fastpath_pdu c env (fastpathInput env m) := by
    rw [peer_recv_callback_active c env m hc hst, peer_recv_pdu_eq_fastpath c env m hv]
  refine ⟨key, ?_, ?_⟩
  · rw [key]
    by_cases hl : (fastpathHeaderRead env m).1 = 0 ∨
        ((fastpathHeaderRead env m).1 : Int) > fastpathLeft env m
    · rw [peer_recv_fastpath_pdu_bad_length c env m hl]
      exact ⟨[], by simp, by simp⟩
    · have h1 : 1 ≤ (fastpathHeaderRead env m).1 := by omega
      have h2 : ((fastpathHeaderRead env m).1 : Int) ≤ fastpathLeft env m := by omega
      rw [peer_recv_fastpath_pdu_good_length c env m h1 h2]
      refine ⟨(if fastpathEncrypted c env m then
          [Call.rdp_decrypt (fastpathHeaderRead env m).1] else []) ++
          [Call.fastpath_recv_inputs], ?_, ?_⟩
      · simp [fastpathPayload_trace]
      · intro e he
        split at he <;> simp at he <;> tauto
  · intro hl
    rw [key, peer_recv_fastpath_pdu_bad_length c env m hl]
    simp

/-- Witness of C15: a fast-path stream of the sample peer whose header
announces five bytes while two are left. -/
theorem bad_fastpath_length_fails_witness :
    sampleConsts.WellFormed ∧
    (sampleEnv.tpkt_verify_header (sampleMach 9 none none [0, 5, 1, 2]).s).1 = false ∧
    ((fastpathHeaderRead sampleEnv (sampleMach 9 none none [0, 5, 1, 2])).1 : Int) >
      fastpathLeft sampleEnv (sampleMach 9 none none [0, 5, 1, 2]) ∧
    (peer_recv_callback sampleConsts sampleEnv (sampleMach 9 none none [0, 5, 1, 2])).1 = false ∧
    (peer_recv_callback sampleConsts sampleEnv (sampleMach 9 none none [0, 5, 1, 2])).2.trace =
      (sampleMach 9 none none [0, 5, 1, 2]).trace ++
        [Call.tpkt_verify_header, Call.fastpath_read_header_rdp] :=
  ⟨by decide, rfl, by decide,
    (bad_fastpath_length_fails sampleConsts sampleEnv (sampleMach 9 none none [0, 5, 1, 2])
      (by decide) rfl rfl).2.2 (Or.inr (by decide))⟩

/-- **C16.** In state ACTIVE, for a stream that fails the TPKT header check and
whose fast-path header gives a length with 1 ≤ length ≤ `stream_get_left`
(equality included): the calls are the TPKT check, the header reader,
`rdp_decrypt` with exactly that length if and only if
`encryptionFlags & FASTPATH_OUTPUT_ENCRYPTED` is not zero (and then once), and
`fastpath_recv_inputs` once; the receive callback returns what
`fastpath_recv_inputs` returned. -/
theorem fastpath_decrypts_and_delivers {σ S : Type} (c : Consts) (env : Env σ S)
    (m : Mach σ S) (hc : c.WellFormed)
    (hst : m.client.rdp.state = c.CONNECTION_STATE_ACTIVE)
    (hv : (env.tpkt_verify_header m.s).1 = false)
    (h1 : 1 ≤ (fastpathHeaderRead env m).1)
    (h2 : ((fastpathHeaderRead env m).1 : Int) ≤ fastpathLeft env m) :
    (peer_recv_callback c env m).2.trace =
      m.trace ++ [Call.tpkt_verify_header, Call.fastpath_read_header_rdp] ++
        (if Nat.land (env.fastpath_encryptionFlags (fastpathHeaderRead env m).2.1)
            c.FASTPATH_OUTPUT_ENCRYPTED ≠ 0
          then [Call.rdp_decrypt (fastpathHeaderRead env m).1] else []) ++
        [Call.fastpath_recv_inputs] ∧
    (peer_recv_callback c env m).1 =
      (env.fastpath_recv_inputs (fastpathPayload c env m).client.rdp.rest
        (fastpathPayload c env m).s).1 := by
  rw [peer_recv_callback_active c env m hc hst, peer_recv_pdu_eq_fastpath c env m hv,
    peer_recv_fastpath_pdu_good_length c env m h1 h2]
  refine ⟨?_, rfl⟩
  simp only [Mach.log_trace, Mach.setStream_trace, Mach.setRest_trace, fastpathPayload_trace,
    fastpathEncrypted]
  by_cases he : Nat.land (env.fastpath_encryptionFlags (fastpathHeaderRead env m).2.1)
      c.FASTPATH_OUTPUT_ENCRYPTED ≠ 0 <;> simp [he]

/-- Witness of C16: a fast-path stream of the sample peer whose header
announces exactly the two bytes that are left, first with the encryption flag
clear, then with the flag set. -/
theorem fastpath_decrypts_and_delivers_witness :
    (sampleConsts.WellFormed ∧
      (sampleEnv.tpkt_verify_header (sampleMach 9 none none [0, 2, 7, 7]).s).1 = false ∧
      1 ≤ (fastpathHeaderRead sampleEnv (sampleMach 9 none none [0, 2, 7, 7])).1 ∧
      ((fastpathHeaderRead sampleEnv (sampleMach 9 none none [0, 2, 7, 7])).1 : Int) ≤
        fastpathLeft sampleEnv (sampleMach 9 none none [0, 2, 7, 7]) ∧
      (peer_recv_callback sampleConsts sampleEnv (sampleMach 9 none none [0, 2, 7, 7])).2.trace =
        [Call.tpkt_verify_header, Call.fastpath_read_header_rdp, Call.fastpath_recv_inputs]) ∧
    ((sampleEnvEncrypted.tpkt_verify_header (sampleMach 9 none none [0, 2, 7, 7]).s).1 = false ∧
      1 ≤ (fastpathHeaderRead sampleEnvEncrypted (sampleMach 9 none none [0, 2, 7, 7])).1 ∧
      ((fastpathHeaderRead sampleEnvEncrypted (sampleMach 9 none none [0, 2, 7, 7])).1 : Int) ≤
        fastpathLeft sampleEnvEncrypted (sampleMach 9 none none [0, 2, 7, 7]) ∧
      (peer_recv_callback sampleConsts sampleEnvEncrypted
          (sampleMach 9 none none [0, 2, 7, 7])).2.trace =
        [Call.tpkt_verify_header, Call.fastpath_read_header_rdp, Call.rdp_decrypt 2,
          Call.fastpath_recv_inputs] ∧
      (peer_recv_callback sampleConsts sampleEnvEncrypted
          (sampleMach 9 none none [0, 2, 7, 7])).1 = true) :=
  ⟨⟨by decide, rfl, by decide, by decide,
    (fastpath_decrypts_and_delivers sampleConsts sampleEnv (sampleMach 9 none none [0, 2, 7, 7])
      (by decide) rfl rfl (by decide) (by decide)).1⟩,
   ⟨rfl, by decide, by decide,
    (fastpath_decrypts_and_delivers sampleConsts sampleEnvEncrypted
      (sampleMach 9 none none [0, 2, 7, 7]) (by decide) rfl rfl (by decide) (by decide)).1,
    (fastpath_decrypts_and_delivers sampleConsts sampleEnvEncrypted
      (sampleMach 9 none none [0, 2, 7, 7]) (by decide) rfl rfl (by decide) (by decide)).2⟩⟩

/-- **C17.** In state ACTIVE, for a TPKT stream on the global channel whose
share-control header reads successfully: if the pduType is not DATA the
receive callback returns false and the only calls are the TPKT check,
`rdp_read_header` and the share-control header reader, so the share-data
header is not read, no data-PDU acceptor runs and no callback is invoked; if
the pduType is DATA the result is the result of `peer_recv_data_pdu`. -/
theorem other_pdu_type_is_refused {σ S : Type} (c : Consts) (env : Env σ S) (m : Mach σ S)
    (hc : c.WellFormed) (hst : m.client.rdp.state = c.CONNECTION_STATE_ACTIVE)
    (hg : IsGlobalPdu c env m) :
    ((shareControlRead env m).pduType ≠ c.PDU_TYPE_DATA →
      (peer_recv_callback c env m).1 = false ∧
      (peer_recv_callback c env m).2.trace =
        m.trace ++ [Call.tpkt_verify_header, Call.rdp_read_header,
          Call.rdp_read_share_control_header]) ∧
    ((shareControlRead env m).pduType = c.PDU_TYPE_DATA →
      peer_recv_callback c env m = peer_recv_data_pdu c env (dataPduInput env m)) := by
  constructor
  · intro hd
    rw [peer_recv_callback_active c env m hc hst, peer_recv_pdu_other_pduType c env m hg hd]
    simp
  · intro hd
    rw [peer_recv_callback_active c env m hc hst, peer_recv_pdu_eq_data_pdu c env m hg hd]

/-- Witness of C17: share-control type 1 (not DATA) and type 7 (DATA) on the
sample peer. -/
theorem other_pdu_type_is_refused_witness :
    (sampleConsts.WellFormed ∧
      IsGlobalPdu sampleConsts sampleEnv (sampleMach 9 (some cbTrue) (some cbTrue)
        [3, 1003, 1, 1002, 39]) ∧
      (shareControlRead sampleEnv (sampleMach 9 (some cbTrue) (some cbTrue)
        [3, 1003, 1, 1002, 39])).pduType ≠ sampleConsts.PDU_TYPE_DATA ∧
      (peer_recv_callback sampleConsts sampleEnv
        (sampleMach 9 (some cbTrue) (some cbTrue) [3, 1003, 1, 1002, 39])).1 = false) ∧
    (IsGlobalPdu sampleConsts sampleEnv (sampleMach 9 (some cbTrue) (some cbTrue)
        (dataStream 39)) ∧
      peer_recv_callback sampleConsts sampleEnv
          (sampleMach 9 (some cbTrue) (some cbTrue) (dataStream 39)) =
        peer_recv_data_pdu sampleConsts sampleEnv
          (dataPduInput sampleEnv (sampleMach 9 (some cbTrue) (some cbTrue) (dataStream 39)))) :=
  ⟨⟨by decide, by decide, by decide,
    ((other_pdu_type_is_refused sampleConsts sampleEnv
      (sampleMach 9 (some cbTrue) (some cbTrue) [3, 1003, 1, 1002, 39]) (by decide) rfl
      (by decide)).1 (by decide)).1⟩,
   ⟨by decide,
    (other_pdu_type_is_refused sampleConsts sampleEnv
      (sampleMach 9 (some cbTrue) (some cbTrue) (dataStream 39)) (by decide) rfl
      (by decide)).2 rfl⟩⟩

/-- **C18.** The connection state is assigned by the engine only in
`Initialize`, which sets it to INITIAL.  After a receive callback the state is
exactly the one the external handlers left.  In a handshake state the core
afterwards is the core the acceptor of that state returned.  In state ACTIVE:
for a CONTROL data PDU the core is the one the control acceptor returned; for a
FONT_LIST data PDU the state is the one the font-list acceptor returned; on
every other path (fast-path, another channel, a header that does not read,
another pduType, any other data PDU) no function that can write the state is
called and the state is as before.  With a state that is none of the case
labels nothing is called.  In general every property of the state
that no acceptor destroys survives the callback, so when the acceptors leave
the state as it was the callback does too.  `GetFileDescriptor` returns the
handle as it was, `CheckFileDescriptor` returns the machine exactly as
`rdp_check_fds` left it, and `Disconnect` leaves the state as it was. -/
theorem state_written_by_handlers_only {σ S : Type} (c : Consts) (env : Env σ S)
    (rt : Runtime σ S) (m : Mach σ S) :
    (( freerdp_peer_initialize c m.client).2.rdp.state = c.CONNECTION_STATE_INITIAL) ∧
    (c.WellFormed → ∀ (ph : Phase) (fn : rdpRdp σ → S → Bool × rdpRdp σ × S) (e : Call),
      m.client.rdp.state = ph.code c → ph.acceptor env = some (fn, e) →
      (peer_recv_callback c env m).2.client.rdp = (fn m.client.rdp m.s).2.1 ∧
      (peer_recv_callback c env m).2.client.rdp.state = (fn m.client.rdp m.s).2.1.state) ∧
    (c.WellFormed → m.client.rdp.state = c.CONNECTION_STATE_ACTIVE →
      (IsDataPdu c env m c.DATA_PDU_TYPE_CONTROL →
        (peer_recv_callback c env m).2.client.rdp = (controlAccept env m).2.1 ∧
        (peer_recv_callback c env m).2.client.rdp.state = (controlAccept env m).2.1.state) ∧
      (IsDataPdu c env m c.DATA_PDU_TYPE_FONT_LIST →
        (peer_recv_callback c env m).2.client.rdp.state = (fontListAccept env m).2.1.state) ∧
      (¬ IsDataPdu c env m c.DATA_PDU_TYPE_CONTROL →
        ¬ IsDataPdu c env m c.DATA_PDU_TYPE_FONT_LIST →
        (peer_recv_callback c env m).2.client.rdp.state = m.client.rdp.state)) ∧
    (m.client.rdp.state ∉ c.stateLabels →
      (peer_recv_callback c env m).2.client.rdp.state = m.client.rdp.state) ∧
    (∀ Q : Int → Prop,
      (∀ f ∈ env.acceptors, ∀ (r : rdpRdp σ) (s : S), Q r.state → Q (f r s).2.1.state) →
      Q m.client.rdp.state → Q (peer_recv_callback c env m).2.client.rdp.state) ∧
    ((∀ f ∈ env.acceptors, ∀ (r : rdpRdp σ) (s : S), (f r s).2.1.state = r.state) →
      (peer_recv_callback c env m).2.client.rdp.state = m.client.rdp.state) ∧
    (∀ (rfds : List Int) (rcount : Int) (out : Bool × freerdp_peer σ × List Int × Int),
      freerdp_peer_get_fds rt m.client rfds rcount = some out → out.2.1 = m.client) ∧
    (∀ check : Mach σ S → Int × Mach σ S,
      ( freerdp_peer_check_fds check m).2 = (check (m.log Call.rdp_check_fds)).2) ∧
    (( freerdp_peer_disconnect rt m).client.rdp.state = m.client.rdp.state) := by
  have general : ∀ Q : Int → Prop,
      (∀ f ∈ env.acceptors, ∀ (r : rdpRdp σ) (s : S), Q r.state → Q (f r s).2.1.state) →
      Q m.client.rdp.state → Q (peer_recv_callback c env m).2.client.rdp.state :=
    fun Q hk h =>
      peer_recv_callback_preserves c env (fun r => Q r.state) (fun _ _ h => h)
        (fun _ _ h => h) hk m h
  refine ⟨rfl, ?_, ?_, ?_, general, ?_, ?_, fun check => freerdp_peer_check_fds_snd check m,
    rfl⟩
  · intro hc ph fn e hst hacc
    rw [peer_recv_callback_eq_tableHandler c env m ph hc hst]
    unfold tableHandler
    rw [hacc]
    exact ⟨rfl, rfl⟩
  · intro hc hst
    refine ⟨fun hp => ?_, fun hp => (font_list_delivery_state c env m hc hst hp).1,
      fun h1 h2 => other_delivery_state c env m hc hst h1 h2⟩
    have h := (control_delivery c env m hc hst hp).2
    exact ⟨h, congrArg (fun r => r.state) h⟩
  · intro h
    simp only [Consts.stateLabels, List.mem_cons, List.mem_singleton, List.not_mem_nil,
      or_false, not_or] at h
    unfold peer_recv_callback
    simp [h]
  · intro hk
    exact general (fun x => x = m.client.rdp.state)
      (fun f hf r s h => (hk f hf r s).trans h) rfl
  · intro rfds rcount out hout
    rw [freerdp_peer_get_fds_some rt m.client rfds rcount out hout]

/-- Witness of C18: the sample peer in state NEGO, whose acceptor moves the
state to MCS_CONNECT; the sample peer in state ACTIVE receiving a FONT_LIST
PDU whose acceptor (of `sampleEnvDrift`) writes LICENSE into the state; and
the sample peer in state ACTIVE with acceptors that keep the state. -/
theorem state_written_by_handlers_only_witness :
    sampleConsts.WellFormed ∧
    (peer_recv_callback sampleConsts sampleEnv (sampleMach 1 none none [7])).2.client.rdp.state
      = (sampleEnv.rdp_server_accept_mcs_connect_initial
          (sampleMach 1 none none [7]).client.rdp [7]).2.1.state ∧
    (peer_recv_callback sampleConsts sampleEnv (sampleMach 1 none none [7])).2.client.rdp.state
      = 2 ∧
    (IsDataPdu sampleConsts sampleEnvDrift
        (sampleMach 9 (some cbTrue) (some cbTrue) (dataStream 39))
        sampleConsts.DATA_PDU_TYPE_FONT_LIST ∧
      (peer_recv_callback sampleConsts sampleEnvDrift
        (sampleMach 9 (some cbTrue) (some cbTrue) (dataStream 39))).2.client.rdp.state =
        (fontListAccept sampleEnvDrift
          (sampleMach 9 (some cbTrue) (some cbTrue) (dataStream 39))).2.1.state ∧
      (fontListAccept sampleEnvDrift
          (sampleMach 9 (some cbTrue) (some cbTrue) (dataStream 39))).2.1.state = 6) ∧
    (peer_recv_callback sampleConsts sampleEnvIdle
        (sampleMach 9 (some cbTrue) (some cbTrue) (dataStream 39))).2.client.rdp.state = 9 :=
  ⟨by decide,
    ((state_written_by_handlers_only sampleConsts sampleEnv sampleRuntime
      (sampleMach 1 none none [7])).2.1 (by decide) Phase.NEGO _ _ rfl rfl).2,
    rfl,
    ⟨by decide,
      ((state_written_by_handlers_only sampleConsts sampleEnvDrift sampleRuntime
        (sampleMach 9 (some cbTrue) (some cbTrue) (dataStream 39))).2.2.1 (by decide) rfl).2.1
        (by decide),
      rfl⟩,
    (state_written_by_handlers_only sampleConsts sampleEnvIdle sampleRuntime
      (sampleMach 9 (some cbTrue) (some cbTrue) (dataStream 39))).2.2.2.2.2.1
      sampleEnvIdle_keeps_state⟩

/-- **C19.** In the FONT_LIST case of `peer_recv_data_pdu` (the share-data
header of the stream of `m` reads successfully with type FONT_LIST): if the
font-list acceptor fails, the handler returns false, only the header reader
and the acceptor were called and the PostConnect slot keeps its value; if the
acceptor succeeds and the installed `PostConnect` returns false, the handler
returns false after that one invocation and the slot still holds the same
callback; and whenever the slot is null afterwards, it was null before or
`PostConnect` was invoked in this run and returned true. -/
theorem postConnect_nulled_only_after_success {σ S : Type} (c : Consts) (env : Env σ S)
    (m : Mach σ S) (hc : c.WellFormed)
    (hok : (env.rdp_read_share_data_header m.s).ok = true)
    (hty : (env.rdp_read_share_data_header m.s).type = c.DATA_PDU_TYPE_FONT_LIST) :
    ((env.rdp_server_accept_client_font_list_pdu m.client.rdp
          (env.rdp_read_share_data_header m.s).s).1 = false →
      (peer_recv_data_pdu c env m).1 = false ∧
      (peer_recv_data_pdu c env m).2.trace =
        m.trace ++ [Call.rdp_read_share_data_header,
          Call.rdp_server_accept_client_font_list_pdu] ∧
      (peer_recv_data_pdu c env m).2.client.PostConnect = m.client.PostConnect) ∧
    (∀ f, (env.rdp_server_accept_client_font_list_pdu m.client.rdp
          (env.rdp_read_share_data_header m.s).s).1 = true →
      m.client.PostConnect = some f →
      (f (env.rdp_server_accept_client_font_list_pdu m.client.rdp
          (env.rdp_read_share_data_header m.s).s).2.1).1 = false →
      (peer_recv_data_pdu c env m).1 = false ∧
      (peer_recv_data_pdu c env m).2.client.PostConnect = some f ∧
      (peer_recv_data_pdu c env m).2.trace =
        m.trace ++ [Call.rdp_read_share_data_header,
          Call.rdp_server_accept_client_font_list_pdu, Call.PostConnect false]) ∧
    ((peer_recv_data_pdu c env m).2.client.PostConnect = none →
      m.client.PostConnect = none ∨
      postConnectRets (peer_recv_data_pdu c env m).2.trace =
        postConnectRets m.trace ++ [true]) := by
  refine ⟨?_, ?_, ?_⟩
  · intro hacc
    rw [peer_recv_data_pdu_font_list c env m hc hok hty]
    simp [hacc]
  · intro f hacc hf hv
    rw [peer_recv_data_pdu_font_list c env m hc hok hty]
    rw [font_list_PostConnect_some (((m.setStream (env.rdp_read_share_data_header m.s).s).log
      Call.rdp_read_share_data_header).callRdp env.rdp_server_accept_client_font_list_pdu
      Call.rdp_server_accept_client_font_list_pdu).2 f hf]
    simp [hacc, hv, hf]
  · intro hnone
    rcases peer_recv_data_pdu_PCStep c env m with ⟨_, h2⟩ | ⟨_, h2, _, h4⟩ | ⟨h1, _, _⟩
    · exact Or.inl (h2.symm.trans hnone)
    · exact absurd (h2.symm.trans hnone) h4
    · exact Or.inr h1

/-- Witness of C19: the handler of the sample peer on a FONT_LIST PDU with a
rejecting `PostConnect`. -/
theorem postConnect_nulled_only_after_success_witness :
    sampleConsts.WellFormed ∧
    (sampleEnv.rdp_read_share_data_header
      (sampleMach 9 (some cbFalse) (some cbTrue) [39]).s).ok = true ∧
    (peer_recv_data_pdu sampleConsts sampleEnv
      (sampleMach 9 (some cbFalse) (some cbTrue) [39])).1 = false ∧
    (peer_recv_data_pdu sampleConsts sampleEnv
      (sampleMach 9 (some cbFalse) (some cbTrue) [39])).2.client.PostConnect = some cbFalse ∧
    (peer_recv_data_pdu sampleConsts sampleEnv
      (sampleMach 9 (some cbFalse) (some cbTrue) [39])).2.trace =
      (sampleMach 9 (some cbFalse) (some cbTrue) [39]).trace ++
        [Call.rdp_read_share_data_header, Call.rdp_server_accept_client_font_list_pdu,
          Call.PostConnect false] :=
  ⟨by decide, rfl,
    (postConnect_nulled_only_after_success sampleConsts sampleEnv
      (sampleMach 9 (some cbFalse) (some cbTrue) [39]) (by decide) rfl rfl).2.1
      cbFalse rfl rfl rfl⟩

/-- **C20.** Frame of the receive callback, in every state and on every path.
Of the slots of the handle only `PostConnect` can differ afterwards, and then
it is null: `Activate`, `ContextNew`, `ContextFree`, the four engine
operations, `sockfd` and `context_size` are as before.  When the acceptors
leave the settings alone, the settings afterwards are the settings before, or
the state was ACTIVE, the stream was TPKT on the global channel and the
settings differ only in `pdu_source`, which holds what the share-control
header reader gave; `server_mode` is as before in both cases. -/
theorem receive_callback_frame {σ S : Type} (c : Consts) (env : Env σ S) (m : Mach σ S) :
    ((peer_recv_callback c env m).2.client.Activate = m.client.Activate ∧
      (peer_recv_callback c env m).2.client.ContextNew = m.client.ContextNew ∧
      (peer_recv_callback c env m).2.client.ContextFree = m.client.ContextFree ∧
      (peer_recv_callback c env m).2.client.Initialize = m.client.Initialize ∧
      (peer_recv_callback c env m).2.client.GetFileDescriptor = m.client.GetFileDescriptor ∧
      (peer_recv_callback c env m).2.client.CheckFileDescriptor
        = m.client.CheckFileDescriptor ∧
      (peer_recv_callback c env m).2.client.Disconnect = m.client.Disconnect ∧
      (peer_recv_callback c env m).2.client.sockfd = m.client.sockfd ∧
      (peer_recv_callback c env m).2.client.context_size = m.client.context_size) ∧
    ((peer_recv_callback c env m).2.client.PostConnect = m.client.PostConnect ∨
      (peer_recv_callback c env m).2.client.PostConnect = none) ∧
    ((∀ f ∈ env.acceptors, ∀ (r : rdpRdp σ) (s : S), (f r s).2.1.settings = r.settings) →
      (peer_recv_callback c env m).2.client.rdp.settings.server_mode
        = m.client.rdp.settings.server_mode ∧
      ((peer_recv_callback c env m).2.client.rdp.settings = m.client.rdp.settings ∨
        (m.client.rdp.state = c.CONNECTION_STATE_ACTIVE ∧ IsTpktPdu env m ∧
          (rdpHeaderRead env m).channelId = c.MCS_GLOBAL_CHANNEL_ID ∧
          (peer_recv_callback c env m).2.client.rdp.settings =
            { m.client.rdp.settings with
              pdu_source := (shareControlRead env m).pdu_source }))) := by
  refine ⟨?_, ?_, ?_⟩
  · exact peer_recv_callback_handle c env
      (fun cl => cl.Activate = m.client.Activate ∧ cl.ContextNew = m.client.ContextNew ∧
        cl.ContextFree = m.client.ContextFree ∧ cl.Initialize = m.client.Initialize ∧
        cl.GetFileDescriptor = m.client.GetFileDescriptor ∧
        cl.CheckFileDescriptor = m.client.CheckFileDescriptor ∧
        cl.Disconnect = m.client.Disconnect ∧ cl.sockfd = m.client.sockfd ∧
        cl.context_size = m.client.context_size)
      ⟨fun _ _ h => h, fun _ h => h⟩ m ⟨rfl, rfl, rfl, rfl, rfl, rfl, rfl, rfl, rfl⟩
  · rcases peer_recv_callback_PCStep c env m with h | h | h
    · exact Or.inl h.2
    · exact Or.inl h.2.1
    · exact Or.inr h.2.1
  · intro hk
    have key := peer_recv_callback_settings c env m hk
    refine ⟨?_, key⟩
    rcases key with h | ⟨_, _, _, h⟩ <;> rw [h]

/-- Witness of C20: the sample peer in state ACTIVE receives a FONT_LIST PDU
on the global channel; `PostConnect` is nulled, `pdu_source` becomes the 1002
of the share-control header, the rest of the handle is as before. -/
theorem receive_callback_frame_witness :
    ((peer_recv_callback sampleConsts sampleEnv
        (sampleMach 9 (some cbTrue) (some cbTrue) (dataStream 39))).2.client.rdp.settings
        = { server_mode := true, pdu_source := 1002 }) ∧
    ((peer_recv_callback sampleConsts sampleEnv
        (sampleMach 9 (some cbTrue) (some cbTrue) (dataStream 39))).2.client.PostConnect.isNone
        = true) ∧
    ((peer_recv_callback sampleConsts sampleEnv
        (sampleMach 9 (some cbTrue) (some cbTrue) (dataStream 39))).2.client.rdp.settings.server_mode
        = (sampleMach 9 (some cbTrue) (some cbTrue) (dataStream 39)).client.rdp.settings.server_mode
      ∧
      ((peer_recv_callback sampleConsts sampleEnv
          (sampleMach 9 (some cbTrue) (some cbTrue) (dataStream 39))).2.client.rdp.settings
          = (sampleMach 9 (some cbTrue) (some cbTrue) (dataStream 39)).client.rdp.settings ∨
        ((sampleMach 9 (some cbTrue) (some cbTrue) (dataStream 39)).client.rdp.state
            = sampleConsts.CONNECTION_STATE_ACTIVE ∧
          IsTpktPdu sampleEnv (sampleMach 9 (some cbTrue) (some cbTrue) (dataStream 39)) ∧
          (rdpHeaderRead sampleEnv
            (sampleMach 9 (some cbTrue) (some cbTrue) (dataStream 39))).channelId
            = sampleConsts.MCS_GLOBAL_CHANNEL_ID ∧
          (peer_recv_callback sampleConsts sampleEnv
            (sampleMach 9 (some cbTrue) (some cbTrue) (dataStream 39))).2.client.rdp.settings =
            { (sampleMach 9 (some cbTrue) (some cbTrue) (dataStream 39)).client.rdp.settings with
              pdu_source := (shareControlRead sampleEnv
                (sampleMach 9 (some cbTrue) (some cbTrue) (dataStream 39))).pdu_source }))) :=
  ⟨by decide, by decide,
    (receive_callback_frame sampleConsts sampleEnv
      (sampleMach 9 (some cbTrue) (some cbTrue) (dataStream 39))).2.2 sampleEnv_keeps_settings⟩

end PeerEngine
